import Mathlib

/-!
# ModCollectionEntry: retry budget, transactions and persistence

A shallow embedding of `ModioModCollectionEntry.cpp` (mod.io SDK, namespace `Modio`) and of
the coroutine operations `GetGameInfoOp`, `WriteSomeToFile` and `ReadHttpResponseHeadersOp`.

Conventions of the embedding:
* member functions that mutate the entry become functions returning the new entry;
* atomics are read and written sequentially, logging calls are dropped (they never
  influence control flow);
* `uint8_t` arithmetic is written on `Nat` with an explicit `% 256`;
* `std::set` is a list of keys, with insertion keeping ascending order;
* functions and constants declared in headers outside this translation unit
  (`ErrorCodeMatches`, `DefaultNumberOfRetries`, the error-category id mapping) are fields
  of `Env` and every theorem quantifies over them.
-/

namespace Modio

/-- The six installation states of `Modio::ModState`. -/
inductive ModState
  | InstallationPending
  | Downloading
  | Extracting
  | Installed
  | UpdatePending
  | UninstallPending
  deriving DecidableEq, Repr

/-- The error conditions of `Modio::ErrorConditionTypes` that `SetLastError` asks about. -/
inductive ErrorConditionTypes
  | ModInstallRetryableError
  | ModInstallUnrecoverableError
  | ModDeleteDeferredError
  deriving DecidableEq, Repr

/-- A `std::error_code`: an `int` value together with the identity of its category object. -/
structure ErrorCode where
  value : Int
  category : Nat
  deriving DecidableEq, Repr

/-- The conversion `explicit operator bool` of `std::error_code`: true iff the value is non-zero. -/
def ErrorCode.operatorBool (ec : ErrorCode) : Bool :=
  ec.value != 0

/-- The part of `Modio::FileMetadata` that the entry reads. -/
structure FileMetadata where
  MetadataId : Int
  deriving DecidableEq, Repr

/-- The part of `Modio::ModInfo` that the entry reads: the mod id and the optional file info. -/
structure ModInfo where
  ModId : Int
  FileInfo : Option FileMetadata
  deriving DecidableEq, Repr

/-- The part of `Modio::User` that the entry reads. -/
structure User where
  UserId : Int
  deriving DecidableEq, Repr

/-- What the translation unit takes from headers it includes but does not define. -/
structure Env where
  /-- The constant `Modio::Detail::Constants::Configuration::DefaultNumberOfRetries`. -/
  DefaultNumberOfRetries : Nat
  /-- The classifier `Modio::ErrorCodeMatches`. -/
  ErrorCodeMatches : ErrorCode → ErrorConditionTypes → Bool
  /-- The mapping `Modio::Detail::ModioErrorCategoryID` from a category to its numeric id. -/
  ModioErrorCategoryID : Nat → Nat
  /-- The mapping `Modio::Detail::GetModioErrorCategoryByID` from a numeric id to a category. -/
  GetModioErrorCategoryByID : Nat → Nat

/-- The data members of `Modio::ModCollectionEntry`. -/
structure ModCollectionEntry where
  ID : Int
  CurrentState : ModState
  ModProfile : ModInfo
  LocalUserSubscriptionCount : Nat
  LocalUserSubscriptions : List Int
  PathOnDisk : String
  SizeOnDisk : Option Nat
  RetriesRemainingThisSession : Nat
  ShouldNotRetry : Bool
  NeverRetryReason : ErrorCode
  RollbackState : Option ModState
  deriving DecidableEq, Repr

/-- The call `std::set::insert`: the key is added in ascending position unless already there. -/
def setInsert (x : Int) : List Int → List Int
  | [] => [x]
  | y :: ys => if x < y then x :: y :: ys else if x = y then y :: ys else y :: setInsert x ys

/-- The call `std::set::erase` by key. -/
def setErase (x : Int) (s : List Int) : List Int :=
  s.filter (fun y => y ≠ x)

/-- The decrement `--` on a `uint8_t`. -/
def decrementU8 (n : Nat) : Nat :=
  (n + 255) % 256

namespace ModCollectionEntry

/-- Embedding of `ModCollectionEntry::GetRetriesRemaining`. -/
def GetRetriesRemaining (e : ModCollectionEntry) : Nat :=
  e.RetriesRemainingThisSession

/-- Embedding of `ModCollectionEntry::GetModState`. -/
def GetModState (e : ModCollectionEntry) : ModState :=
  e.CurrentState

/-- Embedding of `ModCollectionEntry::SetModState`. -/
def SetModState (env : Env) (e : ModCollectionEntry) (NewState : ModState) : ModCollectionEntry :=
  let e1 := { e with CurrentState := NewState }
  if e1.CurrentState = ModState.Installed then
    { e1 with RetriesRemainingThisSession := env.DefaultNumberOfRetries % 256 }
  else
    e1

/-- Embedding of `ModCollectionEntry::UpdateModProfile`. -/
def UpdateModProfile (env : Env) (e : ModCollectionEntry) (ProfileData : ModInfo) :
    ModCollectionEntry :=
  let e1 :=
    match e.ModProfile.FileInfo, ProfileData.FileInfo with
    | some old, some new =>
      if old.MetadataId ≠ new.MetadataId then SetModState env e ModState.UpdatePending else e
    | _, _ => e
  { e1 with ModProfile := ProfileData }

/-- Embedding of `ModCollectionEntry::AddLocalUserSubscription`: the new entry and the
returned `uint8_t`. -/
def AddLocalUserSubscription (e : ModCollectionEntry) (User : Option User) :
    ModCollectionEntry × Nat :=
  let e1 :=
    match User with
    | some u => { e with LocalUserSubscriptions := setInsert u.UserId e.LocalUserSubscriptions }
    | none => e
  (e1, e1.LocalUserSubscriptions.length % 256)

/-- Embedding of `ModCollectionEntry::RemoveLocalUserSubscription`: the new entry and the
returned `uint8_t`. -/
def RemoveLocalUserSubscription (e : ModCollectionEntry) (User : Option User) :
    ModCollectionEntry × Nat :=
  let e1 :=
    match User with
    | some u =>
      let e2 := { e with LocalUserSubscriptions := setErase u.UserId e.LocalUserSubscriptions }
      if e2.LocalUserSubscriptions.length = 0 then
        { e2 with CurrentState := ModState.UninstallPending }
      else
        e2
    | none => e
  (e1, e1.LocalUserSubscriptions.length % 256)

/-- Embedding of `ModCollectionEntry::MarkModNoRetryThisSession`. -/
def MarkModNoRetryThisSession (e : ModCollectionEntry) : ModCollectionEntry :=
  { e with ShouldNotRetry := true }

/-- The block shared by both countdown branches of `SetLastError`:
`if (Retries > 0) Retries--; if (Retries == 0) MarkModNoRetryThisSession();`. -/
def consumeRetry (e : ModCollectionEntry) : ModCollectionEntry :=
  let e1 :=
    if e.RetriesRemainingThisSession > 0 then
      { e with RetriesRemainingThisSession := decrementU8 e.RetriesRemainingThisSession }
    else
      e
  if e1.RetriesRemainingThisSession = 0 then MarkModNoRetryThisSession e1 else e1

/-- Embedding of `ModCollectionEntry::SetLastError`. -/
def SetLastError (env : Env) (e : ModCollectionEntry) (Reason : ErrorCode) : ModCollectionEntry :=
  if GetModState e = ModState.UninstallPending then
    if env.ErrorCodeMatches Reason ErrorConditionTypes.ModDeleteDeferredError then
      MarkModNoRetryThisSession e
    else
      consumeRetry e
  else
    if env.ErrorCodeMatches Reason ErrorConditionTypes.ModInstallRetryableError then
      consumeRetry e
    else if env.ErrorCodeMatches Reason ErrorConditionTypes.ModInstallUnrecoverableError then
      { e with NeverRetryReason := Reason }
    else
      MarkModNoRetryThisSession e

/-- Embedding of `ModCollectionEntry::ClearModNoRetry`. -/
def ClearModNoRetry (e : ModCollectionEntry) : ModCollectionEntry :=
  { e with ShouldNotRetry := false }

/-- Embedding of `ModCollectionEntry::ShouldRetry`. -/
def ShouldRetry (e : ModCollectionEntry) : Bool :=
  !e.NeverRetryReason.operatorBool && !e.ShouldNotRetry

/-- Embedding of `ModCollectionEntry::UpdateSizeOnDisk`. -/
def UpdateSizeOnDisk (e : ModCollectionEntry) (NewSize : Nat) : ModCollectionEntry :=
  { e with SizeOnDisk := some NewSize }

end ModCollectionEntry

/-- Embedding of `RollbackTransactionImpl`: `RollbackState.take()` empties the optional. -/
def RollbackTransactionImpl (Entry : ModCollectionEntry) : ModCollectionEntry :=
  match Entry.RollbackState with
  | none => Entry
  | some s => { Entry with CurrentState := s, RollbackState := none }

/-- Embedding of `BeginTransactionImpl`. -/
def BeginTransactionImpl (Entry : ModCollectionEntry) : ModCollectionEntry :=
  if Entry.CurrentState = ModState.Downloading ∨ Entry.CurrentState = ModState.Extracting ∨
      Entry.RollbackState.isSome then
    Entry
  else
    { Entry with RollbackState := some Entry.CurrentState }

/-- The JSON object written for one entry: one field per key of
`Modio::Detail::Constants::JSONKeys`, `none` standing for an absent key. The values of the
first six keys are kept typed (their serialisers belong to other translation units); the two
never-retry keys hold JSON numbers. -/
structure EntryJson where
  ModEntryID : Option Int
  ModEntryProfile : Option ModInfo
  ModEntrySubCount : Option (List Int)
  ModEntryState : Option ModState
  ModSizeOnDisk : Option (Option Nat)
  ModPathOnDisk : Option String
  ModNeverRetryCode : Option Int
  ModNeverRetryCategory : Option Nat
  deriving DecidableEq, Repr

/-- Modelled from the spec: `Modio::Detail::ParseSafe` is declared in ModioJsonHelpers.h, which
is not part of this translation unit. A missing key never aborts the load and leaves the
output variable at the value it had (for a freshly constructed target, the zero value of its
type; `from_json` relies on this when it pre-sets `StateTmp`). -/
def ParseSafe {α : Type} (field : Option α) (OutVar : α) : α :=
  match field with
  | some v => v
  | none => OutVar

/-- The conversion of a JSON integer to `uint32_t` done by `get<uint32_t>()`. -/
def toUInt32 (n : Int) : Int :=
  n % 2 ^ 32

/-- The conversion of a `uint32_t` to the `int` parameter of the `std::error_code` constructor. -/
def toInt32 (n : Int) : Int :=
  if n % 2 ^ 32 < 2 ^ 31 then n % 2 ^ 32 else n % 2 ^ 32 - 2 ^ 32

/-- Embedding of `to_json(nlohmann::json&, const ModCollectionEntry&)`. -/
def ModCollectionEntry.to_json (env : Env) (Entry : ModCollectionEntry) : EntryJson :=
  let EntryState :=
    if Entry.CurrentState = ModState.Downloading ∨ Entry.CurrentState = ModState.Extracting then
      match Entry.RollbackState with
      | some r => r
      | none => ModState.InstallationPending
    else
      Entry.CurrentState
  { ModEntryID := some Entry.ID
    ModEntryProfile := some Entry.ModProfile
    ModEntrySubCount := some Entry.LocalUserSubscriptions
    ModEntryState := some EntryState
    ModSizeOnDisk := some Entry.SizeOnDisk
    ModPathOnDisk := some Entry.PathOnDisk
    ModNeverRetryCode := some Entry.NeverRetryReason.value
    ModNeverRetryCategory := some (env.ModioErrorCategoryID Entry.NeverRetryReason.category) }

/-- Embedding of `from_json(const nlohmann::json&, ModCollectionEntry&)`. -/
def ModCollectionEntry.from_json (env : Env) (j : EntryJson) (Entry : ModCollectionEntry) :
    ModCollectionEntry :=
  let e1 :=
    { Entry with
      ID := ParseSafe j.ModEntryID Entry.ID
      ModProfile := ParseSafe j.ModEntryProfile Entry.ModProfile
      LocalUserSubscriptions := ParseSafe j.ModEntrySubCount Entry.LocalUserSubscriptions
      SizeOnDisk := ParseSafe j.ModSizeOnDisk Entry.SizeOnDisk
      CurrentState := ParseSafe j.ModEntryState ModState.InstallationPending
      PathOnDisk := ParseSafe j.ModPathOnDisk Entry.PathOnDisk }
  match j.ModNeverRetryCode, j.ModNeverRetryCategory with
  | some code, some cat =>
    { e1 with
      NeverRetryReason :=
        { value := toInt32 (toUInt32 code), category := env.GetModioErrorCategoryByID cat } }
  | _, _ => e1

/-- One call on an entry, with its arguments. -/
inductive EntryOp
  | SetModState (NewState : ModState)
  | SetLastError (Reason : ErrorCode)
  | MarkModNoRetryThisSession
  | ClearModNoRetry
  | AddLocalUserSubscription (User : Option User)
  | RemoveLocalUserSubscription (User : Option User)
  | UpdateModProfile (ProfileData : ModInfo)
  | UpdateSizeOnDisk (NewSize : Nat)
  | BeginTransaction
  | RollbackTransaction
  deriving DecidableEq, Repr

/-- The entry after one call. -/
def applyOp (env : Env) (e : ModCollectionEntry) : EntryOp → ModCollectionEntry
  | .SetModState s => e.SetModState env s
  | .SetLastError r => e.SetLastError env r
  | .MarkModNoRetryThisSession => e.MarkModNoRetryThisSession
  | .ClearModNoRetry => e.ClearModNoRetry
  | .AddLocalUserSubscription u => (e.AddLocalUserSubscription u).1
  | .RemoveLocalUserSubscription u => (e.RemoveLocalUserSubscription u).1
  | .UpdateModProfile p => e.UpdateModProfile env p
  | .UpdateSizeOnDisk n => e.UpdateSizeOnDisk n
  | .BeginTransaction => BeginTransactionImpl e
  | .RollbackTransaction => RollbackTransactionImpl e

/-- The entry after a sequence of calls, first call first. -/
def runOps (env : Env) (e : ModCollectionEntry) (ops : List EntryOp) : ModCollectionEntry :=
  ops.foldl (applyOp env) e

/-- Embedding of `ModCollectionEntry::operator=`: it assigns eight members from `Other`, the
countdown among them; ShouldNotRetry, NeverRetryReason and RollbackState keep the values the
assigned-to entry had. -/
def ModCollectionEntry.assign (e Other : ModCollectionEntry) : ModCollectionEntry :=
  { e with
    ID := Other.ID
    CurrentState := Other.CurrentState
    ModProfile := Other.ModProfile
    LocalUserSubscriptions := Other.LocalUserSubscriptions
    LocalUserSubscriptionCount := Other.LocalUserSubscriptionCount
    PathOnDisk := Other.PathOnDisk
    SizeOnDisk := Other.SizeOnDisk
    RetriesRemainingThisSession := Other.RetriesRemainingThisSession }

/-- One write to an existing entry: a call of `EntryOp`, the copy assignment `operator=` from
another entry, or `from_json` reading a JSON object into the entry. Together with the
constructors, which make a new entry, these are all the functions of the translation unit
that store to `CurrentState`. -/
inductive EntryWrite
  | call (op : EntryOp)
  | assign (Other : ModCollectionEntry)
  | from_json (j : EntryJson)
  deriving DecidableEq, Repr

/-- The entry after one write. -/
def applyWrite (env : Env) (e : ModCollectionEntry) : EntryWrite → ModCollectionEntry
  | .call op => applyOp env e op
  | .assign Other => e.assign Other
  | .from_json j => ModCollectionEntry.from_json env j e

/-- The entry after `SetLastError` has been called with each reason in turn. -/
def SetLastErrorAll (env : Env) (e : ModCollectionEntry) (rs : List ErrorCode) :
    ModCollectionEntry :=
  rs.foldl (fun acc r => acc.SetLastError env r) e

/-- The entry after `SetModState` has been called with each state in turn. -/
def SetModStateAll (env : Env) (e : ModCollectionEntry) (ss : List ModState) :
    ModCollectionEntry :=
  ss.foldl (fun acc s => acc.SetModState env s) e

/-- A sample environment: three retries, error values 1, 2 and 3 classified as retryable,
unrecoverable and delete-deferred, categories numbered by themselves. -/
def demoEnv : Env where
  DefaultNumberOfRetries := 3
  ErrorCodeMatches := fun ec c =>
    match c with
    | .ModInstallRetryableError => ec.value == 1
    | .ModInstallUnrecoverableError => ec.value == 2
    | .ModDeleteDeferredError => ec.value == 3
  ModioErrorCategoryID := fun c => c
  GetModioErrorCategoryByID := fun n => n

/-- A sample entry: mod 7, subscribed to by user 1, in the given state with the given
countdown, nothing else recorded. -/
def demoEntry (s : ModState) (retries : Nat) : ModCollectionEntry where
  ID := 7
  CurrentState := s
  ModProfile := { ModId := 7, FileInfo := none }
  LocalUserSubscriptionCount := 0
  LocalUserSubscriptions := [1]
  PathOnDisk := "mods/7"
  SizeOnDisk := none
  RetriesRemainingThisSession := retries
  ShouldNotRetry := false
  NeverRetryReason := { value := 0, category := 0 }
  RollbackState := none

/-! ## The collection, the subscription list and their helpers -/

/-- Modelled from the spec: the class declaration of `ModCollectionEntry`, with its default
member initialisers, is in ModioModCollectionEntry.h, outside this translation unit. A
default-constructed entry has every member at the zero value of its type, the state at the
initial state InstallationPending and the countdown at the configured default; a default
`std::error_code` has value 0 in the system category (numbered 0 here). A constructor leaves a
member it does not name at the value given here. -/
def memberDefaults (env : Env) : ModCollectionEntry where
  ID := 0
  CurrentState := ModState.InstallationPending
  ModProfile := { ModId := 0, FileInfo := none }
  LocalUserSubscriptionCount := 0
  LocalUserSubscriptions := []
  PathOnDisk := ""
  SizeOnDisk := none
  RetriesRemainingThisSession := env.DefaultNumberOfRetries % 256
  ShouldNotRetry := false
  NeverRetryReason := { value := 0, category := 0 }
  RollbackState := none

/-- Embedding of the constructor `ModCollectionEntry(ModInfo ProfileData, std::string
CalculatedModPath)`. -/
def ModCollectionEntry.create (env : Env) (ProfileData : ModInfo) (CalculatedModPath : String) :
    ModCollectionEntry :=
  { memberDefaults env with
    ID := ProfileData.ModId
    CurrentState := ModState.InstallationPending
    ModProfile := ProfileData
    LocalUserSubscriptions := []
    PathOnDisk := CalculatedModPath
    RetriesRemainingThisSession := env.DefaultNumberOfRetries % 256 }

/-- Embedding of the copy constructor `ModCollectionEntry(const ModCollectionEntry& Other)`:
it names eight members; ShouldNotRetry, NeverRetryReason and RollbackState are not among
them. -/
def ModCollectionEntry.copy (env : Env) (Other : ModCollectionEntry) : ModCollectionEntry :=
  { memberDefaults env with
    ID := Other.ID
    CurrentState := Other.CurrentState
    ModProfile := Other.ModProfile
    LocalUserSubscriptionCount := Other.LocalUserSubscriptionCount
    LocalUserSubscriptions := Other.LocalUserSubscriptions
    PathOnDisk := Other.PathOnDisk
    SizeOnDisk := Other.SizeOnDisk
    RetriesRemainingThisSession := env.DefaultNumberOfRetries % 256 }

/-- Lookup in a `std::map` held as a list of key-value pairs in ascending key order
(`find`, `count`, `at`). -/
def mapFind {β : Type} (k : Int) : List (Int × β) → Option β
  | [] => none
  | (k1, v) :: rest => if k = k1 then some v else mapFind k rest

/-- The assignment `Map[k] = v` on a `std::map`: the value under an existing key is replaced,
a new key is inserted at its ascending position. -/
def mapAssign {β : Type} (k : Int) (v : β) : List (Int × β) → List (Int × β)
  | [] => [(k, v)]
  | (k1, v1) :: rest =>
    if k < k1 then (k, v) :: (k1, v1) :: rest
    else if k = k1 then (k, v) :: rest
    else (k1, v1) :: mapAssign k v rest

/-- The call `std::map::erase` by key. -/
def mapErase {β : Type} (k : Int) (m : List (Int × β)) : List (Int × β) :=
  m.filter (fun kv => kv.1 ≠ k)

/-- The enumeration `UserSubscriptionList::ChangeType`. -/
inductive ChangeType
  | Added
  | Removed
  deriving DecidableEq, Repr

/-- The data member of `Modio::UserSubscriptionList`: a `std::set<ModID>`, as the list of its
elements in ascending order. -/
structure UserSubscriptionList where
  InternalList : List Int
  deriving DecidableEq, Repr

/-- The algorithm `std::set_symmetric_difference` on two ascending ranges. -/
def set_symmetric_difference : List Int → List Int → List Int
  | [], l2 => l2
  | x :: xs, [] => x :: xs
  | x :: xs, y :: ys =>
    if x < y then x :: set_symmetric_difference xs (y :: ys)
    else if y < x then y :: set_symmetric_difference (x :: xs) ys
    else set_symmetric_difference xs ys
termination_by l1 l2 => l1.length + l2.length

namespace UserSubscriptionList

/-- Embedding of the constructors `UserSubscriptionList(std::vector<Modio::ModID>)`. -/
def ofVector (NewIDs : List Int) : UserSubscriptionList :=
  { InternalList := NewIDs.foldl (fun s x => setInsert x s) [] }

/-- Embedding of `UserSubscriptionList::AddMod`: the new list and whether the id was inserted. -/
def AddMod (l : UserSubscriptionList) (Mod : ModInfo) : UserSubscriptionList × Bool :=
  ({ InternalList := setInsert Mod.ModId l.InternalList }, !l.InternalList.contains Mod.ModId)

/-- Embedding of `UserSubscriptionList::RemoveMod`. -/
def RemoveMod (l : UserSubscriptionList) (Mod : Int) : UserSubscriptionList :=
  { InternalList := setErase Mod l.InternalList }

/-- Embedding of `UserSubscriptionList::Get`. -/
def Get (l : UserSubscriptionList) : List Int :=
  l.InternalList

/-- Embedding of `UserSubscriptionList::CalculateChanges`. -/
def CalculateChanges (Original Updated : UserSubscriptionList) : List (Int × ChangeType) :=
  let ChangedMods := set_symmetric_difference Original.InternalList Updated.InternalList
  ChangedMods.foldl
    (fun Diff ChangedModID =>
      if !Original.InternalList.contains ChangedModID then
        mapAssign ChangedModID ChangeType.Added Diff
      else
        mapAssign ChangedModID ChangeType.Removed Diff)
    []

end UserSubscriptionList

/-- The algorithm `std::partition` as the standard libraries implement it for bidirectional
iterators (libstdc++, libc++ and the Microsoft STL alike): the front cursor skips elements
that satisfy the predicate, the back cursor skips elements that do not, the two elements the
cursors stop at are swapped, and the loop goes on between them. Returns the rearranged range
and the partition point (the index of the first element of the second group). -/
def stdPartition {α : Type} (p : α → Bool) : List α → List α × Nat
  | [] => ([], 0)
  | x :: xs =>
    if p x then
      ((x :: (stdPartition p xs).1), (stdPartition p xs).2 + 1)
    else
      match h : xs.reverse.dropWhile (fun a => !p a) with
      | [] => (x :: xs, 0)
      | y :: midRev =>
        ((y :: (stdPartition p midRev.reverse).1) ++
            x :: (xs.reverse.takeWhile (fun a => !p a)).reverse,
          (stdPartition p midRev.reverse).2 + 1)
termination_by l => l.length
decreasing_by
  all_goals simp_wf
  all_goals
    have hlen := congrArg List.length h
    have hle := (List.dropWhile_sublist (fun a => !p a) (l := xs.reverse)).length_le
    simp only [List.length_cons, List.length_reverse] at hlen hle
    omega

/-- The data member of `Modio::ModCollection`: a `std::map` from mod id to entry. The entries
are held by value; sharing through `std::shared_ptr` is not represented. -/
structure ModCollection where
  ModEntries : List (Int × ModCollectionEntry)
  deriving DecidableEq, Repr

namespace ModCollection

/-- Embedding of `ModCollection::FilterByUserSubscriptions`. -/
def FilterByUserSubscriptions (c : ModCollection) (UserSubscriptions : UserSubscriptionList) :
    ModCollection :=
  UserSubscriptions.Get.foldl
    (fun FilteredCollection UserModID =>
      match mapFind UserModID c.ModEntries with
      | some e => { ModEntries := mapAssign UserModID e FilteredCollection.ModEntries }
      | none => FilteredCollection)
    { ModEntries := [] }

/-- Embedding of `ModCollection::AddOrUpdateMod`: the new collection and the returned flag. -/
def AddOrUpdateMod (env : Env) (c : ModCollection) (ModToAdd : ModInfo)
    (CalculatedModPath : String) : ModCollection × Bool :=
  match mapFind ModToAdd.ModId c.ModEntries with
  | none =>
    ({ ModEntries :=
        mapAssign ModToAdd.ModId (ModCollectionEntry.create env ModToAdd CalculatedModPath)
          c.ModEntries },
      true)
  | some e =>
    ({ ModEntries := mapAssign ModToAdd.ModId (e.UpdateModProfile env ModToAdd) c.ModEntries },
      false)

/-- Embedding of `ModCollection::GetByModID`. -/
def GetByModID (c : ModCollection) (ModId : Int) : Option ModCollectionEntry :=
  mapFind ModId c.ModEntries

/-- Embedding of `ModCollection::RemoveMod`: the new collection and the returned flag. -/
def RemoveMod (c : ModCollection) (ModId : Int) (bForce : Bool) : ModCollection × Bool :=
  match mapFind ModId c.ModEntries with
  | some e =>
    if e.GetModState = ModState.UninstallPending ∨ bForce = true then
      ({ ModEntries := mapErase ModId c.ModEntries }, true)
    else
      (c, false)
  | none => (c, false)

/-- Embedding of `ModCollection::SortEntriesByRetryPriority`. -/
def SortEntriesByRetryPriority (env : Env) (c : ModCollection) : List ModCollectionEntry :=
  let SortedEntries := c.ModEntries.map (fun kv => kv.2)
  let first := stdPartition (fun Elem => Elem.ShouldRetry) SortedEntries
  let second :=
    stdPartition (fun Elem => decide (Elem.GetRetriesRemaining = env.DefaultNumberOfRetries))
      (first.1.take first.2)
  second.1 ++ first.1.drop first.2

end ModCollection

/-- A JSON value at collection level, as far as `to_json` builds it and `from_json` looks into
it: an object, of which the member stored with the key `JSONKeys::ModCollection` is kept
(`none` when the object has no such key), or the two-element array whose first element is the
string `JSONKeys::ModCollection` and whose second element is the array of the given entry
objects. -/
inductive CollectionJson
  | object (member : Option (List EntryJson))
  | array (ResolvedEntries : List EntryJson)
  deriving DecidableEq, Repr

/-- The member of a JSON value stored with the key `JSONKeys::ModCollection`, as a lookup by
key sees it (`contains`, `find`, `at`): only an object has members, so in an array, whatever
its elements are, the key is not found. -/
def CollectionJson.ModCollection : CollectionJson → Option (List EntryJson)
  | .object member => member
  | .array _ => none

/-- Embedding of `to_json(nlohmann::json&, const Modio::ModCollection&)`: `push_back` copies
each entry into `ResolvedEntries` with the copy constructor before it is written. The value
assigned is the braced list `{JSONKeys::ModCollection, ResolvedEntries}`; nlohmann::json takes
a braced list for an object only when every element is itself a two-element array that starts
with a string, and here the first element is a string, so the value built is the array of the
key and the entries, not an object holding the entries under the key. -/
def ModCollection.to_json (env : Env) (Collection : ModCollection) : CollectionJson :=
  let ResolvedEntries := Collection.ModEntries.map (fun Mod => ModCollectionEntry.copy env Mod.2)
  CollectionJson.array (ResolvedEntries.map (fun e => e.to_json env))

/-- Embedding of `from_json(const nlohmann::json&, Modio::ModCollection&)`: `ParseSafe` looks
the key `JSONKeys::ModCollection` up in `Json` and leaves `LoadedEntries` empty when it is not
found; each element is read into a default-constructed entry, and
`std::make_shared<ModCollectionEntry>(Entry)` copies it into the map with the copy
constructor. -/
def ModCollection.from_json (env : Env) (Json : CollectionJson) (Collection : ModCollection) :
    ModCollection :=
  let LoadedEntries :=
    (ParseSafe Json.ModCollection []).map
      (fun j => ModCollectionEntry.from_json env j (memberDefaults env))
  LoadedEntries.foldl
    (fun acc Entry =>
      { ModEntries := mapAssign Entry.ID (ModCollectionEntry.copy env Entry) acc.ModEntries })
    Collection

/-- The rollback state, if any, is neither Downloading nor Extracting. -/
def RollbackNotTransitional (e : ModCollectionEntry) : Prop :=
  e.RollbackState ≠ some ModState.Downloading ∧ e.RollbackState ≠ some ModState.Extracting

/-- A sample collection: mod 3 Installed, mod 5 UninstallPending, mod 9 Downloading. -/
def demoCollection : ModCollection where
  ModEntries :=
    [(3, { demoEntry ModState.Installed 3 with ID := 3 }),
      (5, { demoEntry ModState.UninstallPending 3 with ID := 5 }),
      (9, { demoEntry ModState.Downloading 3 with ID := 9 })]

/-- The first group of the retry ordering: may be retried, countdown untouched. -/
def eligibleUntouched (env : Env) (e : ModCollectionEntry) : Bool :=
  e.ShouldRetry && decide (e.GetRetriesRemaining = env.DefaultNumberOfRetries)

/-- The second group of the retry ordering: may be retried, countdown partly consumed. -/
def eligibleConsumed (env : Env) (e : ModCollectionEntry) : Bool :=
  e.ShouldRetry && !decide (e.GetRetriesRemaining = env.DefaultNumberOfRetries)

/-- The third group of the retry ordering: not to be retried. -/
def notEligible (e : ModCollectionEntry) : Bool :=
  !e.ShouldRetry

/-- A sample collection for the retry ordering: mod 1 has the sticky flag set, mods 2 and 3
are untouched. -/
def demoRetryCollection : ModCollection where
  ModEntries :=
    [(1, { demoEntry ModState.Installed 3 with ID := 1, ShouldNotRetry := true }),
      (2, { demoEntry ModState.Installed 3 with ID := 2 }),
      (3, { demoEntry ModState.Installed 3 with ID := 3 })]

/-- A sample subscriber set with 256 users, numbered 0 to 255. -/
def demoCrowd : List Int :=
  List.map Int.ofNat (List.range 256)

/-! ## Asynchronous operations

Each operation is a function object whose call operator is an `asio` stackless coroutine.
One call of the operator is one function application here: it takes the operation, what the
platform answers during that call and the error code passed in, and returns the operation
afterwards together with the calls it made, in order. -/

/-- The value of an `asio::coroutine`: 0 before the first entry, the label of the `yield` it
is suspended at, and -1 once the body was left other than through a `yield`. -/
inductive CoroutineValue
  | initial
  | suspended (label : Nat)
  | complete
  deriving DecidableEq, Repr

/-- The enumerators of `Modio::GenericError` that the operations use. -/
inductive GenericError
  | OperationCanceled
  | CouldNotCreateHandle
  deriving DecidableEq, Repr

/-- The enumerators of `Modio::HttpError` that the operations use. -/
inductive HttpError
  | InvalidResponse
  | RequestError
  deriving DecidableEq, Repr

/-- The enumerators of `Modio::FilesystemError` that the operations use. -/
inductive FilesystemError
  | NoPermission
  | WriteError
  deriving DecidableEq, Repr

/-- The overloads of `Modio::make_error_code`, defined in ModioErrorCode.h. -/
structure OpEnv where
  GenericErrorCode : GenericError → ErrorCode
  HttpErrorCode : HttpError → ErrorCode
  FilesystemErrorCode : FilesystemError → ErrorCode

/-- What `GetGameInfoOp` takes from the cache service and the response marshalling, both
defined outside the header: the cache lookup, the cache insertion and `TryMarshalResponse`. -/
structure GameInfoServices (Cache GameInfo : Type) where
  FetchGameInfoFromCache : Cache → Int → Option GameInfo
  AddToCache : Cache → GameInfo → Cache
  TryMarshalResponse : List Nat → Option GameInfo

/-- The data members of `Modio::Detail::GetGameInfoOp`. -/
structure GetGameInfoOp where
  ResponseBodyBuffer : List Nat
  GameID : Int
  ApiKey : String
  CoroutineState : CoroutineValue
  deriving DecidableEq, Repr

/-- The calls `GetGameInfoOp` makes that are visible outside it. -/
inductive GetGameInfoEffect (GameInfo : Type)
  | PerformRequestAndGetResponseAsync (GameID : Int)
  | AddToCache (Game : GameInfo)
  | complete (ec : ErrorCode) (Value : Option GameInfo)
  deriving DecidableEq, Repr

/-- The outcome of one call of `GetGameInfoOp::operator()`. -/
structure GetGameInfoResult (Cache GameInfo : Type) where
  op : GetGameInfoOp
  cache : Cache
  effects : List (GetGameInfoEffect GameInfo)

/-- Embedding of `GetGameInfoOp::operator()`. The response body is in `ResponseBodyBuffer`
when the operation is resumed after its `yield`. -/
def GetGameInfoOp.invoke {Cache GameInfo : Type} (oe : OpEnv)
    (svc : GameInfoServices Cache GameInfo) (cache : Cache) (op : GetGameInfoOp)
    (ec : ErrorCode) : GetGameInfoResult Cache GameInfo :=
  match op.CoroutineState with
  | .initial =>
    match svc.FetchGameInfoFromCache cache op.GameID with
    | some CachedGameInfo =>
      { op := { op with CoroutineState := .complete }
        cache := cache
        effects := [.complete { value := 0, category := 0 } (some CachedGameInfo)] }
    | none =>
      { op := { op with CoroutineState := .suspended 1 }
        cache := cache
        effects := [.PerformRequestAndGetResponseAsync op.GameID] }
  | .suspended 1 =>
    if ec.operatorBool then
      { op := { op with CoroutineState := .complete }
        cache := cache
        effects := [.complete ec none] }
    else
      match svc.TryMarshalResponse op.ResponseBodyBuffer with
      | some GameInfoData =>
        { op := { op with CoroutineState := .complete }
          cache := svc.AddToCache cache GameInfoData
          effects := [.AddToCache GameInfoData, .complete ec (some GameInfoData)] }
      | none =>
        { op := { op with CoroutineState := .complete }
          cache := cache
          effects := [.complete (oe.HttpErrorCode HttpError.InvalidResponse) none] }
  | .suspended _ => { op := { op with CoroutineState := .complete }, cache := cache, effects := [] }
  | .complete => { op := op, cache := cache, effects := [] }

/-- The enumeration `Modio::Detail::FileMode`. -/
inductive FileMode
  | ReadOnly
  | ReadWrite
  deriving DecidableEq, Repr

/-- The fields of the Win32 `OVERLAPPED` structure that the write operation sets. -/
structure OVERLAPPED where
  hEvent : Int
  Offset : Nat
  OffsetHigh : Nat
  deriving DecidableEq, Repr

/-- The Win32 constant `INVALID_HANDLE_VALUE`. -/
def INVALID_HANDLE_VALUE : Int :=
  -1

/-- The Win32 constant `ERROR_IO_PENDING`. -/
def ERROR_IO_PENDING : Nat :=
  997

/-- The data members of `WriteSomeToFile` (the timer aside, which holds no state of
interest). -/
structure WriteSomeToFile where
  Buffer : List Nat
  FileOffset : Nat
  WriteOpParams : Option OVERLAPPED
  Coroutine : CoroutineValue
  deriving DecidableEq, Repr

/-- What the file object and the Win32 calls answer during one call of
`WriteSomeToFile::operator()`: `CreateEvent` is the handle returned (0 for NULL), `WriteFile`
the BOOL returned. -/
structure WritePlatform where
  ShouldCancel : Bool
  GetFileMode : FileMode
  CreateEvent : Int
  WriteFile : Bool
  GetLastError : Nat
  HasOverlappedIoCompleted : Bool
  deriving DecidableEq, Repr

/-- The calls `WriteSomeToFile` makes that are visible outside it. -/
inductive WriteEffect
  | post
  | CreateEvent
  | WriteFile (Offset OffsetHigh NumberOfBytes : Nat)
  | HasOverlappedIoCompleted
  | WaitAsync
  | complete (ec : ErrorCode) (Result : Option (List Nat))
  deriving DecidableEq, Repr

/-- The outcome of one call of `WriteSomeToFile::operator()`. -/
structure WriteResult where
  op : WriteSomeToFile
  effects : List WriteEffect
  deriving DecidableEq, Repr

/-- The polling loop of `WriteSomeToFile` and what follows it; `pre` are the calls already
made in this call of the operator. -/
def WriteSomeToFile.poll (pf : WritePlatform) (op : WriteSomeToFile) (pre : List WriteEffect) :
    WriteResult :=
  if !pf.HasOverlappedIoCompleted then
    { op := { op with Coroutine := .suspended 2 }
      effects := pre ++ [.HasOverlappedIoCompleted, .WaitAsync] }
  else
    { op := { op with Buffer := [], Coroutine := .complete }
      effects := pre ++ [.HasOverlappedIoCompleted, .complete { value := 0, category := 0 } none] }

/-- Embedding of `WriteSomeToFile::operator()`; the lower-case `self` in the read-only branch
is read as `Self`. -/
def WriteSomeToFile.invoke (oe : OpEnv) (pf : WritePlatform) (op : WriteSomeToFile)
    (_ec : ErrorCode) : WriteResult :=
  if pf.ShouldCancel then
    { op := op, effects := [.complete (oe.GenericErrorCode GenericError.OperationCanceled) none] }
  else if pf.GetFileMode = FileMode.ReadOnly then
    { op := op, effects := [.complete (oe.FilesystemErrorCode FilesystemError.NoPermission) none] }
  else
    match op.Coroutine with
    | .initial =>
      if op.Buffer.length = 0 then
        { op := { op with Coroutine := .complete }
          effects := [.complete { value := 0, category := 0 } (some [])] }
      else
        { op := { op with Coroutine := .suspended 1 }, effects := [.post] }
    | .suspended 1 =>
      if pf.CreateEvent = 0 then
        { op :=
            { op with
              WriteOpParams := some { hEvent := INVALID_HANDLE_VALUE, Offset := 0, OffsetHigh := 0 }
              Coroutine := .complete }
          effects :=
            [.CreateEvent,
              .complete (oe.GenericErrorCode GenericError.CouldNotCreateHandle) none] }
      else
        let op1 : WriteSomeToFile :=
          { op with
            WriteOpParams :=
              some
                { hEvent := pf.CreateEvent
                  Offset := op.FileOffset % 2 ^ 32
                  OffsetHigh := op.FileOffset / 2 ^ 32 % 2 ^ 32 } }
        let write : WriteEffect :=
          .WriteFile (op.FileOffset % 2 ^ 32) (op.FileOffset / 2 ^ 32 % 2 ^ 32) op.Buffer.length
        if !pf.WriteFile then
          if pf.GetLastError ≠ ERROR_IO_PENDING then
            { op := { op1 with Coroutine := .complete }
              effects :=
                [.CreateEvent, write,
                  .complete (oe.FilesystemErrorCode FilesystemError.WriteError) none] }
          else
            WriteSomeToFile.poll pf op1 [.CreateEvent, write]
        else
          { op := { op1 with Buffer := [], Coroutine := .complete }
            effects := [.CreateEvent, write, .complete { value := 0, category := 0 } none] }
    | .suspended 2 => WriteSomeToFile.poll pf op []
    | .suspended _ => { op := { op with Coroutine := .complete }, effects := [] }
    | .complete => { op := op, effects := [] }

/-- The values of `WinHTTPCallbackStatus` that the code names, and the others by number. -/
inductive WinHTTPCallbackStatus
  | Waiting
  | RequestError
  | DataAvailable
  | Other (status : Nat)
  deriving DecidableEq, Repr

/-- The members of `HttpRequestImplementation` that the header operation uses. -/
structure HttpRequestImplementation where
  RequestHandle : Int
  ResponseCode : Nat
  deriving DecidableEq, Repr

/-- The data members of `ReadHttpResponseHeadersOp` (the weak pointer and the timer aside:
whether the shared state is still alive is an answer of the platform). -/
structure ReadHttpResponseHeadersOp where
  Request : HttpRequestImplementation
  CoroutineState : CoroutineValue
  deriving DecidableEq, Repr

/-- What the shared state and the WinHTTP calls answer during one call of
`ReadHttpResponseHeadersOp::operator()`: `SharedStateExpired` says that `SharedState.lock()`
returned null. -/
structure HttpPlatform where
  SharedStateExpired : Bool
  IsClosing : Bool
  WinHttpReceiveResponse : Bool
  PeekHandleStatus : WinHTTPCallbackStatus
  FetchAndClearHandleStatus : WinHTTPCallbackStatus
  WinHttpQueryHeaders : Bool
  StatusCode : Nat
  deriving DecidableEq, Repr

/-- The calls `ReadHttpResponseHeadersOp` makes that are visible outside it. -/
inductive HttpEffect
  | WinHttpReceiveResponse
  | PeekHandleStatus
  | WaitAsync
  | FetchAndClearHandleStatus
  | WinHttpQueryHeaders
  | complete (ec : ErrorCode)
  deriving DecidableEq, Repr

/-- The outcome of one call of `ReadHttpResponseHeadersOp::operator()`. -/
structure HttpResult where
  op : ReadHttpResponseHeadersOp
  effects : List HttpEffect
  deriving DecidableEq, Repr

/-- The polling loop of `ReadHttpResponseHeadersOp` and the `switch` that follows it; `pre`
are the calls already made in this call of the operator. -/
def ReadHttpResponseHeadersOp.poll (oe : OpEnv) (pf : HttpPlatform)
    (op : ReadHttpResponseHeadersOp) (pre : List HttpEffect) : HttpResult :=
  if pf.PeekHandleStatus = WinHTTPCallbackStatus.Waiting then
    { op := { op with CoroutineState := .suspended 1 }
      effects := pre ++ [.PeekHandleStatus, .WaitAsync] }
  else
    match pf.FetchAndClearHandleStatus with
    | .RequestError =>
      { op := { op with CoroutineState := .complete }
        effects :=
          pre ++ [.PeekHandleStatus, .FetchAndClearHandleStatus,
            .complete (oe.HttpErrorCode HttpError.RequestError)] }
    | _ =>
      if pf.WinHttpQueryHeaders then
        { op :=
            { op with
              Request := { op.Request with ResponseCode := pf.StatusCode }
              CoroutineState := .complete }
          effects :=
            pre ++ [.PeekHandleStatus, .FetchAndClearHandleStatus, .WinHttpQueryHeaders,
              .complete { value := 0, category := 0 }] }
      else
        { op := { op with CoroutineState := .complete }
          effects :=
            pre ++ [.PeekHandleStatus, .FetchAndClearHandleStatus, .WinHttpQueryHeaders,
              .complete (oe.HttpErrorCode HttpError.RequestError)] }

/-- Embedding of `ReadHttpResponseHeadersOp::operator()`. -/
def ReadHttpResponseHeadersOp.invoke (oe : OpEnv) (pf : HttpPlatform)
    (op : ReadHttpResponseHeadersOp) (_ec : ErrorCode) : HttpResult :=
  if pf.SharedStateExpired || pf.IsClosing then
    { op := op, effects := [.complete (oe.GenericErrorCode GenericError.OperationCanceled)] }
  else
    match op.CoroutineState with
    | .initial =>
      if !pf.WinHttpReceiveResponse then
        { op := { op with CoroutineState := .complete }
          effects :=
            [.WinHttpReceiveResponse, .complete (oe.HttpErrorCode HttpError.RequestError)] }
      else
        ReadHttpResponseHeadersOp.poll oe pf op [.WinHttpReceiveResponse]
    | .suspended 1 => ReadHttpResponseHeadersOp.poll oe pf op []
    | .suspended _ => { op := { op with CoroutineState := .complete }, effects := [] }
    | .complete => { op := op, effects := [] }

/-- Sample error codes: the six enumerators numbered 20 to 25 in category 1. -/
def demoOpEnv : OpEnv where
  GenericErrorCode := fun e =>
    match e with
    | .OperationCanceled => { value := 20, category := 1 }
    | .CouldNotCreateHandle => { value := 21, category := 1 }
  HttpErrorCode := fun e =>
    match e with
    | .InvalidResponse => { value := 22, category := 1 }
    | .RequestError => { value := 23, category := 1 }
  FilesystemErrorCode := fun e =>
    match e with
    | .NoPermission => { value := 24, category := 1 }
    | .WriteError => { value := 25, category := 1 }

/-- Sample services: the cache is a map from game id to game name, a game is its id with its
name, and a response body decodes when it is not empty, its first byte being the id. -/
def demoServices : GameInfoServices (List (Int × String)) (Int × String) where
  FetchGameInfoFromCache := fun cache id => (mapFind id cache).map (fun name => (id, name))
  AddToCache := fun cache g => mapAssign g.1 g.2 cache
  TryMarshalResponse := fun body =>
    match body with
    | [] => none
    | b :: _ => some (Int.ofNat b, "game")

/-! ## Constructors and runs of the operations -/

/-- Embedding of the constructor `GetGameInfoOp(Modio::GameID, Modio::ApiKey)`: the buffer and
the coroutine are default-constructed. -/
def GetGameInfoOp.create (GameID : Int) (ApiKey : String) : GetGameInfoOp :=
  { ResponseBodyBuffer := [], GameID := GameID, ApiKey := ApiKey,
    CoroutineState := CoroutineValue.initial }

/-- Embedding of the constructor `WriteSomeToFile(IOObject, Offset, Buffer)`: the control
structure is empty and the coroutine default-constructed; the file object is represented by
its answers at each call. -/
def WriteSomeToFile.create (Offset : Nat) (Buffer : List Nat) : WriteSomeToFile :=
  { Buffer := Buffer, FileOffset := Offset, WriteOpParams := none,
    Coroutine := CoroutineValue.initial }

/-- Embedding of the constructor `ReadHttpResponseHeadersOp(Request, SharedState)`. -/
def ReadHttpResponseHeadersOp.create (Request : HttpRequestImplementation) :
    ReadHttpResponseHeadersOp :=
  { Request := Request, CoroutineState := CoroutineValue.initial }

/-- Whether a call made by `GetGameInfoOp` is the completion. -/
def GetGameInfoEffect.isComplete {GameInfo : Type} : GetGameInfoEffect GameInfo → Bool
  | .complete _ _ => true
  | _ => false

/-- Whether a call made by `GetGameInfoOp` hands the operation to a sub-operation that will
resume it (the HTTP request). -/
def GetGameInfoEffect.isSuspend {GameInfo : Type} : GetGameInfoEffect GameInfo → Bool
  | .PerformRequestAndGetResponseAsync _ => true
  | _ => false

/-- Whether a call made by `WriteSomeToFile` is the completion. -/
def WriteEffect.isComplete : WriteEffect → Bool
  | .complete _ _ => true
  | _ => false

/-- Whether a call made by `WriteSomeToFile` hands the operation to a sub-operation that will
resume it (the executor post or the timer wait). -/
def WriteEffect.isSuspend : WriteEffect → Bool
  | .post => true
  | .WaitAsync => true
  | _ => false

/-- Whether a call made by `ReadHttpResponseHeadersOp` is the completion. -/
def HttpEffect.isComplete : HttpEffect → Bool
  | .complete _ => true
  | _ => false

/-- Whether a call made by `ReadHttpResponseHeadersOp` hands the operation to a sub-operation
that will resume it (the timer wait). -/
def HttpEffect.isSuspend : HttpEffect → Bool
  | .WaitAsync => true
  | _ => false

/-- One call either completes once and suspends on nothing, or suspends on one sub-operation
and does not complete. -/
def CompletesOrSuspendsOnce {E : Type} (isComplete isSuspend : E → Bool) (effects : List E) :
    Prop :=
  (effects.countP isComplete = 1 ∧ effects.countP isSuspend = 0) ∨
    (effects.countP isComplete = 0 ∧ effects.countP isSuspend = 1)

/-- The calls made over the life of an operation: the operator is called once, and again each
time the sub-operation it suspended on finishes, with the inputs of that call; after a call
that completed, the operation is not called again. -/
def drive {S I E : Type} (step : S → I → S × List E) (isComplete : E → Bool) :
    S → List I → List E
  | _, [] => []
  | s, i :: rest =>
    if (step s i).2.any isComplete then (step s i).2
    else (step s i).2 ++ drive step isComplete (step s i).1 rest

/-- One call of `GetGameInfoOp` as a step: the state is the cache with the operation, the
input is the error code passed in and the response body that the request has put into the
buffer of the suspended operation. -/
def GetGameInfoOp.step {Cache GameInfo : Type} (oe : OpEnv)
    (svc : GameInfoServices Cache GameInfo) (s : Cache × GetGameInfoOp)
    (i : ErrorCode × List Nat) : (Cache × GetGameInfoOp) × List (GetGameInfoEffect GameInfo) :=
  let op : GetGameInfoOp :=
    if s.2.CoroutineState = CoroutineValue.initial then s.2
    else { s.2 with ResponseBodyBuffer := i.2 }
  ((((GetGameInfoOp.invoke oe svc s.1 op i.1).cache), (GetGameInfoOp.invoke oe svc s.1 op i.1).op),
    (GetGameInfoOp.invoke oe svc s.1 op i.1).effects)

/-- One call of `WriteSomeToFile` as a step. -/
def WriteSomeToFile.step (oe : OpEnv) (s : WriteSomeToFile) (i : WritePlatform × ErrorCode) :
    WriteSomeToFile × List WriteEffect :=
  ((WriteSomeToFile.invoke oe i.1 s i.2).op, (WriteSomeToFile.invoke oe i.1 s i.2).effects)

/-- One call of `ReadHttpResponseHeadersOp` as a step. -/
def ReadHttpResponseHeadersOp.step (oe : OpEnv) (s : ReadHttpResponseHeadersOp)
    (i : HttpPlatform × ErrorCode) : ReadHttpResponseHeadersOp × List HttpEffect :=
  ((ReadHttpResponseHeadersOp.invoke oe i.1 s i.2).op,
    (ReadHttpResponseHeadersOp.invoke oe i.1 s i.2).effects)

/-- The call `std::map::emplace`: the pair is inserted at its ascending position unless the
key is already there. -/
def mapEmplace {β : Type} (k : Int) (v : β) : List (Int × β) → List (Int × β)
  | [] => [(k, v)]
  | (k1, v1) :: rest =>
    if k < k1 then (k, v) :: (k1, v1) :: rest
    else if k = k1 then (k1, v1) :: rest
    else (k1, v1) :: mapEmplace k v rest

/-- Embedding of the constructor `ModCollection(std::map<ModID, std::shared_ptr<
ModCollectionEntry>> Entries)`: each entry is copied with the copy constructor. -/
def ModCollection.ofMap (env : Env) (Entries : List (Int × ModCollectionEntry)) : ModCollection :=
  Entries.foldl
    (fun (c : ModCollection) ModEntry =>
      { ModEntries := mapEmplace ModEntry.1 (ModCollectionEntry.copy env ModEntry.2) c.ModEntries })
    { ModEntries := [] }

/-- Whether `WinHttpReceiveResponse` has succeeded when the polling loop of
`ReadHttpResponseHeadersOp` is reached in this call: it succeeds in this call, or the
operation is resumed inside the loop and it succeeded in the first call. -/
def ReadHttpResponseHeadersOp.received (pf : HttpPlatform) (op : ReadHttpResponseHeadersOp) :
    Bool :=
  decide (op.CoroutineState = CoroutineValue.suspended 1) || pf.WinHttpReceiveResponse

/-- Sample answers of the platform for a write to a writable file that is reported pending
by `WriteFile`; `done` says whether the overlapped write has finished by this call. -/
def demoWritePlatform (done : Bool) : WritePlatform :=
  { ShouldCancel := false, GetFileMode := FileMode.ReadWrite, CreateEvent := 5,
    WriteFile := false, GetLastError := 997, HasOverlappedIoCompleted := done }

/-! ## Helper lemmas: the countdown block -/

theorem decrementU8_of_pos (n : Nat) (hpos : 0 < n) (hu8 : n < 256) : decrementU8 n = n - 1 := by
  unfold decrementU8
  omega

theorem consumeRetry_retries (e : ModCollectionEntry) (hu8 : e.RetriesRemainingThisSession < 256) :
    e.consumeRetry.RetriesRemainingThisSession = e.RetriesRemainingThisSession - 1 := by
  unfold ModCollectionEntry.consumeRetry ModCollectionEntry.MarkModNoRetryThisSession
  by_cases hpos : e.RetriesRemainingThisSession > 0
  · have hd := decrementU8_of_pos _ hpos hu8
    simp only [hpos, if_true]
    split <;> simp [hd]
  · have hz : e.RetriesRemainingThisSession = 0 := by omega
    simp [hz]

theorem consumeRetry_flag (e : ModCollectionEntry) :
    e.consumeRetry.ShouldNotRetry =
      (e.ShouldNotRetry || decide (e.consumeRetry.RetriesRemainingThisSession = 0)) := by
  unfold ModCollectionEntry.consumeRetry ModCollectionEntry.MarkModNoRetryThisSession
  by_cases hpos : e.RetriesRemainingThisSession > 0
  · simp only [hpos, if_true]
    split <;> simp_all
  · have hz : e.RetriesRemainingThisSession = 0 := by omega
    simp [hz]

theorem consumeRetry_state (e : ModCollectionEntry) :
    e.consumeRetry.CurrentState = e.CurrentState := by
  unfold ModCollectionEntry.consumeRetry ModCollectionEntry.MarkModNoRetryThisSession
  by_cases hpos : e.RetriesRemainingThisSession > 0
  · simp only [hpos, if_true]
    split <;> rfl
  · simp only [hpos, if_false]
    split <;> rfl

theorem consumeRetry_reason (e : ModCollectionEntry) :
    e.consumeRetry.NeverRetryReason = e.NeverRetryReason := by
  unfold ModCollectionEntry.consumeRetry ModCollectionEntry.MarkModNoRetryThisSession
  by_cases hpos : e.RetriesRemainingThisSession > 0
  · simp only [hpos, if_true]
    split <;> rfl
  · simp only [hpos, if_false]
    split <;> rfl

theorem SetLastError_state (env : Env) (e : ModCollectionEntry) (r : ErrorCode) :
    (e.SetLastError env r).CurrentState = e.CurrentState := by
  unfold ModCollectionEntry.SetLastError ModCollectionEntry.MarkModNoRetryThisSession
  repeat (first | split | rfl | exact consumeRetry_state e)

theorem SetLastError_retryable (env : Env) (e : ModCollectionEntry) (r : ErrorCode)
    (hstate : e.CurrentState ≠ ModState.UninstallPending)
    (hr : env.ErrorCodeMatches r ErrorConditionTypes.ModInstallRetryableError = true) :
    e.SetLastError env r = e.consumeRetry := by
  simp [ModCollectionEntry.SetLastError, ModCollectionEntry.GetModState, hstate, hr]

theorem SetLastErrorAll_snoc (env : Env) (e : ModCollectionEntry) (rs : List ErrorCode)
    (r : ErrorCode) :
    SetLastErrorAll env e (rs ++ [r]) = (SetLastErrorAll env e rs).SetLastError env r := by
  simp [SetLastErrorAll, List.foldl_append]

theorem SetLastErrorAll_state (env : Env) (rs : List ErrorCode) (e : ModCollectionEntry) :
    (SetLastErrorAll env e rs).CurrentState = e.CurrentState := by
  induction rs generalizing e with
  | nil => rfl
  | cons r rs ih =>
    show (SetLastErrorAll env (e.SetLastError env r) rs).CurrentState = e.CurrentState
    rw [ih, SetLastError_state]

theorem SetLastErrorAll_retryable (env : Env) (rs : List ErrorCode) (e : ModCollectionEntry)
    (hstate : e.CurrentState ≠ ModState.UninstallPending)
    (hu8 : e.RetriesRemainingThisSession < 256)
    (hrs : ∀ x ∈ rs, env.ErrorCodeMatches x ErrorConditionTypes.ModInstallRetryableError = true) :
    (SetLastErrorAll env e rs).RetriesRemainingThisSession =
        e.RetriesRemainingThisSession - rs.length ∧
      (e.ShouldNotRetry = false →
        ((SetLastErrorAll env e rs).ShouldNotRetry = true →
          (SetLastErrorAll env e rs).RetriesRemainingThisSession = 0)) := by
  induction rs generalizing e with
  | nil => exact ⟨rfl, fun h0 h1 => by simp [SetLastErrorAll, h0] at h1⟩
  | cons r rs ih =>
    have hr := hrs r (List.mem_cons_self r rs)
    have hstep := SetLastError_retryable env e r hstate hr
    have hst : (e.SetLastError env r).CurrentState ≠ ModState.UninstallPending := by
      rw [SetLastError_state]; exact hstate
    have hret : (e.SetLastError env r).RetriesRemainingThisSession =
        e.RetriesRemainingThisSession - 1 := by
      rw [hstep]; exact consumeRetry_retries e hu8
    have hlt : (e.SetLastError env r).RetriesRemainingThisSession < 256 := by omega
    have hrest := ih (e.SetLastError env r) hst hlt
      (fun x hx => hrs x (List.mem_cons_of_mem r hx))
    show (SetLastErrorAll env (e.SetLastError env r) rs).RetriesRemainingThisSession =
        e.RetriesRemainingThisSession - (rs.length + 1) ∧ _
    refine ⟨by rw [hrest.1, hret]; omega, fun h0 h1 => ?_⟩
    by_cases hf : (e.SetLastError env r).ShouldNotRetry = false
    · exact hrest.2 hf h1
    · have hflag := consumeRetry_flag e
      rw [← hstep] at hflag
      have hz : (e.SetLastError env r).RetriesRemainingThisSession = 0 := by
        simp only [Bool.not_eq_false] at hf
        rw [hf, h0] at hflag
        simpa using hflag
      show (SetLastErrorAll env (e.SetLastError env r) rs).RetriesRemainingThisSession = 0
      rw [hrest.1, hz]; omega

/-! ## Retry countdown under retryable install errors -/

/-- C1: on an entry that is not UninstallPending, after any sequence `rs` of SetLastError calls
with retryable reasons the countdown is the initial one minus the number of calls (truncated
at 0), and one more such call never increases it, lowers it by exactly one while it is positive,
keeps it at 0 once it is 0 (no 8-bit wrap-around), and raises the sticky flag exactly when the
countdown is 0 after the call: the flag afterwards is the flag before or-ed with that test, and
on an entry that started with the flag clear it is set iff the countdown is 0. -/
theorem C1_retryable_countdown (env : Env) (e : ModCollectionEntry) (rs : List ErrorCode)
    (r : ErrorCode)
    (hstate : e.CurrentState ≠ ModState.UninstallPending)
    (hu8 : e.RetriesRemainingThisSession < 256)
    (hrs : ∀ x ∈ rs, env.ErrorCodeMatches x ErrorConditionTypes.ModInstallRetryableError = true)
    (hr : env.ErrorCodeMatches r ErrorConditionTypes.ModInstallRetryableError = true) :
    (SetLastErrorAll env e rs).RetriesRemainingThisSession =
        e.RetriesRemainingThisSession - rs.length ∧
      (SetLastErrorAll env e (rs ++ [r])).RetriesRemainingThisSession ≤
        (SetLastErrorAll env e rs).RetriesRemainingThisSession ∧
      (0 < (SetLastErrorAll env e rs).RetriesRemainingThisSession →
        (SetLastErrorAll env e (rs ++ [r])).RetriesRemainingThisSession + 1 =
          (SetLastErrorAll env e rs).RetriesRemainingThisSession) ∧
      ((SetLastErrorAll env e rs).RetriesRemainingThisSession = 0 →
        (SetLastErrorAll env e (rs ++ [r])).RetriesRemainingThisSession = 0) ∧
      (SetLastErrorAll env e (rs ++ [r])).ShouldNotRetry =
        ((SetLastErrorAll env e rs).ShouldNotRetry ||
          decide ((SetLastErrorAll env e (rs ++ [r])).RetriesRemainingThisSession = 0)) ∧
      (e.ShouldNotRetry = false →
        ((SetLastErrorAll env e (rs ++ [r])).ShouldNotRetry = true ↔
          (SetLastErrorAll env e (rs ++ [r])).RetriesRemainingThisSession = 0)) := by
  have hpre := SetLastErrorAll_retryable env rs e hstate hu8 hrs
  have hst : (SetLastErrorAll env e rs).CurrentState ≠ ModState.UninstallPending := by
    rw [SetLastErrorAll_state]; exact hstate
  have hlt : (SetLastErrorAll env e rs).RetriesRemainingThisSession < 256 := by
    rw [hpre.1]; omega
  have hstep := SetLastError_retryable env (SetLastErrorAll env e rs) r hst hr
  have hret := consumeRetry_retries (SetLastErrorAll env e rs) hlt
  have hflag := consumeRetry_flag (SetLastErrorAll env e rs)
  rw [SetLastErrorAll_snoc, hstep]
  refine ⟨hpre.1, by omega, by omega, by omega, hflag, fun h0 => ?_⟩
  rw [hflag]
  constructor
  · intro h
    by_cases hf : (SetLastErrorAll env e rs).ShouldNotRetry = true
    · have := hpre.2 h0 hf
      omega
    · simpa [hf] using h
  · intro h
    simp [h]

/-- Witness for C1: three retries, two retryable failures recorded, then a third. -/
theorem C1_retryable_countdown_witness :
    (SetLastErrorAll demoEnv (demoEntry ModState.InstallationPending 3)
        [⟨1, 0⟩, ⟨1, 0⟩]).RetriesRemainingThisSession = 3 - 2 ∧
      (SetLastErrorAll demoEnv (demoEntry ModState.InstallationPending 3)
        ([⟨1, 0⟩, ⟨1, 0⟩] ++ [⟨1, 0⟩])).RetriesRemainingThisSession = 0 ∧
      (SetLastErrorAll demoEnv (demoEntry ModState.InstallationPending 3)
        ([⟨1, 0⟩, ⟨1, 0⟩] ++ [⟨1, 0⟩])).ShouldNotRetry = true := by
  have h := C1_retryable_countdown demoEnv (demoEntry ModState.InstallationPending 3)
    [⟨1, 0⟩, ⟨1, 0⟩] ⟨1, 0⟩ (by decide) (by decide) (by decide) (by decide)
  exact ⟨h.1, by decide, by decide⟩

/-! ## Transactions -/

theorem SetModState_rollback (env : Env) (e : ModCollectionEntry) (s : ModState) :
    (e.SetModState env s).RollbackState = e.RollbackState := by
  unfold ModCollectionEntry.SetModState
  simp only
  split <;> rfl

theorem SetModStateAll_rollback (env : Env) (ss : List ModState) (e : ModCollectionEntry) :
    (SetModStateAll env e ss).RollbackState = e.RollbackState := by
  induction ss generalizing e with
  | nil => rfl
  | cons s ss ih =>
    show (SetModStateAll env (e.SetModState env s) ss).RollbackState = e.RollbackState
    rw [ih, SetModState_rollback]

theorem BeginTransactionImpl_fresh (e : ModCollectionEntry)
    (hnone : e.RollbackState = none)
    (hd : e.CurrentState ≠ ModState.Downloading) (hx : e.CurrentState ≠ ModState.Extracting) :
    BeginTransactionImpl e = { e with RollbackState := some e.CurrentState } := by
  simp [BeginTransactionImpl, hnone, hd, hx]

/-- C2: on an entry with no rollback state whose state S is neither Downloading nor Extracting,
BeginTransaction, then any sequence of SetModState calls, then RollbackTransaction leaves the
state equal to S and no rollback state recorded. -/
theorem C2_begin_rollback_restores (env : Env) (e : ModCollectionEntry) (ss : List ModState)
    (hnone : e.RollbackState = none)
    (hd : e.CurrentState ≠ ModState.Downloading) (hx : e.CurrentState ≠ ModState.Extracting) :
    (RollbackTransactionImpl (SetModStateAll env (BeginTransactionImpl e) ss)).CurrentState =
        e.CurrentState ∧
      (RollbackTransactionImpl (SetModStateAll env (BeginTransactionImpl e) ss)).RollbackState =
        none := by
  have hrb : (SetModStateAll env (BeginTransactionImpl e) ss).RollbackState =
      some e.CurrentState := by
    rw [SetModStateAll_rollback, BeginTransactionImpl_fresh e hnone hd hx]
  unfold RollbackTransactionImpl
  rw [hrb]
  exact ⟨rfl, rfl⟩

/-- Witness for C2: an Installed entry goes through Downloading and Extracting inside the
transaction and is back at Installed after the rollback. -/
theorem C2_begin_rollback_restores_witness :
    (RollbackTransactionImpl (SetModStateAll demoEnv
        (BeginTransactionImpl (demoEntry ModState.Installed 3))
        [ModState.Downloading, ModState.Extracting])).CurrentState = ModState.Installed ∧
      (RollbackTransactionImpl (SetModStateAll demoEnv
        (BeginTransactionImpl (demoEntry ModState.Installed 3))
        [ModState.Downloading, ModState.Extracting])).RollbackState = none :=
  C2_begin_rollback_restores demoEnv (demoEntry ModState.Installed 3)
    [ModState.Downloading, ModState.Extracting] rfl (by decide) (by decide)

/-- C3: with no rollback state recorded, RollbackTransaction returns the entry as it was, so
the state, rollback state, countdown, sticky flag, terminal failure reason, subscribers,
profile, path and size are all as before. -/
theorem C3_rollback_without_transaction (e : ModCollectionEntry)
    (hnone : e.RollbackState = none) :
    RollbackTransactionImpl e = e ∧
      (RollbackTransactionImpl e).CurrentState = e.CurrentState ∧
      (RollbackTransactionImpl e).RollbackState = e.RollbackState ∧
      (RollbackTransactionImpl e).RetriesRemainingThisSession = e.RetriesRemainingThisSession ∧
      (RollbackTransactionImpl e).ShouldNotRetry = e.ShouldNotRetry ∧
      (RollbackTransactionImpl e).NeverRetryReason = e.NeverRetryReason ∧
      (RollbackTransactionImpl e).LocalUserSubscriptions = e.LocalUserSubscriptions ∧
      (RollbackTransactionImpl e).ModProfile = e.ModProfile ∧
      (RollbackTransactionImpl e).PathOnDisk = e.PathOnDisk ∧
      (RollbackTransactionImpl e).SizeOnDisk = e.SizeOnDisk := by
  have h : RollbackTransactionImpl e = e := by
    unfold RollbackTransactionImpl
    rw [hnone]
  rw [h]
  exact ⟨rfl, rfl, rfl, rfl, rfl, rfl, rfl, rfl, rfl, rfl⟩

/-- Witness for C3: a rollback on a Downloading entry that never began a transaction. -/
theorem C3_rollback_without_transaction_witness :
    RollbackTransactionImpl (demoEntry ModState.Downloading 2) =
      demoEntry ModState.Downloading 2 :=
  (C3_rollback_without_transaction (demoEntry ModState.Downloading 2) rfl).1

/-- C4: when a rollback state R is already recorded, BeginTransaction leaves the rollback state
equal to R and the current state (indeed the whole entry) unchanged, whatever the current
state is. -/
theorem C4_overlapping_begin_rejected (e : ModCollectionEntry) (R : ModState)
    (hopen : e.RollbackState = some R) :
    (BeginTransactionImpl e).RollbackState = some R ∧
      (BeginTransactionImpl e).CurrentState = e.CurrentState ∧
      BeginTransactionImpl e = e := by
  have h : BeginTransactionImpl e = e := by
    simp [BeginTransactionImpl, hopen]
  rw [h]
  exact ⟨hopen, rfl, rfl⟩

/-- Witness for C4: a transaction begun while Installed, the state moved on to UpdatePending by
SetModState, and BeginTransaction called a second time. -/
theorem C4_overlapping_begin_rejected_witness :
    (BeginTransactionImpl ((BeginTransactionImpl (demoEntry ModState.Installed 3)).SetModState
        demoEnv ModState.UpdatePending)).RollbackState = some ModState.Installed ∧
      (BeginTransactionImpl ((BeginTransactionImpl (demoEntry ModState.Installed 3)).SetModState
        demoEnv ModState.UpdatePending)).CurrentState = ModState.UpdatePending :=
  ⟨(C4_overlapping_begin_rejected
      ((BeginTransactionImpl (demoEntry ModState.Installed 3)).SetModState
        demoEnv ModState.UpdatePending) ModState.Installed rfl).1,
    by decide⟩

/-- C5, as stated, fails: a Downloading entry with no rollback state recorded is left without
one by BeginTransaction, so the current state is not recorded. -/
theorem C5_counterexample :
    (demoEntry ModState.Downloading 3).RollbackState = none ∧
      (BeginTransactionImpl (demoEntry ModState.Downloading 3)).RollbackState ≠
        some (demoEntry ModState.Downloading 3).CurrentState := by
  decide

/-- C5, amended: BeginTransaction returns the entry unchanged exactly when the current state is
Downloading or Extracting or a rollback state is already recorded; on every entry with no
rollback state recorded whose state is one of the other four, it records the current state as
the rollback state and leaves the current state unchanged. -/
theorem C5_begin_records_state (e : ModCollectionEntry) :
    (BeginTransactionImpl e = e ↔
      (e.CurrentState = ModState.Downloading ∨ e.CurrentState = ModState.Extracting ∨
        e.RollbackState.isSome = true)) ∧
      (e.RollbackState = none → e.CurrentState ≠ ModState.Downloading →
        e.CurrentState ≠ ModState.Extracting →
        (BeginTransactionImpl e).RollbackState = some e.CurrentState ∧
          (BeginTransactionImpl e).CurrentState = e.CurrentState) := by
  constructor
  · constructor
    · intro h
      by_contra hg
      have hrb := congrArg ModCollectionEntry.RollbackState h
      simp only [BeginTransactionImpl, hg, if_false] at hrb
      simp only [not_or] at hg
      rw [← hrb] at hg
      simp at hg
    · intro hg
      simp only [BeginTransactionImpl, hg, if_true]
  · intro hnone hd hx
    rw [BeginTransactionImpl_fresh e hnone hd hx]
    exact ⟨rfl, rfl⟩

/-- Witness for C5 (amended): an UpdatePending entry with no transaction open. -/
theorem C5_begin_records_state_witness :
    (BeginTransactionImpl (demoEntry ModState.UpdatePending 3)).RollbackState =
        some ModState.UpdatePending ∧
      (BeginTransactionImpl (demoEntry ModState.UpdatePending 3)).CurrentState =
        ModState.UpdatePending :=
  (C5_begin_records_state (demoEntry ModState.UpdatePending 3)).2 rfl (by decide) (by decide)

/-! ## Failure classification -/

/-- C6: on an UninstallPending entry, SetLastError with a reason classified
ModDeleteDeferredError sets the sticky flag, leaves the countdown and the terminal failure
reason unchanged, and ShouldRetry is false afterwards. -/
theorem C6_uninstall_deferred (env : Env) (e : ModCollectionEntry) (r : ErrorCode)
    (hstate : e.CurrentState = ModState.UninstallPending)
    (hr : env.ErrorCodeMatches r ErrorConditionTypes.ModDeleteDeferredError = true) :
    (e.SetLastError env r).ShouldNotRetry = true ∧
      (e.SetLastError env r).RetriesRemainingThisSession = e.RetriesRemainingThisSession ∧
      (e.SetLastError env r).NeverRetryReason = e.NeverRetryReason ∧
      (e.SetLastError env r).ShouldRetry = false := by
  have h : e.SetLastError env r = e.MarkModNoRetryThisSession := by
    simp [ModCollectionEntry.SetLastError, ModCollectionEntry.GetModState, hstate, hr]
  rw [h]
  simp [ModCollectionEntry.MarkModNoRetryThisSession, ModCollectionEntry.ShouldRetry]

/-- Witness for C6: an UninstallPending entry with two retries left and reason 3. -/
theorem C6_uninstall_deferred_witness :
    ((demoEntry ModState.UninstallPending 2).SetLastError demoEnv ⟨3, 0⟩).ShouldNotRetry = true ∧
      ((demoEntry ModState.UninstallPending 2).SetLastError demoEnv
        ⟨3, 0⟩).RetriesRemainingThisSession = 2 ∧
      ((demoEntry ModState.UninstallPending 2).SetLastError demoEnv ⟨3, 0⟩).NeverRetryReason =
        ⟨0, 0⟩ ∧
      ((demoEntry ModState.UninstallPending 2).SetLastError demoEnv ⟨3, 0⟩).ShouldRetry = false :=
  C6_uninstall_deferred demoEnv (demoEntry ModState.UninstallPending 2) ⟨3, 0⟩ rfl (by decide)

/-- C7: on an UninstallPending entry, SetLastError with a reason not classified
ModDeleteDeferredError (whatever else it is classified as) lowers the countdown by one if it is
positive and leaves it at 0 otherwise, raises the sticky flag exactly when the countdown is 0
afterwards (the flag afterwards is the flag before or-ed with that test), and leaves the
terminal failure reason as it was. -/
theorem C7_uninstall_other_reason (env : Env) (e : ModCollectionEntry) (r : ErrorCode)
    (hstate : e.CurrentState = ModState.UninstallPending)
    (hu8 : e.RetriesRemainingThisSession < 256)
    (hr : env.ErrorCodeMatches r ErrorConditionTypes.ModDeleteDeferredError = false) :
    (0 < e.RetriesRemainingThisSession →
        (e.SetLastError env r).RetriesRemainingThisSession + 1 = e.RetriesRemainingThisSession) ∧
      (e.RetriesRemainingThisSession = 0 →
        (e.SetLastError env r).RetriesRemainingThisSession = 0) ∧
      (e.SetLastError env r).ShouldNotRetry =
        (e.ShouldNotRetry || decide ((e.SetLastError env r).RetriesRemainingThisSession = 0)) ∧
      (e.SetLastError env r).NeverRetryReason = e.NeverRetryReason := by
  have h : e.SetLastError env r = e.consumeRetry := by
    simp [ModCollectionEntry.SetLastError, ModCollectionEntry.GetModState, hstate, hr]
  have hret := consumeRetry_retries e hu8
  rw [h]
  exact ⟨by omega, by omega, consumeRetry_flag e, consumeRetry_reason e⟩

/-- Witness for C7: an UninstallPending entry with one retry left and reason 2, which the
sample classifier calls an unrecoverable install error. -/
theorem C7_uninstall_other_reason_witness :
    ((demoEntry ModState.UninstallPending 1).SetLastError demoEnv
        ⟨2, 0⟩).RetriesRemainingThisSession + 1 = 1 ∧
      ((demoEntry ModState.UninstallPending 1).SetLastError demoEnv ⟨2, 0⟩).ShouldNotRetry =
        true ∧
      ((demoEntry ModState.UninstallPending 1).SetLastError demoEnv ⟨2, 0⟩).NeverRetryReason =
        ⟨0, 0⟩ :=
  ⟨(C7_uninstall_other_reason demoEnv (demoEntry ModState.UninstallPending 1) ⟨2, 0⟩ rfl
      (by decide) (by decide)).1 (by decide),
    by decide, by decide⟩

/-- C8: on an entry that is not UninstallPending, SetLastError with a non-zero reason
classified ModInstallUnrecoverableError and not ModInstallRetryableError stores the reason as
NeverRetryReason, leaves the countdown and the sticky flag unchanged, and ShouldRetry is false
afterwards. -/
theorem C8_install_unrecoverable (env : Env) (e : ModCollectionEntry) (r : ErrorCode)
    (hstate : e.CurrentState ≠ ModState.UninstallPending)
    (hnz : r.value ≠ 0)
    (hretry : env.ErrorCodeMatches r ErrorConditionTypes.ModInstallRetryableError = false)
    (hr : env.ErrorCodeMatches r ErrorConditionTypes.ModInstallUnrecoverableError = true) :
    (e.SetLastError env r).NeverRetryReason = r ∧
      (e.SetLastError env r).RetriesRemainingThisSession = e.RetriesRemainingThisSession ∧
      (e.SetLastError env r).ShouldNotRetry = e.ShouldNotRetry ∧
      (e.SetLastError env r).ShouldRetry = false := by
  have h : e.SetLastError env r = { e with NeverRetryReason := r } := by
    simp [ModCollectionEntry.SetLastError, ModCollectionEntry.GetModState, hstate, hretry, hr]
  rw [h]
  simp [ModCollectionEntry.ShouldRetry, ErrorCode.operatorBool, hnz]

/-- Witness for C8: a Downloading entry and reason 2. -/
theorem C8_install_unrecoverable_witness :
    ((demoEntry ModState.Downloading 3).SetLastError demoEnv ⟨2, 5⟩).NeverRetryReason = ⟨2, 5⟩ ∧
      ((demoEntry ModState.Downloading 3).SetLastError demoEnv
        ⟨2, 5⟩).RetriesRemainingThisSession = 3 ∧
      ((demoEntry ModState.Downloading 3).SetLastError demoEnv ⟨2, 5⟩).ShouldNotRetry = false ∧
      ((demoEntry ModState.Downloading 3).SetLastError demoEnv ⟨2, 5⟩).ShouldRetry = false :=
  C8_install_unrecoverable demoEnv (demoEntry ModState.Downloading 3) ⟨2, 5⟩ (by decide)
    (by decide) (by decide) (by decide)

/-! ## The terminal failure reason is permanent -/

theorem SetModState_reason (env : Env) (e : ModCollectionEntry) (s : ModState) :
    (e.SetModState env s).NeverRetryReason = e.NeverRetryReason := by
  unfold ModCollectionEntry.SetModState
  simp only
  split <;> rfl

theorem UpdateModProfile_reason (env : Env) (e : ModCollectionEntry) (p : ModInfo) :
    (e.UpdateModProfile env p).NeverRetryReason = e.NeverRetryReason := by
  unfold ModCollectionEntry.UpdateModProfile
  simp only
  split
  · split
    · exact SetModState_reason env e ModState.UpdatePending
    · rfl
  · rfl

theorem AddLocalUserSubscription_reason (e : ModCollectionEntry) (u : Option User) :
    (e.AddLocalUserSubscription u).1.NeverRetryReason = e.NeverRetryReason := by
  unfold ModCollectionEntry.AddLocalUserSubscription
  cases u <;> rfl

theorem RemoveLocalUserSubscription_reason (e : ModCollectionEntry) (u : Option User) :
    (e.RemoveLocalUserSubscription u).1.NeverRetryReason = e.NeverRetryReason := by
  unfold ModCollectionEntry.RemoveLocalUserSubscription
  cases u with
  | none => rfl
  | some u =>
    simp only
    split <;> rfl

theorem BeginTransactionImpl_reason (e : ModCollectionEntry) :
    (BeginTransactionImpl e).NeverRetryReason = e.NeverRetryReason := by
  unfold BeginTransactionImpl
  split <;> rfl

theorem RollbackTransactionImpl_reason (e : ModCollectionEntry) :
    (RollbackTransactionImpl e).NeverRetryReason = e.NeverRetryReason := by
  unfold RollbackTransactionImpl
  split <;> rfl

theorem SetLastError_reason_nonzero (env : Env) (e : ModCollectionEntry) (r : ErrorCode)
    (hzero : ∀ c : ErrorCode, c.value = 0 →
      env.ErrorCodeMatches c ErrorConditionTypes.ModInstallUnrecoverableError = false)
    (hset : e.NeverRetryReason.value ≠ 0) :
    (e.SetLastError env r).NeverRetryReason.value ≠ 0 := by
  unfold ModCollectionEntry.SetLastError ModCollectionEntry.MarkModNoRetryThisSession
  split
  · split
    · exact hset
    · rw [consumeRetry_reason]; exact hset
  · split
    · rw [consumeRetry_reason]; exact hset
    · split
      · rename_i hm
        intro hv
        rw [hzero r hv] at hm
        exact Bool.noConfusion hm
      · exact hset

theorem applyOp_reason_nonzero (env : Env) (e : ModCollectionEntry) (op : EntryOp)
    (hzero : ∀ c : ErrorCode, c.value = 0 →
      env.ErrorCodeMatches c ErrorConditionTypes.ModInstallUnrecoverableError = false)
    (hset : e.NeverRetryReason.value ≠ 0) :
    (applyOp env e op).NeverRetryReason.value ≠ 0 := by
  cases op with
  | SetModState s => show (e.SetModState env s).NeverRetryReason.value ≠ 0
                     rw [SetModState_reason]; exact hset
  | SetLastError r => exact SetLastError_reason_nonzero env e r hzero hset
  | MarkModNoRetryThisSession => exact hset
  | ClearModNoRetry => exact hset
  | AddLocalUserSubscription u =>
    show (e.AddLocalUserSubscription u).1.NeverRetryReason.value ≠ 0
    rw [AddLocalUserSubscription_reason]; exact hset
  | RemoveLocalUserSubscription u =>
    show (e.RemoveLocalUserSubscription u).1.NeverRetryReason.value ≠ 0
    rw [RemoveLocalUserSubscription_reason]; exact hset
  | UpdateModProfile p =>
    show (e.UpdateModProfile env p).NeverRetryReason.value ≠ 0
    rw [UpdateModProfile_reason]; exact hset
  | UpdateSizeOnDisk n => exact hset
  | BeginTransaction =>
    show (BeginTransactionImpl e).NeverRetryReason.value ≠ 0
    rw [BeginTransactionImpl_reason]; exact hset
  | RollbackTransaction =>
    show (RollbackTransactionImpl e).NeverRetryReason.value ≠ 0
    rw [RollbackTransactionImpl_reason]; exact hset

theorem runOps_reason_nonzero (env : Env) (ops : List EntryOp) (e : ModCollectionEntry)
    (hzero : ∀ c : ErrorCode, c.value = 0 →
      env.ErrorCodeMatches c ErrorConditionTypes.ModInstallUnrecoverableError = false)
    (hset : e.NeverRetryReason.value ≠ 0) :
    (runOps env e ops).NeverRetryReason.value ≠ 0 := by
  induction ops generalizing e with
  | nil => exact hset
  | cons op ops ih => exact ih (applyOp env e op) (applyOp_reason_nonzero env e op hzero hset)

/-- C9: once the terminal failure reason of an entry is a non-zero error, after every finite
sequence of entry operations (SetModState, SetLastError with any reason,
MarkModNoRetryThisSession, ClearModNoRetry, the two subscription calls, UpdateModProfile,
UpdateSizeOnDisk, BeginTransaction, RollbackTransaction) the terminal failure reason is still a
non-zero error and ShouldRetry is false. The classifier ErrorCodeMatches is defined outside this
translation unit; it is assumed not to call a zero-valued (success) code an unrecoverable
install error. -/
theorem C9_terminal_failure_permanent (env : Env) (e : ModCollectionEntry) (ops : List EntryOp)
    (hzero : ∀ c : ErrorCode, c.value = 0 →
      env.ErrorCodeMatches c ErrorConditionTypes.ModInstallUnrecoverableError = false)
    (hset : e.NeverRetryReason.value ≠ 0) :
    (runOps env e ops).ShouldRetry = false ∧ (runOps env e ops).NeverRetryReason.value ≠ 0 := by
  have h := runOps_reason_nonzero env ops e hzero hset
  exact ⟨by simp [ModCollectionEntry.ShouldRetry, ErrorCode.operatorBool, h], h⟩

/-- Witness for C9: an unrecoverable failure recorded while Downloading, followed by a rollback
attempt, a reset to Installed, a clearing of the session flag and two more failures. -/
theorem C9_terminal_failure_permanent_witness :
    (runOps demoEnv ((demoEntry ModState.Downloading 3).SetLastError demoEnv ⟨2, 5⟩)
      [EntryOp.RollbackTransaction, EntryOp.SetModState ModState.Installed,
        EntryOp.ClearModNoRetry, EntryOp.SetLastError ⟨0, 0⟩,
        EntryOp.SetLastError ⟨1, 0⟩]).ShouldRetry = false :=
  (C9_terminal_failure_permanent demoEnv
    ((demoEntry ModState.Downloading 3).SetLastError demoEnv ⟨2, 5⟩)
    [EntryOp.RollbackTransaction, EntryOp.SetModState ModState.Installed,
      EntryOp.ClearModNoRetry, EntryOp.SetLastError ⟨0, 0⟩, EntryOp.SetLastError ⟨1, 0⟩]
    (by
      intro c hc
      simp [demoEnv, hc])
    (by decide)).1

/-! ## Persistence of the terminal failure reason -/

theorem toInt32_toUInt32 (v : Int) (hlo : -(2 ^ 31) ≤ v) (hhi : v < 2 ^ 31) :
    toInt32 (toUInt32 v) = v := by
  unfold toInt32 toUInt32
  rw [Int.emod_emod_of_dvd v (dvd_refl _)]
  split <;> omega

/-- C10: for every entry whose terminal failure reason is a non-zero error (an `int` value),
provided the category id mapping round-trips on its category, from_json applied to the output
of to_json yields, whatever the entry loaded into, an entry with the same terminal failure
reason (code and category) and with ShouldRetry false. -/
theorem C10_terminal_failure_roundtrip (env : Env) (e target : ModCollectionEntry)
    (hnz : e.NeverRetryReason.value ≠ 0)
    (hlo : -(2 ^ 31) ≤ e.NeverRetryReason.value) (hhi : e.NeverRetryReason.value < 2 ^ 31)
    (hcat : env.GetModioErrorCategoryByID (env.ModioErrorCategoryID e.NeverRetryReason.category) =
      e.NeverRetryReason.category) :
    (ModCollectionEntry.from_json env (e.to_json env) target).NeverRetryReason.value =
        e.NeverRetryReason.value ∧
      (ModCollectionEntry.from_json env (e.to_json env) target).NeverRetryReason.category =
        e.NeverRetryReason.category ∧
      (ModCollectionEntry.from_json env (e.to_json env) target).ShouldRetry = false := by
  have hv := toInt32_toUInt32 e.NeverRetryReason.value hlo hhi
  simp [ModCollectionEntry.from_json, ModCollectionEntry.to_json, ModCollectionEntry.ShouldRetry,
    ErrorCode.operatorBool, hv, hcat, hnz]

/-- Witness for C10: the reason -2 in category 5 is set on an entry, which is then written out
and loaded into a fresh entry. -/
theorem C10_terminal_failure_roundtrip_witness :
    (ModCollectionEntry.from_json demoEnv
        (ModCollectionEntry.to_json demoEnv
          { demoEntry ModState.Downloading 3 with NeverRetryReason := ⟨-2, 5⟩ })
        (demoEntry ModState.InstallationPending 3)).NeverRetryReason.value = -2 ∧
      (ModCollectionEntry.from_json demoEnv
        (ModCollectionEntry.to_json demoEnv
          { demoEntry ModState.Downloading 3 with NeverRetryReason := ⟨-2, 5⟩ })
        (demoEntry ModState.InstallationPending 3)).NeverRetryReason.category = 5 ∧
      (ModCollectionEntry.from_json demoEnv
        (ModCollectionEntry.to_json demoEnv
          { demoEntry ModState.Downloading 3 with NeverRetryReason := ⟨-2, 5⟩ })
        (demoEntry ModState.InstallationPending 3)).ShouldRetry = false :=
  C10_terminal_failure_roundtrip demoEnv
    { demoEntry ModState.Downloading 3 with NeverRetryReason := ⟨-2, 5⟩ }
    (demoEntry ModState.InstallationPending 3) (by decide) (by decide) (by decide) rfl

/-! ## Helper lemmas: lookups in a map -/

theorem mapFind_mapAssign_self {β : Type} (k : Int) (v : β) (m : List (Int × β)) :
    mapFind k (mapAssign k v m) = some v := by
  induction m with
  | nil => simp [mapAssign, mapFind]
  | cons kv rest ih =>
    obtain ⟨k1, v1⟩ := kv
    unfold mapAssign
    by_cases h1 : k < k1
    · simp [h1, mapFind]
    · by_cases h2 : k = k1
      · simp [h2, mapFind]
      · simp [h1, h2, mapFind, ih]

theorem mapFind_mapAssign_ne {β : Type} (j k : Int) (v : β) (m : List (Int × β)) (hjk : j ≠ k) :
    mapFind j (mapAssign k v m) = mapFind j m := by
  induction m with
  | nil => simp [mapAssign, mapFind, hjk]
  | cons kv rest ih =>
    obtain ⟨k1, v1⟩ := kv
    unfold mapAssign
    by_cases h1 : k < k1
    · simp [h1, mapFind, hjk]
    · by_cases h2 : k = k1
      · subst h2
        simp [mapFind, hjk]
      · simp [h1, h2, mapFind, ih]

theorem mapFind_mapErase_self {β : Type} (k : Int) (m : List (Int × β)) :
    mapFind k (mapErase k m) = none := by
  induction m with
  | nil => rfl
  | cons kv rest ih =>
    obtain ⟨k1, v1⟩ := kv
    unfold mapErase at ih ⊢
    rw [List.filter_cons]
    split
    · rename_i h
      have h2 : k ≠ k1 := by
        intro e
        simp [e] at h
      simp only [mapFind, h2, if_false]
      exact ih
    · exact ih

theorem mapFind_mapErase_ne {β : Type} (j k : Int) (m : List (Int × β)) (hjk : j ≠ k) :
    mapFind j (mapErase k m) = mapFind j m := by
  induction m with
  | nil => rfl
  | cons kv rest ih =>
    obtain ⟨k1, v1⟩ := kv
    unfold mapErase at ih ⊢
    rw [List.filter_cons]
    split
    · by_cases hj : j = k1
      · simp only [mapFind, hj, if_true]
      · simp only [mapFind, hj, if_false]
        exact ih
    · rename_i h
      have h2 : k1 = k := by
        by_contra hne
        simp [hne] at h
      have hj : j ≠ k1 := by
        rw [h2]; exact hjk
      simp only [mapFind, hj, if_false]
      exact ih

theorem mapFind_isSome_iff {β : Type} (k : Int) (m : List (Int × β)) :
    (mapFind k m).isSome = true ↔ k ∈ m.map Prod.fst := by
  induction m with
  | nil => simp [mapFind]
  | cons kv rest ih =>
    obtain ⟨k1, v1⟩ := kv
    by_cases h : k = k1
    · simp [mapFind, h]
    · simp [mapFind, h, ih]

/-! ## The state written for an entry -/

/-- C12: the state written by to_json for an entry is the current state when that is neither
Downloading nor Extracting, the recorded rollback state when the current state is Downloading
or Extracting and one is recorded, and InstallationPending when the current state is
Downloading or Extracting and none is recorded. -/
theorem C12_persisted_state (env : Env) (e : ModCollectionEntry) :
    (e.CurrentState ≠ ModState.Downloading → e.CurrentState ≠ ModState.Extracting →
        (e.to_json env).ModEntryState = some e.CurrentState) ∧
      (∀ R : ModState,
        e.CurrentState = ModState.Downloading ∨ e.CurrentState = ModState.Extracting →
        e.RollbackState = some R → (e.to_json env).ModEntryState = some R) ∧
      (e.CurrentState = ModState.Downloading ∨ e.CurrentState = ModState.Extracting →
        e.RollbackState = none →
        (e.to_json env).ModEntryState = some ModState.InstallationPending) := by
  refine ⟨fun hd hx => ?_, fun R ht hR => ?_, fun ht hnone => ?_⟩
  · simp [ModCollectionEntry.to_json, hd, hx]
  · simp [ModCollectionEntry.to_json, ht, hR]
  · simp [ModCollectionEntry.to_json, ht, hnone]

/-- Witness for C12: an Extracting entry whose transaction was begun while UpdatePending. -/
theorem C12_persisted_state_witness :
    (ModCollectionEntry.to_json demoEnv
      { demoEntry ModState.Extracting 3 with
        RollbackState := some ModState.UpdatePending }).ModEntryState =
      some ModState.UpdatePending :=
  (C12_persisted_state demoEnv
    { demoEntry ModState.Extracting 3 with RollbackState := some ModState.UpdatePending }).2.1
    ModState.UpdatePending (Or.inr rfl) rfl

/-! ## A recorded rollback state is never transitional -/

theorem SetLastError_rollback (env : Env) (e : ModCollectionEntry) (r : ErrorCode) :
    (e.SetLastError env r).RollbackState = e.RollbackState := by
  have hc : e.consumeRetry.RollbackState = e.RollbackState := by
    unfold ModCollectionEntry.consumeRetry ModCollectionEntry.MarkModNoRetryThisSession
    by_cases hpos : e.RetriesRemainingThisSession > 0
    · simp only [hpos, if_true]
      split <;> rfl
    · simp only [hpos, if_false]
      split <;> rfl
  unfold ModCollectionEntry.SetLastError ModCollectionEntry.MarkModNoRetryThisSession
  repeat (first | split | rfl | exact hc)

theorem UpdateModProfile_rollback (env : Env) (e : ModCollectionEntry) (p : ModInfo) :
    (e.UpdateModProfile env p).RollbackState = e.RollbackState := by
  unfold ModCollectionEntry.UpdateModProfile
  simp only
  split
  · split
    · exact SetModState_rollback env e ModState.UpdatePending
    · rfl
  · rfl

theorem AddLocalUserSubscription_rollback (e : ModCollectionEntry) (u : Option User) :
    (e.AddLocalUserSubscription u).1.RollbackState = e.RollbackState := by
  unfold ModCollectionEntry.AddLocalUserSubscription
  cases u <;> rfl

theorem RemoveLocalUserSubscription_rollback (e : ModCollectionEntry) (u : Option User) :
    (e.RemoveLocalUserSubscription u).1.RollbackState = e.RollbackState := by
  unfold ModCollectionEntry.RemoveLocalUserSubscription
  cases u with
  | none => rfl
  | some u =>
    simp only
    split <;> rfl

theorem BeginTransactionImpl_keeps_invariant (e : ModCollectionEntry)
    (hinv : RollbackNotTransitional e) : RollbackNotTransitional (BeginTransactionImpl e) := by
  unfold BeginTransactionImpl
  split
  · exact hinv
  · rename_i hg
    simp only [not_or] at hg
    constructor
    · intro h
      exact hg.1 (Option.some.inj h)
    · intro h
      exact hg.2.1 (Option.some.inj h)

theorem RollbackTransactionImpl_keeps_invariant (e : ModCollectionEntry)
    (hinv : RollbackNotTransitional e) : RollbackNotTransitional (RollbackTransactionImpl e) := by
  unfold RollbackTransactionImpl
  split
  · exact hinv
  · exact ⟨fun h => Option.noConfusion h, fun h => Option.noConfusion h⟩

theorem applyOp_keeps_invariant (env : Env) (e : ModCollectionEntry) (op : EntryOp)
    (hinv : RollbackNotTransitional e) : RollbackNotTransitional (applyOp env e op) := by
  cases op with
  | SetModState s =>
    show RollbackNotTransitional (e.SetModState env s)
    unfold RollbackNotTransitional
    rw [SetModState_rollback]; exact hinv
  | SetLastError r =>
    show RollbackNotTransitional (e.SetLastError env r)
    unfold RollbackNotTransitional
    rw [SetLastError_rollback]; exact hinv
  | MarkModNoRetryThisSession => exact hinv
  | ClearModNoRetry => exact hinv
  | AddLocalUserSubscription u =>
    show RollbackNotTransitional (e.AddLocalUserSubscription u).1
    unfold RollbackNotTransitional
    rw [AddLocalUserSubscription_rollback]; exact hinv
  | RemoveLocalUserSubscription u =>
    show RollbackNotTransitional (e.RemoveLocalUserSubscription u).1
    unfold RollbackNotTransitional
    rw [RemoveLocalUserSubscription_rollback]; exact hinv
  | UpdateModProfile p =>
    show RollbackNotTransitional (e.UpdateModProfile env p)
    unfold RollbackNotTransitional
    rw [UpdateModProfile_rollback]; exact hinv
  | UpdateSizeOnDisk n => exact hinv
  | BeginTransaction => exact BeginTransactionImpl_keeps_invariant e hinv
  | RollbackTransaction => exact RollbackTransactionImpl_keeps_invariant e hinv

theorem runOps_keeps_invariant (env : Env) (ops : List EntryOp) (e : ModCollectionEntry)
    (hinv : RollbackNotTransitional e) : RollbackNotTransitional (runOps env e ops) := by
  induction ops generalizing e with
  | nil => exact hinv
  | cons op ops ih => exact ih (applyOp env e op) (applyOp_keeps_invariant env e op hinv)

theorem to_json_state_not_transitional (env : Env) (e : ModCollectionEntry)
    (hinv : RollbackNotTransitional e) :
    (e.to_json env).ModEntryState ≠ some ModState.Downloading ∧
      (e.to_json env).ModEntryState ≠ some ModState.Extracting := by
  obtain ⟨h1, h2⟩ := hinv
  unfold ModCollectionEntry.to_json
  simp only
  split
  · cases hr : e.RollbackState with
    | none => simp
    | some r =>
      rw [hr] at h1 h2
      exact ⟨h1, h2⟩
  · rename_i hg
    simp only [not_or] at hg
    exact ⟨fun h => hg.1 (Option.some.inj h), fun h => hg.2 (Option.some.inj h)⟩

/-- C13: a transitional state is never persisted. Starting from a newly constructed entry, or
from one that from_json loaded into an entry without a rollback state, after any sequence of
entry operations the state written by to_json is neither Downloading nor Extracting, and a
recorded rollback state is itself neither Downloading nor Extracting. -/
theorem C13_transitional_state_never_persisted (env : Env) (ops : List EntryOp) :
    (∀ (ProfileData : ModInfo) (CalculatedModPath : String),
        ((runOps env (ModCollectionEntry.create env ProfileData CalculatedModPath) ops).to_json
            env).ModEntryState ≠ some ModState.Downloading ∧
          ((runOps env (ModCollectionEntry.create env ProfileData CalculatedModPath) ops).to_json
            env).ModEntryState ≠ some ModState.Extracting ∧
          RollbackNotTransitional
            (runOps env (ModCollectionEntry.create env ProfileData CalculatedModPath) ops)) ∧
      (∀ (j : EntryJson) (target : ModCollectionEntry), target.RollbackState = none →
        ((runOps env (ModCollectionEntry.from_json env j target) ops).to_json
            env).ModEntryState ≠ some ModState.Downloading ∧
          ((runOps env (ModCollectionEntry.from_json env j target) ops).to_json
            env).ModEntryState ≠ some ModState.Extracting ∧
          RollbackNotTransitional (runOps env (ModCollectionEntry.from_json env j target) ops)) := by
  constructor
  · intro p path
    have h0 : RollbackNotTransitional (ModCollectionEntry.create env p path) :=
      ⟨fun h => Option.noConfusion h, fun h => Option.noConfusion h⟩
    have h := runOps_keeps_invariant env ops _ h0
    exact ⟨(to_json_state_not_transitional env _ h).1,
      (to_json_state_not_transitional env _ h).2, h⟩
  · intro j target hnone
    have hrb : (ModCollectionEntry.from_json env j target).RollbackState = none := by
      unfold ModCollectionEntry.from_json
      simp only
      split <;> exact hnone
    have h0 : RollbackNotTransitional (ModCollectionEntry.from_json env j target) := by
      unfold RollbackNotTransitional
      rw [hrb]
      exact ⟨fun h => Option.noConfusion h, fun h => Option.noConfusion h⟩
    have h := runOps_keeps_invariant env ops _ h0
    exact ⟨(to_json_state_not_transitional env _ h).1,
      (to_json_state_not_transitional env _ h).2, h⟩

/-- Witness for C13: an entry loaded from a record that names Downloading as its state, put
through BeginTransaction and a move to Extracting, is not written as Extracting. -/
theorem C13_transitional_state_never_persisted_witness :
    ((runOps demoEnv
        (ModCollectionEntry.from_json demoEnv
          { ModEntryID := some 7, ModEntryProfile := none, ModEntrySubCount := none,
            ModEntryState := some ModState.Downloading, ModSizeOnDisk := none,
            ModPathOnDisk := none, ModNeverRetryCode := none, ModNeverRetryCategory := none }
          (memberDefaults demoEnv))
        [EntryOp.BeginTransaction, EntryOp.SetModState ModState.Extracting]).to_json
      demoEnv).ModEntryState ≠ some ModState.Extracting :=
  ((C13_transitional_state_never_persisted demoEnv
      [EntryOp.BeginTransaction, EntryOp.SetModState ModState.Extracting]).2 _
    (memberDefaults demoEnv) rfl).2.1

/-! ## Saving a collection drops the rollback state -/

/-- C14, evaluated on the code: mod 7 is Downloading inside a transaction begun while
Installed. Written on its own the entry is recorded as Installed, but to_json of the collection
copies the entry first, the copy has no rollback state, and the one record that to_json of the
collection writes says InstallationPending. -/
theorem C14_collection_save_drops_rollback_state :
    (ModCollectionEntry.to_json demoEnv
        { demoEntry ModState.Downloading 3 with
          RollbackState := some ModState.Installed }).ModEntryState = some ModState.Installed ∧
      ∃ records,
        ModCollection.to_json demoEnv
            { ModEntries :=
                [(7, { demoEntry ModState.Downloading 3 with
                       RollbackState := some ModState.Installed })] } =
          CollectionJson.array records ∧
        records.map (fun j => (j.ModEntryID, j.ModEntryState)) =
          [(some 7, some ModState.InstallationPending)] :=
  ⟨by decide, _, rfl, by decide⟩

/-! ## Removing, adding and filtering entries of a collection -/

/-- C18: RemoveMod returns true iff the id is a key and its entry is UninstallPending or force
is set; then the id is no longer a key and every other key maps to the entry it mapped to
before; when it returns false the collection is the one given. -/
theorem C18_RemoveMod (c : ModCollection) (ModId : Int) (bForce : Bool) :
    ((c.RemoveMod ModId bForce).2 = true ↔
        ∃ e, mapFind ModId c.ModEntries = some e ∧
          (e.CurrentState = ModState.UninstallPending ∨ bForce = true)) ∧
      ((c.RemoveMod ModId bForce).2 = true →
        mapFind ModId (c.RemoveMod ModId bForce).1.ModEntries = none ∧
          ∀ k, k ≠ ModId →
            mapFind k (c.RemoveMod ModId bForce).1.ModEntries = mapFind k c.ModEntries) ∧
      ((c.RemoveMod ModId bForce).2 = false → (c.RemoveMod ModId bForce).1 = c) := by
  unfold ModCollection.RemoveMod ModCollectionEntry.GetModState
  cases hfind : mapFind ModId c.ModEntries with
  | none => simp
  | some e =>
    by_cases hg : e.CurrentState = ModState.UninstallPending ∨ bForce = true
    · simp only [hg, if_true, true_iff, Option.some.injEq, exists_eq_left', forall_const]
      exact ⟨trivial, ⟨mapFind_mapErase_self ModId c.ModEntries,
        fun k hk => mapFind_mapErase_ne k ModId c.ModEntries hk⟩, fun h => Bool.noConfusion h⟩
    · simp only [hg, if_false, Option.some.injEq, exists_eq_left']
      simp

/-- Witness for C18: an Installed entry is kept without force, the UninstallPending entry is
removed, and the Downloading entry is removed only with force. -/
theorem C18_RemoveMod_witness :
    (demoCollection.RemoveMod 3 false).1 = demoCollection ∧
      mapFind 5 (demoCollection.RemoveMod 5 false).1.ModEntries = none ∧
      mapFind 9 (demoCollection.RemoveMod 9 true).1.ModEntries = none :=
  ⟨(C18_RemoveMod demoCollection 3 false).2.2 (by decide),
    ((C18_RemoveMod demoCollection 5 false).2.1 (by decide)).1, by decide⟩

/-- C19: AddOrUpdateMod returns true iff the mod id was not a key. A created entry has the
id, state InstallationPending, the profile, the path, no subscribers and the countdown at
DefaultNumberOfRetries (as stored in 8 bits; the constant itself when it fits). For an existing
key the entry becomes UpdateModProfile of the previous entry, whose path is the previous path.
Every other key maps to the entry it mapped to before. -/
theorem C19_AddOrUpdateMod (env : Env) (c : ModCollection) (ModToAdd : ModInfo)
    (CalculatedModPath : String) :
    ((c.AddOrUpdateMod env ModToAdd CalculatedModPath).2 = true ↔
        mapFind ModToAdd.ModId c.ModEntries = none) ∧
      (mapFind ModToAdd.ModId c.ModEntries = none →
        ∃ e, mapFind ModToAdd.ModId
            (c.AddOrUpdateMod env ModToAdd CalculatedModPath).1.ModEntries = some e ∧
          e.ID = ModToAdd.ModId ∧ e.CurrentState = ModState.InstallationPending ∧
          e.ModProfile = ModToAdd ∧ e.PathOnDisk = CalculatedModPath ∧
          e.LocalUserSubscriptions = [] ∧
          e.RetriesRemainingThisSession = env.DefaultNumberOfRetries % 256 ∧
          (env.DefaultNumberOfRetries < 256 →
            e.GetRetriesRemaining = env.DefaultNumberOfRetries)) ∧
      (∀ old, mapFind ModToAdd.ModId c.ModEntries = some old →
        mapFind ModToAdd.ModId (c.AddOrUpdateMod env ModToAdd CalculatedModPath).1.ModEntries =
            some (old.UpdateModProfile env ModToAdd) ∧
          (old.UpdateModProfile env ModToAdd).PathOnDisk = old.PathOnDisk) ∧
      (∀ k, k ≠ ModToAdd.ModId →
        mapFind k (c.AddOrUpdateMod env ModToAdd CalculatedModPath).1.ModEntries =
          mapFind k c.ModEntries) := by
  have hpath : ∀ old : ModCollectionEntry,
      (old.UpdateModProfile env ModToAdd).PathOnDisk = old.PathOnDisk := by
    intro old
    unfold ModCollectionEntry.UpdateModProfile ModCollectionEntry.SetModState
    simp only
    split
    · split <;> rfl
    · rfl
  unfold ModCollection.AddOrUpdateMod
  cases hfind : mapFind ModToAdd.ModId c.ModEntries with
  | none =>
    refine ⟨by simp, fun _ => ⟨_, mapFind_mapAssign_self _ _ _, rfl, rfl, rfl, rfl, rfl, rfl,
      fun hlt => ?_⟩, fun old h => Option.noConfusion h,
      fun k hk => mapFind_mapAssign_ne k _ _ _ hk⟩
    show env.DefaultNumberOfRetries % 256 = env.DefaultNumberOfRetries
    exact Nat.mod_eq_of_lt hlt
  | some e =>
    refine ⟨by simp, fun h => Option.noConfusion h, fun old h => ?_,
      fun k hk => mapFind_mapAssign_ne k _ _ _ hk⟩
    cases h
    exact ⟨mapFind_mapAssign_self _ _ _, hpath e⟩

/-- Witness for C19: mod 4 is new to the sample collection, mod 3 is already a key. -/
theorem C19_AddOrUpdateMod_witness :
    (∃ e, mapFind 4 (demoCollection.AddOrUpdateMod demoEnv ⟨4, none⟩ "mods/4").1.ModEntries =
        some e ∧ e.CurrentState = ModState.InstallationPending ∧ e.PathOnDisk = "mods/4") ∧
      (demoCollection.AddOrUpdateMod demoEnv ⟨3, none⟩ "elsewhere").2 = false := by
  obtain ⟨e, h1, _, h3, _, h5, _⟩ :=
    (C19_AddOrUpdateMod demoEnv demoCollection ⟨4, none⟩ "mods/4").2.1 (by decide)
  exact ⟨⟨e, h1, h3, h5⟩, by decide⟩

theorem FilterByUserSubscriptions_fold (c : ModCollection) (l : List Int) (acc : ModCollection)
    (k : Int) :
    mapFind k (l.foldl
        (fun FilteredCollection UserModID =>
          match mapFind UserModID c.ModEntries with
          | some e =>
            ({ ModEntries := mapAssign UserModID e FilteredCollection.ModEntries } :
              ModCollection)
          | none => FilteredCollection)
        acc).ModEntries =
      if k ∈ l ∧ (mapFind k c.ModEntries).isSome = true then mapFind k c.ModEntries
      else mapFind k acc.ModEntries := by
  induction l generalizing acc with
  | nil => simp
  | cons x xs ih =>
    rw [List.foldl_cons, ih]
    by_cases hk : k ∈ xs ∧ (mapFind k c.ModEntries).isSome = true
    · have hk2 : k ∈ x :: xs ∧ (mapFind k c.ModEntries).isSome = true :=
        ⟨List.mem_cons_of_mem x hk.1, hk.2⟩
      rw [if_pos hk, if_pos hk2]
    · rw [if_neg hk]
      by_cases hx : k = x
      · subst hx
        cases hfind : mapFind k c.ModEntries with
        | none => simp
        | some e => simp [mapFind_mapAssign_self]
      · have hmem : (k ∈ x :: xs) ↔ k ∈ xs := by simp [hx]
        have hk3 : ¬(k ∈ x :: xs ∧ (mapFind k c.ModEntries).isSome = true) := by
          rw [hmem]; exact hk
        rw [if_neg hk3]
        cases hfind : mapFind x c.ModEntries with
        | none => rfl
        | some e => exact mapFind_mapAssign_ne k x e _ hx

/-- C20: in the collection returned by FilterByUserSubscriptions an id maps to the entry it
maps to in the given collection when it is in the subscription list, and to nothing
otherwise; so its keys are exactly the keys of the given collection that are in the list, and
ids in the list that are not keys are passed over. The given collection is an argument of a
pure function and stays as it is. -/
theorem C20_FilterByUserSubscriptions (c : ModCollection) (L : UserSubscriptionList) (k : Int) :
    mapFind k (c.FilterByUserSubscriptions L).ModEntries =
        (if k ∈ L.InternalList then mapFind k c.ModEntries else none) ∧
      (k ∈ (c.FilterByUserSubscriptions L).ModEntries.map Prod.fst ↔
        k ∈ c.ModEntries.map Prod.fst ∧ k ∈ L.InternalList) := by
  have h : mapFind k (c.FilterByUserSubscriptions L).ModEntries =
      (if k ∈ L.InternalList then mapFind k c.ModEntries else none) := by
    unfold ModCollection.FilterByUserSubscriptions UserSubscriptionList.Get
    rw [FilterByUserSubscriptions_fold]
    by_cases hk : k ∈ L.InternalList
    · cases hfind : mapFind k c.ModEntries <;> simp [hk, mapFind]
    · simp [hk, mapFind]
  refine ⟨h, ?_⟩
  rw [← mapFind_isSome_iff, ← mapFind_isSome_iff, h]
  by_cases hk : k ∈ L.InternalList <;> simp [hk]

/-! ## Changes between two subscription lists -/

theorem mem_set_symmetric_difference (l1 l2 : List Int)
    (h1 : l1.Pairwise (fun a b => a < b)) (h2 : l2.Pairwise (fun a b => a < b)) (z : Int) :
    z ∈ set_symmetric_difference l1 l2 ↔ (z ∈ l1 ∧ z ∉ l2) ∨ (z ∈ l2 ∧ z ∉ l1) := by
  induction l1, l2 using set_symmetric_difference.induct with
  | case1 l2 => simp [set_symmetric_difference]
  | case2 x xs => simp [set_symmetric_difference]
  | case3 x xs y ys hxy ih =>
    rw [set_symmetric_difference]
    simp only [hxy, if_true, List.mem_cons]
    rw [ih (List.pairwise_cons.mp h1).2 h2]
    have hxs := (List.pairwise_cons.mp h1).1
    have hys := (List.pairwise_cons.mp h2).1
    simp only [List.mem_cons]
    by_cases hz : z = x
    · subst hz
      have hne : z ≠ y := by omega
      have hnys : z ∉ ys := fun hm => by have := hys z hm; omega
      simp [hne, hnys]
    · simp [hz]
  | case4 x xs y ys hxy hyx ih =>
    rw [set_symmetric_difference]
    simp only [hxy, hyx, if_true, if_false, List.mem_cons]
    rw [ih h1 (List.pairwise_cons.mp h2).2]
    have hxs := (List.pairwise_cons.mp h1).1
    have hys := (List.pairwise_cons.mp h2).1
    simp only [List.mem_cons]
    by_cases hz : z = y
    · subst hz
      have hne : z ≠ x := by omega
      have hnxs : z ∉ xs := fun hm => by have := hxs z hm; omega
      simp [hne, hnxs]
    · simp [hz]
  | case5 x xs y ys hxy hyx ih =>
    rw [set_symmetric_difference]
    simp only [hxy, hyx, if_false]
    rw [ih (List.pairwise_cons.mp h1).2 (List.pairwise_cons.mp h2).2]
    have hxs := (List.pairwise_cons.mp h1).1
    have hys := (List.pairwise_cons.mp h2).1
    have hxy2 : x = y := by omega
    subst hxy2
    simp only [List.mem_cons]
    by_cases hz : z = x
    · subst hz
      have hnxs : z ∉ xs := fun hm => by have := hxs z hm; omega
      have hnys : z ∉ ys := fun hm => by have := hys z hm; omega
      simp [hnxs, hnys]
    · simp [hz]

theorem CalculateChanges_fold (orig l : List Int) (acc : List (Int × ChangeType)) (k : Int) :
    mapFind k (l.foldl
        (fun Diff ChangedModID =>
          if !orig.contains ChangedModID then mapAssign ChangedModID ChangeType.Added Diff
          else mapAssign ChangedModID ChangeType.Removed Diff)
        acc) =
      if k ∈ l then some (if k ∈ orig then ChangeType.Removed else ChangeType.Added)
      else mapFind k acc := by
  induction l generalizing acc with
  | nil => simp
  | cons x xs ih =>
    rw [List.foldl_cons, ih]
    by_cases hk : k ∈ xs
    · simp [hk]
    · by_cases hx : k = x
      · subst hx
        by_cases ho : k ∈ orig
        · simp [hk, ho, mapFind_mapAssign_self]
        · simp [hk, ho, mapFind_mapAssign_self]
      · by_cases ho : x ∈ orig
        · simp [hk, hx, ho, mapFind_mapAssign_ne]
        · simp [hk, hx, ho, mapFind_mapAssign_ne]

/-- C15: for subscription lists A (original) and B (updated), held as sets in ascending order,
CalculateChanges(A, B) maps every id in B but not in A to Added, every id in A but not in B
to Removed, and has no entry for any other id; its keys are exactly the symmetric difference of
A and B. -/
theorem C15_CalculateChanges (A B : UserSubscriptionList)
    (hA : A.InternalList.Pairwise (fun a b => a < b))
    (hB : B.InternalList.Pairwise (fun a b => a < b)) (id : Int) :
    (id ∈ B.InternalList → id ∉ A.InternalList →
        mapFind id (UserSubscriptionList.CalculateChanges A B) = some ChangeType.Added) ∧
      (id ∈ A.InternalList → id ∉ B.InternalList →
        mapFind id (UserSubscriptionList.CalculateChanges A B) = some ChangeType.Removed) ∧
      ((id ∈ A.InternalList ↔ id ∈ B.InternalList) →
        mapFind id (UserSubscriptionList.CalculateChanges A B) = none) ∧
      (id ∈ (UserSubscriptionList.CalculateChanges A B).map Prod.fst ↔
        (id ∈ A.InternalList ∧ id ∉ B.InternalList) ∨
          (id ∈ B.InternalList ∧ id ∉ A.InternalList)) := by
  have hfind : mapFind id (UserSubscriptionList.CalculateChanges A B) =
      if (id ∈ A.InternalList ∧ id ∉ B.InternalList) ∨
          (id ∈ B.InternalList ∧ id ∉ A.InternalList) then
        some (if id ∈ A.InternalList then ChangeType.Removed else ChangeType.Added)
      else none := by
    unfold UserSubscriptionList.CalculateChanges
    simp only
    rw [CalculateChanges_fold]
    simp only [mem_set_symmetric_difference _ _ hA hB, mapFind]
  refine ⟨fun hb ha => ?_, fun ha hb => ?_, fun hiff => ?_, ?_⟩
  · rw [hfind]; simp [ha, hb]
  · rw [hfind]; simp [ha, hb]
  · rw [hfind]
    by_cases ha : id ∈ A.InternalList
    · simp [ha, hiff.mp ha]
    · have hb : id ∉ B.InternalList := fun hb => ha (hiff.mpr hb)
      simp [ha, hb]
  · rw [← mapFind_isSome_iff, hfind]
    by_cases hc : (id ∈ A.InternalList ∧ id ∉ B.InternalList) ∨
        (id ∈ B.InternalList ∧ id ∉ A.InternalList)
    · simp [hc]
    · simp [hc]

/-- Witness for C15: from subscriptions 1, 2, 5, 7 to 2, 3, 7, 9, mod 3 is Added. -/
theorem C15_CalculateChanges_witness :
    mapFind 3 (UserSubscriptionList.CalculateChanges ⟨[1, 2, 5, 7]⟩ ⟨[2, 3, 7, 9]⟩) =
      some ChangeType.Added :=
  (C15_CalculateChanges ⟨[1, 2, 5, 7]⟩ ⟨[2, 3, 7, 9]⟩ (by decide) (by decide) 3).1
    (by decide) (by decide)

/-! ## Helper lemmas: the partition algorithm -/

theorem stdPartition_nil {α : Type} (p : α → Bool) :
    stdPartition p ([] : List α) = ([], 0) := by
  rw [stdPartition]

theorem stdPartition_cons {α : Type} (p : α → Bool) (x : α) (xs : List α) :
    stdPartition p (x :: xs) =
      if p x then
        ((x :: (stdPartition p xs).1), (stdPartition p xs).2 + 1)
      else
        match xs.reverse.dropWhile (fun a => !p a) with
        | [] => (x :: xs, 0)
        | y :: midRev =>
          ((y :: (stdPartition p midRev.reverse).1) ++
              x :: (xs.reverse.takeWhile (fun a => !p a)).reverse,
            (stdPartition p midRev.reverse).2 + 1) := by
  rw [stdPartition]
  split
  · rfl
  · split <;> rename_i h <;> rw [h]

theorem dropWhile_head_false {α : Type} (q : α → Bool) (l : List α) (y : α) (rest : List α)
    (h : l.dropWhile q = y :: rest) : q y = false := by
  induction l with
  | nil => simp at h
  | cons a l ih =>
    rw [List.dropWhile_cons] at h
    split at h
    · exact ih h
    · rename_i hq
      cases h
      simpa using hq

/-- What `std::partition` promises: the range is rearranged into the elements that satisfy the
predicate followed by those that do not, and the returned point is where the second group
starts. -/
theorem stdPartition_spec {α : Type} (p : α → Bool) (l : List α) :
    ∃ A B, (stdPartition p l).1 = A ++ B ∧ (stdPartition p l).2 = A.length ∧
      (∀ a ∈ A, p a = true) ∧ (∀ b ∈ B, p b = false) ∧ (A ++ B).Perm l := by
  induction l using stdPartition.induct p with
  | case1 =>
    refine ⟨[], [], ?_, ?_, ?_, ?_, ?_⟩ <;> simp [stdPartition_nil]
  | case2 x xs hp ih =>
    obtain ⟨A, B, h1, h2, hA, hB, hperm⟩ := ih
    refine ⟨x :: A, B, ?_, ?_, ?_, hB, ?_⟩
    · simp [stdPartition_cons, hp, h1]
    · simp [stdPartition_cons, hp, h2]
    · intro a ha
      rcases List.mem_cons.mp ha with rfl | ha
      · exact hp
      · exact hA a ha
    · exact List.Perm.cons x hperm
  | case3 x xs hp hnil =>
    have hnone : ∀ a ∈ xs, p a = false := by
      intro a ha
      have := (List.dropWhile_eq_nil_iff.mp hnil) a (List.mem_reverse.mpr ha)
      simpa using this
    refine ⟨[], x :: xs, ?_, ?_, ?_, ?_, ?_⟩
    · simp [stdPartition_cons, hp, hnil]
    · simp [stdPartition_cons, hp, hnil]
    · intro a ha
      cases ha
    · intro b hb
      rcases List.mem_cons.mp hb with rfl | hb
      · simpa using hp
      · exact hnone b hb
    · exact List.Perm.refl _
  | case4 x xs hp y midRev hcons ih =>
    obtain ⟨A, B, h1, h2, hA, hB, hperm⟩ := ih
    have hpx : p x = false := by simpa using hp
    have hy : p y = true := by
      have := dropWhile_head_false (fun a => !p a) xs.reverse y midRev hcons
      simpa using this
    have hsplit : xs.reverse =
        xs.reverse.takeWhile (fun a => !p a) ++ y :: midRev := by
      rw [← hcons, List.takeWhile_append_dropWhile]
    have hxs : xs = midRev.reverse ++ y :: (xs.reverse.takeWhile (fun a => !p a)).reverse := by
      have := congrArg List.reverse hsplit
      simpa using this
    have htail : ∀ b ∈ (xs.reverse.takeWhile (fun a => !p a)).reverse, p b = false := by
      intro b hb
      have := List.mem_takeWhile_imp (List.mem_reverse.mp hb)
      simpa using this
    refine ⟨y :: A, B ++ x :: (xs.reverse.takeWhile (fun a => !p a)).reverse,
      ?_, ?_, ?_, ?_, ?_⟩
    · simp [stdPartition_cons, hpx, hcons, h1]
    · simp [stdPartition_cons, hpx, hcons, h2]
    · intro a ha
      rcases List.mem_cons.mp ha with rfl | ha
      · exact hy
      · exact hA a ha
    · intro b hb
      rcases List.mem_append.mp hb with hb | hb
      · exact hB b hb
      · rcases List.mem_cons.mp hb with rfl | hb
        · exact hpx
        · exact htail b hb
    · have hgoal : (y :: A ++ (B ++ x :: (xs.reverse.takeWhile (fun a => !p a)).reverse)).Perm
          (x :: (midRev.reverse ++ y :: (xs.reverse.takeWhile (fun a => !p a)).reverse)) := by
        have e1 : y :: A ++ (B ++ x :: (xs.reverse.takeWhile (fun a => !p a)).reverse) =
            y :: ((A ++ B) ++ x :: (xs.reverse.takeWhile (fun a => !p a)).reverse) := by
          simp
        rw [e1]
        have s1 : (y :: ((A ++ B) ++ x :: (xs.reverse.takeWhile (fun a => !p a)).reverse)).Perm
            (y :: x :: ((A ++ B) ++ (xs.reverse.takeWhile (fun a => !p a)).reverse)) :=
          List.Perm.cons y List.perm_middle
        have s2 : (y :: x :: ((A ++ B) ++ (xs.reverse.takeWhile (fun a => !p a)).reverse)).Perm
            (y :: x :: (midRev.reverse ++ (xs.reverse.takeWhile (fun a => !p a)).reverse)) :=
          List.Perm.cons y (List.Perm.cons x (List.Perm.append_right _ hperm))
        have s3 : (y :: x :: (midRev.reverse ++
            (xs.reverse.takeWhile (fun a => !p a)).reverse)).Perm
            (x :: y :: (midRev.reverse ++ (xs.reverse.takeWhile (fun a => !p a)).reverse)) :=
          List.Perm.swap x y _
        have s4 : (x :: (midRev.reverse ++
            y :: (xs.reverse.takeWhile (fun a => !p a)).reverse)).Perm
            (x :: y :: (midRev.reverse ++ (xs.reverse.takeWhile (fun a => !p a)).reverse)) :=
          List.Perm.cons x List.perm_middle
        exact ((s1.trans s2).trans s3).trans s4.symm
      rw [← hxs] at hgoal
      exact hgoal

/-! ## Ordering entries by retry priority -/

/-- The shape of the result of SortEntriesByRetryPriority: three consecutive groups. -/
theorem SortEntriesByRetryPriority_groups (env : Env) (c : ModCollection) :
    ∃ A1 A2 B, c.SortEntriesByRetryPriority env = A1 ++ A2 ++ B ∧
      (∀ a ∈ A1, eligibleUntouched env a = true) ∧
      (∀ a ∈ A2, eligibleConsumed env a = true) ∧
      (∀ b ∈ B, notEligible b = true) ∧
      (A1 ++ A2 ++ B).Perm (c.ModEntries.map (fun kv => kv.2)) := by
  obtain ⟨A, B, h1, h2, hA, hB, hperm⟩ :=
    stdPartition_spec (fun Elem : ModCollectionEntry => Elem.ShouldRetry)
      (c.ModEntries.map (fun kv => kv.2))
  obtain ⟨A1, A2, g1, _, hA1, hA2, hperm2⟩ :=
    stdPartition_spec
      (fun Elem : ModCollectionEntry =>
        decide (Elem.GetRetriesRemaining = env.DefaultNumberOfRetries)) A
  have hmemA : ∀ a, a ∈ A1 ++ A2 → a ∈ A := fun a ha => hperm2.mem_iff.mp ha
  refine ⟨A1, A2, B, ?_, ?_, ?_, ?_, ?_⟩
  · unfold ModCollection.SortEntriesByRetryPriority
    simp only
    rw [h1, h2, List.take_left, List.drop_left, g1]
  · intro a ha
    have hs := hA a (hmemA a (List.mem_append_left _ ha))
    have hq := hA1 a ha
    simp only [eligibleUntouched, Bool.and_eq_true]
    exact ⟨hs, hq⟩
  · intro a ha
    have hs := hA a (hmemA a (List.mem_append_right _ ha))
    have hq := hA2 a ha
    simp only [eligibleConsumed, Bool.and_eq_true, Bool.not_eq_true']
    exact ⟨hs, hq⟩
  · intro b hb
    have hs := hB b hb
    simp only [notEligible, Bool.not_eq_true']
    exact hs
  · exact (List.Perm.append_right B hperm2).trans hperm

theorem eligibleUntouched_elim (env : Env) (e : ModCollectionEntry)
    (h : eligibleUntouched env e = true) :
    e.ShouldRetry = true ∧ e.GetRetriesRemaining = env.DefaultNumberOfRetries ∧
      eligibleConsumed env e = false ∧ notEligible e = false := by
  unfold eligibleUntouched at h
  unfold eligibleConsumed notEligible
  simp only [Bool.and_eq_true, decide_eq_true_eq] at h
  simp [h.1, h.2]

theorem eligibleConsumed_elim (env : Env) (e : ModCollectionEntry)
    (h : eligibleConsumed env e = true) :
    e.ShouldRetry = true ∧ e.GetRetriesRemaining ≠ env.DefaultNumberOfRetries ∧
      eligibleUntouched env e = false ∧ notEligible e = false := by
  unfold eligibleConsumed at h
  unfold eligibleUntouched notEligible
  simp only [Bool.and_eq_true, Bool.not_eq_true', decide_eq_false_iff_not] at h
  simp [h.1, h.2]

theorem notEligible_elim (env : Env) (e : ModCollectionEntry) (h : notEligible e = true) :
    e.ShouldRetry = false ∧ eligibleUntouched env e = false ∧
      eligibleConsumed env e = false := by
  unfold notEligible at h
  unfold eligibleUntouched eligibleConsumed
  simp only [Bool.not_eq_true'] at h
  simp [h]

theorem filter_groups (env : Env) (A1 A2 B : List ModCollectionEntry)
    (hA1 : ∀ a ∈ A1, eligibleUntouched env a = true)
    (hA2 : ∀ a ∈ A2, eligibleConsumed env a = true)
    (hB : ∀ b ∈ B, notEligible b = true) :
    (A1 ++ A2 ++ B).filter (eligibleUntouched env) = A1 ∧
      (A1 ++ A2 ++ B).filter (eligibleConsumed env) = A2 ∧
      (A1 ++ A2 ++ B).filter notEligible = B := by
  have f11 : A1.filter (eligibleUntouched env) = A1 := List.filter_eq_self.mpr hA1
  have f12 : A2.filter (eligibleUntouched env) = [] :=
    List.filter_eq_nil_iff.mpr fun a ha => by
      simp [(eligibleConsumed_elim env a (hA2 a ha)).2.2.1]
  have f13 : B.filter (eligibleUntouched env) = [] :=
    List.filter_eq_nil_iff.mpr fun a ha => by
      simp [(notEligible_elim env a (hB a ha)).2.1]
  have f21 : A1.filter (eligibleConsumed env) = [] :=
    List.filter_eq_nil_iff.mpr fun a ha => by
      simp [(eligibleUntouched_elim env a (hA1 a ha)).2.2.1]
  have f22 : A2.filter (eligibleConsumed env) = A2 := List.filter_eq_self.mpr hA2
  have f23 : B.filter (eligibleConsumed env) = [] :=
    List.filter_eq_nil_iff.mpr fun a ha => by
      simp [(notEligible_elim env a (hB a ha)).2.2]
  have f31 : A1.filter notEligible = [] :=
    List.filter_eq_nil_iff.mpr fun a ha => by
      simp [(eligibleUntouched_elim env a (hA1 a ha)).2.2.2]
  have f32 : A2.filter notEligible = [] :=
    List.filter_eq_nil_iff.mpr fun a ha => by
      simp [(eligibleConsumed_elim env a (hA2 a ha)).2.2.2]
  have f33 : B.filter notEligible = B := List.filter_eq_self.mpr hB
  simp only [List.filter_append, f11, f12, f13, f21, f22, f23, f31, f32, f33,
    List.append_nil, List.nil_append, and_self]

/-- C16: SortEntriesByRetryPriority returns a rearrangement of the entries of the collection
(each exactly once); no entry with ShouldRetry false comes before one with ShouldRetry true;
among the entries with ShouldRetry true none whose countdown differs from
DefaultNumberOfRetries comes before one whose countdown equals it; and a collection holding one
untouched, one partially consumed and one not eligible entry is returned in that order. -/
theorem C16_SortEntriesByRetryPriority (env : Env) (c : ModCollection) :
    (c.SortEntriesByRetryPriority env).Perm (c.ModEntries.map (fun kv => kv.2)) ∧
      (c.SortEntriesByRetryPriority env).Pairwise
        (fun a b => b.ShouldRetry = true → a.ShouldRetry = true) ∧
      (c.SortEntriesByRetryPriority env).Pairwise
        (fun a b => a.ShouldRetry = true → b.ShouldRetry = true →
          b.GetRetriesRemaining = env.DefaultNumberOfRetries →
          a.GetRetriesRemaining = env.DefaultNumberOfRetries) ∧
      (∀ u pc f : ModCollectionEntry, (c.ModEntries.map (fun kv => kv.2)).Perm [u, pc, f] →
        eligibleUntouched env u = true → eligibleConsumed env pc = true →
        notEligible f = true → c.SortEntriesByRetryPriority env = [u, pc, f]) := by
  obtain ⟨A1, A2, B, hres, hA1, hA2, hB, hperm⟩ := SortEntriesByRetryPriority_groups env c
  rw [hres]
  refine ⟨hperm, ?_, ?_, ?_⟩
  · rw [List.pairwise_append, List.pairwise_append]
    refine ⟨⟨?_, ?_, ?_⟩, ?_, ?_⟩
    · exact List.pairwise_of_forall_mem_list fun a ha b _ _ =>
        (eligibleUntouched_elim env a (hA1 a ha)).1
    · exact List.pairwise_of_forall_mem_list fun a ha b _ _ =>
        (eligibleConsumed_elim env a (hA2 a ha)).1
    · exact fun a ha b _ _ => (eligibleUntouched_elim env a (hA1 a ha)).1
    · exact List.pairwise_of_forall_mem_list fun a _ b hb hs => by
        rw [(notEligible_elim env b (hB b hb)).1] at hs
        exact Bool.noConfusion hs
    · intro a ha b _ _
      rcases List.mem_append.mp ha with ha | ha
      · exact (eligibleUntouched_elim env a (hA1 a ha)).1
      · exact (eligibleConsumed_elim env a (hA2 a ha)).1
  · rw [List.pairwise_append, List.pairwise_append]
    refine ⟨⟨?_, ?_, ?_⟩, ?_, ?_⟩
    · exact List.pairwise_of_forall_mem_list fun a ha b _ _ _ _ =>
        (eligibleUntouched_elim env a (hA1 a ha)).2.1
    · exact List.pairwise_of_forall_mem_list fun a _ b hb _ _ hq =>
        absurd hq (eligibleConsumed_elim env b (hA2 b hb)).2.1
    · exact fun a ha b _ _ _ _ => (eligibleUntouched_elim env a (hA1 a ha)).2.1
    · exact List.pairwise_of_forall_mem_list fun a _ b hb _ hs _ => by
        rw [(notEligible_elim env b (hB b hb)).1] at hs
        exact Bool.noConfusion hs
    · intro a _ b hb _ hs _
      rw [(notEligible_elim env b (hB b hb)).1] at hs
      exact Bool.noConfusion hs
  · intro u pc f hL hu hpc hf
    have hall : (A1 ++ A2 ++ B).Perm [u, pc, f] := hperm.trans hL
    obtain ⟨g1, g2, g3⟩ := filter_groups env A1 A2 B hA1 hA2 hB
    have hu2 := eligibleUntouched_elim env u hu
    have hpc2 := eligibleConsumed_elim env pc hpc
    have hf2 := notEligible_elim env f hf
    have e1 : A1 = [u] := by
      have := List.Perm.filter (eligibleUntouched env) hall
      rw [g1] at this
      simpa [List.filter, hu, hpc2.2.2.1, hf2.2.1] using this
    have e2 : A2 = [pc] := by
      have := List.Perm.filter (eligibleConsumed env) hall
      rw [g2] at this
      simpa [List.filter, hpc, hu2.2.2.1, hf2.2.2] using this
    have e3 : B = [f] := by
      have := List.Perm.filter notEligible hall
      rw [g3] at this
      simpa [List.filter, hf, hu2.2.2.2, hpc2.2.2.2] using this
    rw [e1, e2, e3]
    rfl

/-- Witness for C16: mod 1 failed for good, mod 2 has one retry left of three, mod 3 is
untouched; the result is mod 3, mod 2, mod 1. -/
theorem C16_SortEntriesByRetryPriority_witness :
    ModCollection.SortEntriesByRetryPriority demoEnv
        { ModEntries :=
            [(1, { demoEntry ModState.Installed 3 with ID := 1, NeverRetryReason := ⟨2, 5⟩ }),
              (2, { demoEntry ModState.Installed 1 with ID := 2 }),
              (3, { demoEntry ModState.Installed 3 with ID := 3 })] } =
      [{ demoEntry ModState.Installed 3 with ID := 3 },
        { demoEntry ModState.Installed 1 with ID := 2 },
        { demoEntry ModState.Installed 3 with ID := 1, NeverRetryReason := ⟨2, 5⟩ }] :=
  (C16_SortEntriesByRetryPriority demoEnv
      { ModEntries :=
          [(1, { demoEntry ModState.Installed 3 with ID := 1, NeverRetryReason := ⟨2, 5⟩ }),
            (2, { demoEntry ModState.Installed 1 with ID := 2 }),
            (3, { demoEntry ModState.Installed 3 with ID := 3 })] }).2.2.2
    { demoEntry ModState.Installed 3 with ID := 3 }
    { demoEntry ModState.Installed 1 with ID := 2 }
    { demoEntry ModState.Installed 3 with ID := 1, NeverRetryReason := ⟨2, 5⟩ }
    ((List.Perm.swap _ _ _).trans
      ((List.Perm.cons _ (List.Perm.swap _ _ _)).trans (List.Perm.swap _ _ _)))
    (by decide) (by decide) (by decide)

/-- C17, as stated, fails: mods 2 and 3 are both untouched and are taken from the collection
in that order, after mod 1, which is not eligible; the partition swaps mod 1 with mod 3, and the
untouched group comes out as mod 3, mod 2. -/
theorem C17_counterexample :
    (demoRetryCollection.SortEntriesByRetryPriority demoEnv).map (fun e => e.ID) = [3, 2, 1] ∧
      (demoRetryCollection.SortEntriesByRetryPriority demoEnv).filter (eligibleUntouched demoEnv) ≠
        (demoRetryCollection.ModEntries.map (fun kv => kv.2)).filter
          (eligibleUntouched demoEnv) := by
  have hsort : demoRetryCollection.SortEntriesByRetryPriority demoEnv =
      [{ demoEntry ModState.Installed 3 with ID := 3 },
        { demoEntry ModState.Installed 3 with ID := 2 },
        { demoEntry ModState.Installed 3 with ID := 1, ShouldNotRetry := true }] := by
    simp [ModCollection.SortEntriesByRetryPriority, demoRetryCollection, stdPartition_cons,
      stdPartition_nil, ModCollectionEntry.ShouldRetry, ModCollectionEntry.GetRetriesRemaining,
      demoEntry, demoEnv, ErrorCode.operatorBool, List.dropWhile, List.takeWhile]
  rw [hsort]
  exact ⟨by decide, by decide⟩

/-- C17, amended: the result of SortEntriesByRetryPriority is the untouched group, then the
partially consumed group, then the group not eligible, and each group holds exactly the
entries of that group taken from the collection (each as often as there); the order of the
entries inside a group is whatever the two partition passes leave. -/
theorem C17_partition_groups (env : Env) (c : ModCollection) :
    c.SortEntriesByRetryPriority env =
        (c.SortEntriesByRetryPriority env).filter (eligibleUntouched env) ++
          (c.SortEntriesByRetryPriority env).filter (eligibleConsumed env) ++
          (c.SortEntriesByRetryPriority env).filter notEligible ∧
      ((c.SortEntriesByRetryPriority env).filter (eligibleUntouched env)).Perm
        ((c.ModEntries.map (fun kv => kv.2)).filter (eligibleUntouched env)) ∧
      ((c.SortEntriesByRetryPriority env).filter (eligibleConsumed env)).Perm
        ((c.ModEntries.map (fun kv => kv.2)).filter (eligibleConsumed env)) ∧
      ((c.SortEntriesByRetryPriority env).filter notEligible).Perm
        ((c.ModEntries.map (fun kv => kv.2)).filter notEligible) := by
  obtain ⟨A1, A2, B, hres, hA1, hA2, hB, hperm⟩ := SortEntriesByRetryPriority_groups env c
  obtain ⟨g1, g2, g3⟩ := filter_groups env A1 A2 B hA1 hA2 hB
  have p1 := List.Perm.filter (eligibleUntouched env) hperm
  have p2 := List.Perm.filter (eligibleConsumed env) hperm
  have p3 := List.Perm.filter notEligible hperm
  rw [hres]
  refine ⟨?_, p1, p2, p3⟩
  rw [g1, g2, g3]

/-! ## Writing and loading a collection -/

/-- C11, evaluated on the code: what to_json writes for a collection is the array of the key
and the entry records, in which from_json finds no key, so loading it leaves any collection
as it was. The sample collection with keys 3, 5 and 9 loads back into an empty collection as
the empty collection, whereas an object holding the same records under the key loads as a
collection with keys 3, 5 and 9. Moreover the record written for an Installed entry whose
terminal failure reason is code 2 in category 5 holds code 0 in category 0, the copy made
before writing having no terminal failure reason. -/
theorem C11_saved_collection_loads_nothing :
    (∀ (env : Env) (c target : ModCollection),
        ModCollection.from_json env (ModCollection.to_json env c) target = target) ∧
      demoCollection.ModEntries.map Prod.fst = [3, 5, 9] ∧
      (ModCollection.from_json demoEnv (ModCollection.to_json demoEnv demoCollection)
        { ModEntries := [] }).ModEntries = [] ∧
      (∃ records,
        ModCollection.to_json demoEnv demoCollection = CollectionJson.array records ∧
        (ModCollection.from_json demoEnv (CollectionJson.object (some records))
          { ModEntries := [] }).ModEntries.map Prod.fst = [3, 5, 9]) ∧
      ∃ records,
        ModCollection.to_json demoEnv
            { ModEntries :=
                [(7, { demoEntry ModState.Installed 3 with NeverRetryReason := ⟨2, 5⟩ })] } =
          CollectionJson.array records ∧
        records.map (fun j => (j.ModEntryID, j.ModNeverRetryCode, j.ModNeverRetryCategory)) =
          [(some 7, some 0, some 0)] :=
  ⟨fun _ _ _ => rfl, by decide, by decide, ⟨_, rfl, by decide⟩, _, rfl, by decide⟩

/-! ## Subscriptions of an entry -/

theorem mem_setInsert (x u : Int) (s : List Int) : x ∈ setInsert u s ↔ x = u ∨ x ∈ s := by
  induction s with
  | nil => simp [setInsert]
  | cons y ys ih =>
    unfold setInsert
    by_cases h1 : u < y
    · simp [h1]
    · by_cases h2 : u = y
      · subst h2
        simp
      · simp only [h1, h2, if_false, List.mem_cons, ih]
        constructor
        · rintro (h | h | h)
          · exact Or.inr (Or.inl h)
          · exact Or.inl h
          · exact Or.inr (Or.inr h)
        · rintro (h | h | h)
          · exact Or.inr (Or.inl h)
          · exact Or.inl h
          · exact Or.inr (Or.inr h)

/-- C21: for a present user u, RemoveLocalUserSubscription erases u from the subscriber set
and keeps every other subscriber; afterwards the state is UninstallPending if the set is
empty and the state it was otherwise; an InstallationPending entry whose only subscriber is u
ends UninstallPending. -/
theorem C21_RemoveLocalUserSubscription (e : ModCollectionEntry) (u : User) :
    (e.RemoveLocalUserSubscription (some u)).1.LocalUserSubscriptions =
        setErase u.UserId e.LocalUserSubscriptions ∧
      u.UserId ∉ (e.RemoveLocalUserSubscription (some u)).1.LocalUserSubscriptions ∧
      (∀ x, x ≠ u.UserId →
        (x ∈ (e.RemoveLocalUserSubscription (some u)).1.LocalUserSubscriptions ↔
          x ∈ e.LocalUserSubscriptions)) ∧
      ((e.RemoveLocalUserSubscription (some u)).1.LocalUserSubscriptions = [] →
        (e.RemoveLocalUserSubscription (some u)).1.CurrentState = ModState.UninstallPending) ∧
      ((e.RemoveLocalUserSubscription (some u)).1.LocalUserSubscriptions ≠ [] →
        (e.RemoveLocalUserSubscription (some u)).1.CurrentState = e.CurrentState) ∧
      (e.CurrentState = ModState.InstallationPending →
        e.LocalUserSubscriptions = [u.UserId] →
        (e.RemoveLocalUserSubscription (some u)).1.CurrentState = ModState.UninstallPending) := by
  have hsubs : (e.RemoveLocalUserSubscription (some u)).1.LocalUserSubscriptions =
      setErase u.UserId e.LocalUserSubscriptions := by
    unfold ModCollectionEntry.RemoveLocalUserSubscription
    simp only
    split <;> rfl
  have hempty : (e.RemoveLocalUserSubscription (some u)).1.LocalUserSubscriptions = [] →
      (e.RemoveLocalUserSubscription (some u)).1.CurrentState = ModState.UninstallPending := by
    intro h
    rw [hsubs] at h
    unfold ModCollectionEntry.RemoveLocalUserSubscription
    simp [h]
  refine ⟨hsubs, ?_, ?_, hempty, ?_, ?_⟩
  · rw [hsubs]
    simp [setErase]
  · intro x hx
    rw [hsubs]
    simp [setErase, hx]
  · intro h
    rw [hsubs] at h
    have hlen : (setErase u.UserId e.LocalUserSubscriptions).length ≠ 0 := by
      intro h0
      exact h (List.length_eq_zero.mp h0)
    unfold ModCollectionEntry.RemoveLocalUserSubscription
    simp [hlen]
  · intro _ hone
    apply hempty
    rw [hsubs, hone]
    simp [setErase]

/-- Witness for C21: the sample entry is InstallationPending with the single subscriber 1. -/
theorem C21_RemoveLocalUserSubscription_witness :
    ((demoEntry ModState.InstallationPending 3).RemoveLocalUserSubscription
      (some ⟨1⟩)).1.CurrentState = ModState.UninstallPending :=
  (C21_RemoveLocalUserSubscription (demoEntry ModState.InstallationPending 3) ⟨1⟩).2.2.2.2.2
    rfl rfl

theorem demoCrowd_insert : setInsert (-1) demoCrowd = -1 :: demoCrowd := by
  have h : demoCrowd = 0 :: List.map Int.ofNat (List.map Nat.succ (List.range 255)) := by
    unfold demoCrowd
    rw [List.range_succ_eq_map]
    rfl
  rw [h]
  simp [setInsert]

theorem demoCrowd_length : demoCrowd.length = 256 := by
  unfold demoCrowd
  rw [List.length_map, List.length_range]

/-- C22, as stated, fails: with 256 subscribers, adding a new user gives a set of 257
subscribers and the call returns 1. -/
theorem C22_counterexample :
    (ModCollectionEntry.AddLocalUserSubscription
        { demoEntry ModState.Installed 3 with LocalUserSubscriptions := demoCrowd }
        (some ⟨-1⟩)).1.LocalUserSubscriptions.length = 257 ∧
      (ModCollectionEntry.AddLocalUserSubscription
        { demoEntry ModState.Installed 3 with LocalUserSubscriptions := demoCrowd }
        (some ⟨-1⟩)).2 = 1 := by
  simp [ModCollectionEntry.AddLocalUserSubscription, demoCrowd_insert, demoCrowd_length]

/-- C22, amended: for a present user u, AddLocalUserSubscription inserts u into the subscriber
set (u and the previous subscribers, nothing else) and returns the size of the set after the
insertion reduced modulo 256, which is that size whenever it is below 256. -/
theorem C22_AddLocalUserSubscription (e : ModCollectionEntry) (u : User) :
    (e.AddLocalUserSubscription (some u)).1.LocalUserSubscriptions =
        setInsert u.UserId e.LocalUserSubscriptions ∧
      (∀ x, x ∈ (e.AddLocalUserSubscription (some u)).1.LocalUserSubscriptions ↔
        x = u.UserId ∨ x ∈ e.LocalUserSubscriptions) ∧
      (e.AddLocalUserSubscription (some u)).2 =
        (e.AddLocalUserSubscription (some u)).1.LocalUserSubscriptions.length % 256 ∧
      ((e.AddLocalUserSubscription (some u)).1.LocalUserSubscriptions.length < 256 →
        (e.AddLocalUserSubscription (some u)).2 =
          (e.AddLocalUserSubscription (some u)).1.LocalUserSubscriptions.length) := by
  refine ⟨rfl, fun x => mem_setInsert x u.UserId e.LocalUserSubscriptions, rfl, fun h => ?_⟩
  exact Nat.mod_eq_of_lt h

/-- Witness for C22 (amended): a second user subscribes to the sample entry. -/
theorem C22_AddLocalUserSubscription_witness :
    ((demoEntry ModState.Installed 3).AddLocalUserSubscription (some ⟨2⟩)).2 = 2 :=
  (C22_AddLocalUserSubscription (demoEntry ModState.Installed 3) ⟨2⟩).2.2.2 (by decide)

/-! ## Profile updates and the state setter -/

/-- C23: UpdateModProfile sets the state to UpdatePending when the stored and the new profile
both carry FileInfo with different MetadataId, and leaves the state as it was in every other
case; the stored profile is the new one afterwards, and the countdown, sticky flag, terminal
failure reason, rollback state and subscribers are as before. -/
theorem C23_UpdateModProfile (env : Env) (e : ModCollectionEntry) (ProfileData : ModInfo) :
    (∀ old new, e.ModProfile.FileInfo = some old → ProfileData.FileInfo = some new →
        old.MetadataId ≠ new.MetadataId →
        (e.UpdateModProfile env ProfileData).CurrentState = ModState.UpdatePending) ∧
      ((¬∃ old new, e.ModProfile.FileInfo = some old ∧ ProfileData.FileInfo = some new ∧
          old.MetadataId ≠ new.MetadataId) →
        (e.UpdateModProfile env ProfileData).CurrentState = e.CurrentState) ∧
      (e.UpdateModProfile env ProfileData).ModProfile = ProfileData ∧
      (e.UpdateModProfile env ProfileData).RetriesRemainingThisSession =
        e.RetriesRemainingThisSession ∧
      (e.UpdateModProfile env ProfileData).ShouldNotRetry = e.ShouldNotRetry ∧
      (e.UpdateModProfile env ProfileData).NeverRetryReason = e.NeverRetryReason ∧
      (e.UpdateModProfile env ProfileData).RollbackState = e.RollbackState ∧
      (e.UpdateModProfile env ProfileData).LocalUserSubscriptions =
        e.LocalUserSubscriptions := by
  refine ⟨fun old new ho hn hne => ?_, fun hnot => ?_, ?_, ?_, ?_,
    UpdateModProfile_reason env e ProfileData, UpdateModProfile_rollback env e ProfileData, ?_⟩
  · simp [ModCollectionEntry.UpdateModProfile, ModCollectionEntry.SetModState, ho, hn, hne]
  · unfold ModCollectionEntry.UpdateModProfile
    simp only
    split
    · rename_i old new ho hn
      by_cases hne : old.MetadataId ≠ new.MetadataId
      · exact absurd ⟨old, new, ho, hn, hne⟩ hnot
      · simp [hne]
    · rfl
  · unfold ModCollectionEntry.UpdateModProfile
    rfl
  all_goals
    unfold ModCollectionEntry.UpdateModProfile ModCollectionEntry.SetModState
    simp only
    split
    · split <;> rfl
    · rfl

/-- Witness for C23: an Installed entry with file metadata 10 receives a profile with file
metadata 11. -/
theorem C23_UpdateModProfile_witness :
    (ModCollectionEntry.UpdateModProfile demoEnv
      { demoEntry ModState.Installed 3 with ModProfile := ⟨7, some ⟨10⟩⟩ }
      ⟨7, some ⟨11⟩⟩).CurrentState = ModState.UpdatePending :=
  (C23_UpdateModProfile demoEnv
    { demoEntry ModState.Installed 3 with ModProfile := ⟨7, some ⟨10⟩⟩ } ⟨7, some ⟨11⟩⟩).1
    ⟨10⟩ ⟨11⟩ rfl rfl (by decide)

/-- C24: whatever the countdown was, SetModState(Installed) leaves the state Installed and
the countdown at DefaultNumberOfRetries (as stored in 8 bits; the constant itself when it
fits); SetModState with any other state sets that state and leaves the countdown as it
was. -/
theorem C24_SetModState (env : Env) (e : ModCollectionEntry) :
    (e.SetModState env ModState.Installed).CurrentState = ModState.Installed ∧
      (e.SetModState env ModState.Installed).RetriesRemainingThisSession =
        env.DefaultNumberOfRetries % 256 ∧
      (env.DefaultNumberOfRetries < 256 →
        (e.SetModState env ModState.Installed).RetriesRemainingThisSession =
          env.DefaultNumberOfRetries) ∧
      (∀ s, s ≠ ModState.Installed →
        (e.SetModState env s).CurrentState = s ∧
          (e.SetModState env s).RetriesRemainingThisSession =
            e.RetriesRemainingThisSession) := by
  refine ⟨rfl, rfl, fun h => ?_, fun s hs => ?_⟩
  · show env.DefaultNumberOfRetries % 256 = env.DefaultNumberOfRetries
    exact Nat.mod_eq_of_lt h
  · simp [ModCollectionEntry.SetModState, hs]

/-- Witness for C24: an entry with no retries left is set to Installed. -/
theorem C24_SetModState_witness :
    ((demoEntry ModState.Extracting 0).SetModState demoEnv
      ModState.Installed).RetriesRemainingThisSession = 3 :=
  (C24_SetModState demoEnv (demoEntry ModState.Extracting 0)).2.2.1 (by decide)

/-! ## Where the countdown is reset -/

theorem UpdateModProfile_state (env : Env) (e : ModCollectionEntry) (p : ModInfo) :
    (e.UpdateModProfile env p).CurrentState = ModState.UpdatePending ∨
      (e.UpdateModProfile env p).CurrentState = e.CurrentState := by
  unfold ModCollectionEntry.UpdateModProfile ModCollectionEntry.SetModState
  simp only
  split
  · split
    · exact Or.inl rfl
    · exact Or.inr rfl
  · exact Or.inr rfl

theorem RemoveLocalUserSubscription_state (e : ModCollectionEntry) (u : Option User) :
    (e.RemoveLocalUserSubscription u).1.CurrentState = ModState.UninstallPending ∨
      (e.RemoveLocalUserSubscription u).1.CurrentState = e.CurrentState := by
  unfold ModCollectionEntry.RemoveLocalUserSubscription
  cases u with
  | none => exact Or.inr rfl
  | some u =>
    simp only
    split
    · exact Or.inl rfl
    · exact Or.inr rfl

/-- C25, as stated, fails: a transaction is begun on an Installed entry with three retries,
the entry moves to Downloading, a retryable failure takes one retry, and RollbackTransaction
brings the state from Downloading back to Installed with two retries left, not three. -/
theorem C25_counterexample :
    (runOps demoEnv (demoEntry ModState.Installed 3)
        [EntryOp.BeginTransaction, EntryOp.SetModState ModState.Downloading,
          EntryOp.SetLastError ⟨1, 0⟩]).CurrentState = ModState.Downloading ∧
      (runOps demoEnv (demoEntry ModState.Installed 3)
        [EntryOp.BeginTransaction, EntryOp.SetModState ModState.Downloading,
          EntryOp.SetLastError ⟨1, 0⟩, EntryOp.RollbackTransaction]).CurrentState =
        ModState.Installed ∧
      (runOps demoEnv (demoEntry ModState.Installed 3)
        [EntryOp.BeginTransaction, EntryOp.SetModState ModState.Downloading,
          EntryOp.SetLastError ⟨1, 0⟩,
          EntryOp.RollbackTransaction]).RetriesRemainingThisSession = 2 ∧
      demoEnv.DefaultNumberOfRetries = 3 := by
  decide

theorem applyOp_transition_to_Installed (env : Env) (e : ModCollectionEntry) (op : EntryOp)
    (hbefore : e.CurrentState ≠ ModState.Installed)
    (hafter : (applyOp env e op).CurrentState = ModState.Installed) :
    (op = EntryOp.SetModState ModState.Installed ∧
        (applyOp env e op).RetriesRemainingThisSession = env.DefaultNumberOfRetries % 256) ∨
      (op = EntryOp.RollbackTransaction ∧ e.RollbackState = some ModState.Installed ∧
        (applyOp env e op).RetriesRemainingThisSession = e.RetriesRemainingThisSession) := by
  cases op with
  | SetModState s =>
    have hs : (e.SetModState env s).CurrentState = s := by
      unfold ModCollectionEntry.SetModState
      simp only
      split <;> rfl
    have hs2 : s = ModState.Installed := by
      rw [← hs]; exact hafter
    subst hs2
    exact Or.inl ⟨rfl, rfl⟩
  | SetLastError r =>
    have h : (e.SetLastError env r).CurrentState = ModState.Installed := hafter
    rw [SetLastError_state] at h
    exact absurd h hbefore
  | MarkModNoRetryThisSession => exact absurd hafter hbefore
  | ClearModNoRetry => exact absurd hafter hbefore
  | AddLocalUserSubscription u =>
    have h : (e.AddLocalUserSubscription u).1.CurrentState = ModState.Installed := hafter
    have h2 : (e.AddLocalUserSubscription u).1.CurrentState = e.CurrentState := by
      unfold ModCollectionEntry.AddLocalUserSubscription
      cases u <;> rfl
    rw [h2] at h
    exact absurd h hbefore
  | RemoveLocalUserSubscription u =>
    have h : (e.RemoveLocalUserSubscription u).1.CurrentState = ModState.Installed := hafter
    rcases RemoveLocalUserSubscription_state e u with h2 | h2
    · rw [h2] at h
      exact ModState.noConfusion h
    · rw [h2] at h
      exact absurd h hbefore
  | UpdateModProfile p =>
    have h : (e.UpdateModProfile env p).CurrentState = ModState.Installed := hafter
    rcases UpdateModProfile_state env e p with h2 | h2
    · rw [h2] at h
      exact ModState.noConfusion h
    · rw [h2] at h
      exact absurd h hbefore
  | UpdateSizeOnDisk n => exact absurd hafter hbefore
  | BeginTransaction =>
    have h : (BeginTransactionImpl e).CurrentState = ModState.Installed := hafter
    have h2 : (BeginTransactionImpl e).CurrentState = e.CurrentState := by
      unfold BeginTransactionImpl
      split <;> rfl
    rw [h2] at h
    exact absurd h hbefore
  | RollbackTransaction =>
    have h : (RollbackTransactionImpl e).CurrentState = ModState.Installed := hafter
    cases hr : e.RollbackState with
    | none =>
      simp only [RollbackTransactionImpl, hr] at h
      exact absurd h hbefore
    | some R =>
      simp only [RollbackTransactionImpl, hr] at h
      subst h
      refine Or.inr ⟨rfl, rfl, ?_⟩
      show (RollbackTransactionImpl e).RetriesRemainingThisSession = _
      simp only [RollbackTransactionImpl, hr]

/-- C25, amended: a write to an entry that takes the state from a state other than Installed
to Installed is one of four. SetModState(Installed): the countdown is then
DefaultNumberOfRetries (as stored in 8 bits). RollbackTransaction restoring an Installed
snapshot: the countdown is what it was before the call. The copy assignment from an entry
that is Installed: the countdown is that of the entry assigned from. from_json reading a
record whose state is Installed: the countdown is what it was before the call. -/
theorem C25_transition_to_Installed (env : Env) (e : ModCollectionEntry) (w : EntryWrite)
    (hbefore : e.CurrentState ≠ ModState.Installed)
    (hafter : (applyWrite env e w).CurrentState = ModState.Installed) :
    (w = EntryWrite.call (EntryOp.SetModState ModState.Installed) ∧
        (applyWrite env e w).RetriesRemainingThisSession = env.DefaultNumberOfRetries % 256) ∨
      (w = EntryWrite.call EntryOp.RollbackTransaction ∧
        e.RollbackState = some ModState.Installed ∧
        (applyWrite env e w).RetriesRemainingThisSession = e.RetriesRemainingThisSession) ∨
      (∃ Other, w = EntryWrite.assign Other ∧ Other.CurrentState = ModState.Installed ∧
        (applyWrite env e w).RetriesRemainingThisSession =
          Other.RetriesRemainingThisSession) ∨
      (∃ j, w = EntryWrite.from_json j ∧ j.ModEntryState = some ModState.Installed ∧
        (applyWrite env e w).RetriesRemainingThisSession = e.RetriesRemainingThisSession) := by
  cases w with
  | call op =>
    rcases applyOp_transition_to_Installed env e op hbefore hafter with ⟨h1, h2⟩ | ⟨h1, h2, h3⟩
    · exact Or.inl ⟨congrArg EntryWrite.call h1, h2⟩
    · exact Or.inr (Or.inl ⟨congrArg EntryWrite.call h1, h2, h3⟩)
  | assign Other =>
    exact Or.inr (Or.inr (Or.inl ⟨Other, rfl, hafter, rfl⟩))
  | from_json j =>
    have hstate : (ModCollectionEntry.from_json env j e).CurrentState =
        ParseSafe j.ModEntryState ModState.InstallationPending := by
      unfold ModCollectionEntry.from_json
      simp only
      split <;> rfl
    have hretries : (ModCollectionEntry.from_json env j e).RetriesRemainingThisSession =
        e.RetriesRemainingThisSession := by
      unfold ModCollectionEntry.from_json
      simp only
      split <;> rfl
    have h : ParseSafe j.ModEntryState ModState.InstallationPending = ModState.Installed := by
      rw [← hstate]
      exact hafter
    refine Or.inr (Or.inr (Or.inr ⟨j, rfl, ?_, hretries⟩))
    cases hj : j.ModEntryState with
    | none =>
      rw [hj] at h
      exact ModState.noConfusion h
    | some s =>
      rw [hj] at h
      exact congrArg some h

/-- Witness for C25 (amended): the rollback of the counterexample, applied to the entry that
is Downloading with two retries left and the snapshot Installed, leaves two retries; and the
copy assignment from an Installed entry with one retry left, applied to the same entry, moves
it to Installed with one retry left. -/
theorem C25_transition_to_Installed_witness :
    (applyWrite demoEnv
        { demoEntry ModState.Downloading 2 with RollbackState := some ModState.Installed }
        (EntryWrite.call EntryOp.RollbackTransaction)).RetriesRemainingThisSession = 2 ∧
      (applyWrite demoEnv
        { demoEntry ModState.Downloading 2 with RollbackState := some ModState.Installed }
        (EntryWrite.assign (demoEntry ModState.Installed 1))).CurrentState =
        ModState.Installed ∧
      (applyWrite demoEnv
        { demoEntry ModState.Downloading 2 with RollbackState := some ModState.Installed }
        (EntryWrite.assign (demoEntry ModState.Installed 1))).RetriesRemainingThisSession = 1 ∧
      demoEnv.DefaultNumberOfRetries = 3 := by
  have h := C25_transition_to_Installed demoEnv
    { demoEntry ModState.Downloading 2 with RollbackState := some ModState.Installed }
    (EntryWrite.call EntryOp.RollbackTransaction) (by decide) (by decide)
  refine ⟨?_, by decide, by decide, rfl⟩
  rcases h with ⟨h1, _⟩ | ⟨_, _, h3⟩ | ⟨_, h1, _⟩ | ⟨_, h1, _⟩
  · exact EntryOp.noConfusion (EntryWrite.call.inj h1)
  · exact h3
  · exact EntryWrite.noConfusion h1
  · exact EntryWrite.noConfusion h1

/-! ## The rollback state and the current state -/

/-- C26, as stated, fails: right after BeginTransaction on a newly constructed entry the
rollback state InstallationPending is recorded and the current state is InstallationPending,
neither Downloading nor Extracting. -/
theorem C26_counterexample :
    (runOps demoEnv (ModCollectionEntry.create demoEnv ⟨7, none⟩ "mods/7")
        [EntryOp.BeginTransaction]).RollbackState = some ModState.InstallationPending ∧
      (runOps demoEnv (ModCollectionEntry.create demoEnv ⟨7, none⟩ "mods/7")
        [EntryOp.BeginTransaction]).CurrentState = ModState.InstallationPending := by
  decide

/-- C26, amended: in every entry state reachable from a newly constructed entry by entry
operations, a recorded rollback state is itself neither Downloading nor Extracting; the
current state is not tied to it, since BeginTransaction followed by SetModState(s) leaves
the snapshot InstallationPending recorded with the current state s, for each of the six
states s. -/
theorem C26_recorded_rollback_state (env : Env) (ProfileData : ModInfo)
    (CalculatedModPath : String) :
    (∀ (ops : List EntryOp) (R : ModState),
        (runOps env (ModCollectionEntry.create env ProfileData CalculatedModPath)
          ops).RollbackState = some R →
        R ≠ ModState.Downloading ∧ R ≠ ModState.Extracting) ∧
      (∀ s : ModState,
        (runOps env (ModCollectionEntry.create env ProfileData CalculatedModPath)
            [EntryOp.BeginTransaction, EntryOp.SetModState s]).RollbackState =
            some ModState.InstallationPending ∧
          (runOps env (ModCollectionEntry.create env ProfileData CalculatedModPath)
            [EntryOp.BeginTransaction, EntryOp.SetModState s]).CurrentState = s) := by
  constructor
  · intro ops R hR
    have h0 : RollbackNotTransitional
        (ModCollectionEntry.create env ProfileData CalculatedModPath) :=
      ⟨fun h => Option.noConfusion h, fun h => Option.noConfusion h⟩
    have h := runOps_keeps_invariant env ops _ h0
    unfold RollbackNotTransitional at h
    rw [hR] at h
    exact ⟨fun e => h.1 (by rw [e]), fun e => h.2 (by rw [e])⟩
  · intro s
    have hb : BeginTransactionImpl
        (ModCollectionEntry.create env ProfileData CalculatedModPath) =
        { ModCollectionEntry.create env ProfileData CalculatedModPath with
          RollbackState := some ModState.InstallationPending } :=
      BeginTransactionImpl_fresh _ rfl (fun h => ModState.noConfusion h)
        (fun h => ModState.noConfusion h)
    show ((BeginTransactionImpl
        (ModCollectionEntry.create env ProfileData CalculatedModPath)).SetModState env
          s).RollbackState = _ ∧ _
    rw [SetModState_rollback, hb]
    refine ⟨rfl, ?_⟩
    show (ModCollectionEntry.SetModState env _ s).CurrentState = s
    unfold ModCollectionEntry.SetModState
    simp only
    split <;> rfl

/-- Witness for C26 (amended): a transaction begun on an Installed entry leaves the snapshot
Installed recorded through a move to Downloading. -/
theorem C26_recorded_rollback_state_witness :
    (runOps demoEnv (ModCollectionEntry.create demoEnv ⟨7, none⟩ "mods/7")
        [EntryOp.SetModState ModState.Installed, EntryOp.BeginTransaction,
          EntryOp.SetModState ModState.Downloading]).RollbackState = some ModState.Installed ∧
      ModState.Installed ≠ ModState.Downloading ∧ ModState.Installed ≠ ModState.Extracting :=
  ⟨by decide,
    (C26_recorded_rollback_state demoEnv ⟨7, none⟩ "mods/7").1
      [EntryOp.SetModState ModState.Installed, EntryOp.BeginTransaction,
        EntryOp.SetModState ModState.Downloading]
      ModState.Installed (by decide)⟩

/-! ## Other install failures -/

/-- C27: on an entry that is not UninstallPending, SetLastError with a reason classified
neither ModInstallRetryableError nor ModInstallUnrecoverableError sets the sticky flag and
leaves the countdown and the terminal failure reason unchanged. -/
theorem C27_install_other_reason (env : Env) (e : ModCollectionEntry) (r : ErrorCode)
    (hstate : e.CurrentState ≠ ModState.UninstallPending)
    (hretry : env.ErrorCodeMatches r ErrorConditionTypes.ModInstallRetryableError = false)
    (hunrec : env.ErrorCodeMatches r ErrorConditionTypes.ModInstallUnrecoverableError = false) :
    (e.SetLastError env r).ShouldNotRetry = true ∧
      (e.SetLastError env r).RetriesRemainingThisSession = e.RetriesRemainingThisSession ∧
      (e.SetLastError env r).NeverRetryReason = e.NeverRetryReason := by
  have h : e.SetLastError env r = e.MarkModNoRetryThisSession := by
    simp [ModCollectionEntry.SetLastError, ModCollectionEntry.GetModState, hstate, hretry,
      hunrec]
  rw [h]
  exact ⟨rfl, rfl, rfl⟩

/-- Witness for C27: a Downloading entry and reason 9, which the sample classifier puts in
no class. -/
theorem C27_install_other_reason_witness :
    ((demoEntry ModState.Downloading 3).SetLastError demoEnv ⟨9, 0⟩).ShouldNotRetry = true ∧
      ((demoEntry ModState.Downloading 3).SetLastError demoEnv
        ⟨9, 0⟩).RetriesRemainingThisSession = 3 ∧
      ((demoEntry ModState.Downloading 3).SetLastError demoEnv ⟨9, 0⟩).NeverRetryReason =
        ⟨0, 0⟩ :=
  C27_install_other_reason demoEnv (demoEntry ModState.Downloading 3) ⟨9, 0⟩ (by decide)
    (by decide) (by decide)

/-! ## Fetching game info through the cache -/

/-- C28: when the cache returns a value v for the game id, the first call of GetGameInfoOp
completes with no error and value v; that completion is the only call it makes (no HTTP
request), the cache is as it was, and the coroutine is finished. -/
theorem C28_cache_hit {Cache GameInfo : Type} (oe : OpEnv)
    (svc : GameInfoServices Cache GameInfo) (cache : Cache) (op : GetGameInfoOp)
    (ec : ErrorCode) (v : GameInfo)
    (hstart : op.CoroutineState = CoroutineValue.initial)
    (hhit : svc.FetchGameInfoFromCache cache op.GameID = some v) :
    (GetGameInfoOp.invoke oe svc cache op ec).effects =
        [GetGameInfoEffect.complete { value := 0, category := 0 } (some v)] ∧
      ErrorCode.operatorBool { value := 0, category := 0 } = false ∧
      (GetGameInfoOp.invoke oe svc cache op ec).cache = cache ∧
      (GetGameInfoOp.invoke oe svc cache op ec).op.CoroutineState = CoroutineValue.complete := by
  have hres : GetGameInfoOp.invoke oe svc cache op ec =
      { op := { op with CoroutineState := CoroutineValue.complete }
        cache := cache
        effects := [GetGameInfoEffect.complete { value := 0, category := 0 } (some v)] } := by
    unfold GetGameInfoOp.invoke
    rw [hstart]
    simp only [hhit]
  rw [hres]
  exact ⟨rfl, rfl, rfl, rfl⟩

/-- Witness for C28: game 4 is in the sample cache. -/
theorem C28_cache_hit_witness :
    (GetGameInfoOp.invoke demoOpEnv demoServices [(4, "chess")]
        { ResponseBodyBuffer := [], GameID := 4, ApiKey := "key",
          CoroutineState := CoroutineValue.initial }
        { value := 0, category := 0 }).effects =
      [GetGameInfoEffect.complete { value := 0, category := 0 } (some (4, "chess"))] :=
  (C28_cache_hit demoOpEnv demoServices [(4, "chess")]
    { ResponseBodyBuffer := [], GameID := 4, ApiKey := "key",
      CoroutineState := CoroutineValue.initial }
    { value := 0, category := 0 } (4, "chess") rfl (by decide)).1

/-- C29: when the cache has no value for the game id, the first call of GetGameInfoOp issues
one HTTP request and nothing else and suspends. Resumed with the response body in its buffer
and the error code ec (whatever the cache holds by then), it issues no request; if ec is an
error it completes with ec and no value, the cache unchanged; if the body does not decode it
completes with HttpError::InvalidResponse and no value, the cache unchanged; if the body
decodes to g it adds g to the cache and then completes with ec, which is no error, and
value g. -/
theorem C29_cache_miss {Cache GameInfo : Type} (oe : OpEnv)
    (svc : GameInfoServices Cache GameInfo) (cache : Cache) (op : GetGameInfoOp)
    (ec : ErrorCode)
    (hstart : op.CoroutineState = CoroutineValue.initial)
    (hmiss : svc.FetchGameInfoFromCache cache op.GameID = none) :
    (GetGameInfoOp.invoke oe svc cache op ec).effects =
        [GetGameInfoEffect.PerformRequestAndGetResponseAsync op.GameID] ∧
      (GetGameInfoOp.invoke oe svc cache op ec).cache = cache ∧
      ∀ (body : List Nat) (cache2 : Cache) (ec2 : ErrorCode),
        (ec2.operatorBool = true →
          (GetGameInfoOp.invoke oe svc cache2
              { (GetGameInfoOp.invoke oe svc cache op ec).op with ResponseBodyBuffer := body }
              ec2).effects = [GetGameInfoEffect.complete ec2 none] ∧
            (GetGameInfoOp.invoke oe svc cache2
              { (GetGameInfoOp.invoke oe svc cache op ec).op with ResponseBodyBuffer := body }
              ec2).cache = cache2) ∧
        (ec2.operatorBool = false → svc.TryMarshalResponse body = none →
          (GetGameInfoOp.invoke oe svc cache2
              { (GetGameInfoOp.invoke oe svc cache op ec).op with ResponseBodyBuffer := body }
              ec2).effects =
              [GetGameInfoEffect.complete (oe.HttpErrorCode HttpError.InvalidResponse) none] ∧
            (GetGameInfoOp.invoke oe svc cache2
              { (GetGameInfoOp.invoke oe svc cache op ec).op with ResponseBodyBuffer := body }
              ec2).cache = cache2) ∧
        (∀ g, ec2.operatorBool = false → svc.TryMarshalResponse body = some g →
          (GetGameInfoOp.invoke oe svc cache2
              { (GetGameInfoOp.invoke oe svc cache op ec).op with ResponseBodyBuffer := body }
              ec2).effects =
              [GetGameInfoEffect.AddToCache g, GetGameInfoEffect.complete ec2 (some g)] ∧
            (GetGameInfoOp.invoke oe svc cache2
              { (GetGameInfoOp.invoke oe svc cache op ec).op with ResponseBodyBuffer := body }
              ec2).cache = svc.AddToCache cache2 g) := by
  have hfirst : GetGameInfoOp.invoke oe svc cache op ec =
      { op := { op with CoroutineState := CoroutineValue.suspended 1 }
        cache := cache
        effects := [GetGameInfoEffect.PerformRequestAndGetResponseAsync op.GameID] } := by
    unfold GetGameInfoOp.invoke
    rw [hstart]
    simp only [hmiss]
  rw [hfirst]
  refine ⟨rfl, rfl, fun body cache2 ec2 => ⟨fun herr => ?_, fun hok hnone => ?_,
    fun g hok hsome => ?_⟩⟩
  · simp [GetGameInfoOp.invoke, herr]
  · simp [GetGameInfoOp.invoke, hok, hnone]
  · simp [GetGameInfoOp.invoke, hok, hsome]

/-- Witness for C29: game 4 is not in the empty cache; the response body [4] decodes, and the
game is added to the cache before the completion. -/
theorem C29_cache_miss_witness :
    (GetGameInfoOp.invoke demoOpEnv demoServices []
        { (GetGameInfoOp.invoke demoOpEnv demoServices []
            { ResponseBodyBuffer := [], GameID := 4, ApiKey := "key",
              CoroutineState := CoroutineValue.initial }
            { value := 0, category := 0 }).op with ResponseBodyBuffer := [4] }
        { value := 0, category := 0 }).effects =
      [GetGameInfoEffect.AddToCache (4, "game"),
        GetGameInfoEffect.complete { value := 0, category := 0 } (some (4, "game"))] :=
  (((C29_cache_miss demoOpEnv demoServices []
    { ResponseBodyBuffer := [], GameID := 4, ApiKey := "key",
      CoroutineState := CoroutineValue.initial }
    { value := 0, category := 0 } rfl (by decide)).2.2 [4] []
    { value := 0, category := 0 }).2.2 (4, "game") (by decide) (by decide)).1

/-! ## Cancellation is checked first -/

/-- C30: a call of WriteSomeToFile while ShouldCancel answers true, and a call of
ReadHttpResponseHeadersOp while the shared state has expired or IsClosing answers true,
completes with GenericError::OperationCanceled; that completion is the only call made (no
platform I/O, no timer wait) and the operation is left as it was, whatever the file mode,
the buffer, the coroutine position, the other answers of the platform and the error code
passed in. -/
theorem C30_cancellation_first (oe : OpEnv) :
    (∀ (pf : WritePlatform) (op : WriteSomeToFile) (ec : ErrorCode), pf.ShouldCancel = true →
        (WriteSomeToFile.invoke oe pf op ec).effects =
            [WriteEffect.complete (oe.GenericErrorCode GenericError.OperationCanceled) none] ∧
          (WriteSomeToFile.invoke oe pf op ec).op = op) ∧
      (∀ (pf : HttpPlatform) (op : ReadHttpResponseHeadersOp) (ec : ErrorCode),
        pf.SharedStateExpired = true ∨ pf.IsClosing = true →
        (ReadHttpResponseHeadersOp.invoke oe pf op ec).effects =
            [HttpEffect.complete (oe.GenericErrorCode GenericError.OperationCanceled)] ∧
          (ReadHttpResponseHeadersOp.invoke oe pf op ec).op = op) := by
  constructor
  · intro pf op ec hc
    unfold WriteSomeToFile.invoke
    rw [if_pos hc]
    exact ⟨rfl, rfl⟩
  · intro pf op ec hc
    have hg : (pf.SharedStateExpired || pf.IsClosing) = true := by
      rcases hc with h | h <;> simp [h]
    unfold ReadHttpResponseHeadersOp.invoke
    rw [if_pos hg]
    exact ⟨rfl, rfl⟩

/-- Witness for C30: a read-only file with a pending write woken by the timer, and a header
read woken by the timer while the shared state is closing. -/
theorem C30_cancellation_first_witness :
    (WriteSomeToFile.invoke demoOpEnv
        { ShouldCancel := true, GetFileMode := FileMode.ReadOnly, CreateEvent := 5,
          WriteFile := true, GetLastError := 0, HasOverlappedIoCompleted := true }
        { Buffer := [1, 2, 3], FileOffset := 0, WriteOpParams := none,
          Coroutine := CoroutineValue.suspended 2 }
        { value := 9, category := 0 }).effects =
        [WriteEffect.complete { value := 20, category := 1 } none] ∧
      (ReadHttpResponseHeadersOp.invoke demoOpEnv
        { SharedStateExpired := false, IsClosing := true, WinHttpReceiveResponse := true,
          PeekHandleStatus := WinHTTPCallbackStatus.DataAvailable,
          FetchAndClearHandleStatus := WinHTTPCallbackStatus.DataAvailable,
          WinHttpQueryHeaders := true, StatusCode := 200 }
        { Request := { RequestHandle := 1, ResponseCode := 0 },
          CoroutineState := CoroutineValue.suspended 1 }
        { value := 0, category := 0 }).effects =
        [HttpEffect.complete { value := 20, category := 1 }] :=
  ⟨((C30_cancellation_first demoOpEnv).1 _ _ _ rfl).1,
    ((C30_cancellation_first demoOpEnv).2 _ _ _ (Or.inr rfl)).1⟩

/-! ## Writing an empty buffer -/

/-- C31, as stated, fails: for a read-only file the first call of a WriteSomeToFile
constructed with an empty buffer completes with FilesystemError::NoPermission, not with
success and an empty result. -/
theorem C31_counterexample :
    (WriteSomeToFile.invoke demoOpEnv
        { ShouldCancel := false, GetFileMode := FileMode.ReadOnly, CreateEvent := 5,
          WriteFile := true, GetLastError := 0, HasOverlappedIoCompleted := true }
        (WriteSomeToFile.create 0 []) { value := 0, category := 0 }).effects =
      [WriteEffect.complete { value := 24, category := 1 } none] := by
  decide

/-- C31, amended: the first call of a WriteSomeToFile constructed with an empty buffer, at
any offset, makes a single call, the completion: with no error and an empty result buffer
when the file is neither being cancelled nor read-only, with GenericError::OperationCanceled
when ShouldCancel answers true, and with FilesystemError::NoPermission when the file is
read-only and not being cancelled. In no case does it call the write primitive or
suspend. -/
theorem C31_empty_buffer (oe : OpEnv) (pf : WritePlatform) (Offset : Nat) (ec : ErrorCode) :
    (pf.ShouldCancel = false → pf.GetFileMode ≠ FileMode.ReadOnly →
        (WriteSomeToFile.invoke oe pf (WriteSomeToFile.create Offset []) ec).effects =
            [WriteEffect.complete { value := 0, category := 0 } (some [])] ∧
          (WriteSomeToFile.invoke oe pf (WriteSomeToFile.create Offset []) ec).op.Coroutine =
            CoroutineValue.complete) ∧
      (pf.ShouldCancel = true →
        (WriteSomeToFile.invoke oe pf (WriteSomeToFile.create Offset []) ec).effects =
          [WriteEffect.complete (oe.GenericErrorCode GenericError.OperationCanceled) none]) ∧
      (pf.ShouldCancel = false → pf.GetFileMode = FileMode.ReadOnly →
        (WriteSomeToFile.invoke oe pf (WriteSomeToFile.create Offset []) ec).effects =
          [WriteEffect.complete (oe.FilesystemErrorCode FilesystemError.NoPermission) none]) ∧
      (∀ x ∈ (WriteSomeToFile.invoke oe pf (WriteSomeToFile.create Offset []) ec).effects,
        x.isComplete = true) := by
  refine ⟨fun hc hm => ?_, fun hc => ?_, fun hc hm => ?_, ?_⟩
  · simp [WriteSomeToFile.invoke, WriteSomeToFile.create, hc, hm]
  · simp [WriteSomeToFile.invoke, hc]
  · simp [WriteSomeToFile.invoke, hc, hm]
  · intro x hx
    by_cases hc : pf.ShouldCancel = true
    · simp [WriteSomeToFile.invoke, hc] at hx
      rw [hx]; rfl
    · by_cases hm : pf.GetFileMode = FileMode.ReadOnly
      · simp [WriteSomeToFile.invoke, hc, hm] at hx
        rw [hx]; rfl
      · simp [WriteSomeToFile.invoke, WriteSomeToFile.create, hc, hm] at hx
        rw [hx]; rfl

/-- Witness for C31 (amended): an empty buffer for a writable file at offset 4096. -/
theorem C31_empty_buffer_witness :
    (WriteSomeToFile.invoke demoOpEnv
        { ShouldCancel := false, GetFileMode := FileMode.ReadWrite, CreateEvent := 5,
          WriteFile := true, GetLastError := 0, HasOverlappedIoCompleted := true }
        (WriteSomeToFile.create 4096 []) { value := 0, category := 0 }).effects =
      [WriteEffect.complete { value := 0, category := 0 } (some [])] :=
  ((C31_empty_buffer demoOpEnv
    { ShouldCancel := false, GetFileMode := FileMode.ReadWrite, CreateEvent := 5,
      WriteFile := true, GetLastError := 0, HasOverlappedIoCompleted := true }
    4096 { value := 0, category := 0 }).1 rfl (by decide)).1

/-! ## Outcomes of reading the response headers -/

theorem ReadHttp_poll_waiting (oe : OpEnv) (pf : HttpPlatform) (op : ReadHttpResponseHeadersOp)
    (pre : List HttpEffect) (hw : pf.PeekHandleStatus = WinHTTPCallbackStatus.Waiting) :
    ReadHttpResponseHeadersOp.poll oe pf op pre =
      { op := { op with CoroutineState := CoroutineValue.suspended 1 }
        effects := pre ++ [HttpEffect.PeekHandleStatus, HttpEffect.WaitAsync] } := by
  simp [ReadHttpResponseHeadersOp.poll, hw]

theorem ReadHttp_poll_success (oe : OpEnv) (pf : HttpPlatform) (op : ReadHttpResponseHeadersOp)
    (pre : List HttpEffect) (hw : pf.PeekHandleStatus ≠ WinHTTPCallbackStatus.Waiting)
    (hf : pf.FetchAndClearHandleStatus ≠ WinHTTPCallbackStatus.RequestError)
    (hq : pf.WinHttpQueryHeaders = true) :
    ReadHttpResponseHeadersOp.poll oe pf op pre =
      { op :=
          { op with
            Request := { op.Request with ResponseCode := pf.StatusCode }
            CoroutineState := CoroutineValue.complete }
        effects :=
          pre ++ [HttpEffect.PeekHandleStatus, HttpEffect.FetchAndClearHandleStatus,
            HttpEffect.WinHttpQueryHeaders, HttpEffect.complete { value := 0, category := 0 }] } := by
  unfold ReadHttpResponseHeadersOp.poll
  rw [if_neg hw]
  split
  · rename_i h
    exact absurd h hf
  · simp [hq]

theorem ReadHttp_poll_failure (oe : OpEnv) (pf : HttpPlatform) (op : ReadHttpResponseHeadersOp)
    (pre : List HttpEffect) (hw : pf.PeekHandleStatus ≠ WinHTTPCallbackStatus.Waiting)
    (hfail : ¬(pf.FetchAndClearHandleStatus ≠ WinHTTPCallbackStatus.RequestError ∧
      pf.WinHttpQueryHeaders = true)) :
    (ReadHttpResponseHeadersOp.poll oe pf op pre).op =
        { op with CoroutineState := CoroutineValue.complete } ∧
      (ReadHttpResponseHeadersOp.poll oe pf op pre).effects.filter HttpEffect.isComplete =
        pre.filter HttpEffect.isComplete ++
          [HttpEffect.complete (oe.HttpErrorCode HttpError.RequestError)] := by
  unfold ReadHttpResponseHeadersOp.poll
  rw [if_neg hw]
  split
  · simp [HttpEffect.isComplete, List.filter]
  · rename_i h
    have hq : pf.WinHttpQueryHeaders = false := by
      by_contra hne
      simp only [Bool.not_eq_false] at hne
      exact hfail ⟨h, hne⟩
    simp [hq, HttpEffect.isComplete, List.filter]

/-- C33: a call of ReadHttpResponseHeadersOp that is not cancelled, at the start or resumed in
the polling loop. While the handle status is Waiting (WinHttpReceiveResponse having
succeeded) it does not complete: it waits on the poll timer and leaves the response code as
it was. If WinHttpReceiveResponse succeeded, the status fetched after polling is not
RequestError and the status-code query succeeded, it completes once, with no error, and the
response code is the queried status code. In every other case it completes once, with
HttpError::RequestError, and the response code is unchanged. HttpError::RequestError being
an error, a completion carries no error if and only if those three conditions hold. -/
theorem C33_header_read_outcomes (oe : OpEnv) (pf : HttpPlatform)
    (op : ReadHttpResponseHeadersOp) (ec : ErrorCode)
    (hlive : pf.SharedStateExpired = false) (hopen : pf.IsClosing = false)
    (hpos : op.CoroutineState = CoroutineValue.initial ∨
      op.CoroutineState = CoroutineValue.suspended 1)
    (herr : (oe.HttpErrorCode HttpError.RequestError).operatorBool = true) :
    (ReadHttpResponseHeadersOp.received pf op = true →
        pf.PeekHandleStatus = WinHTTPCallbackStatus.Waiting →
        (ReadHttpResponseHeadersOp.invoke oe pf op ec).effects.filter HttpEffect.isComplete =
            [] ∧
          (ReadHttpResponseHeadersOp.invoke oe pf op ec).effects.getLast? =
            some HttpEffect.WaitAsync ∧
          (ReadHttpResponseHeadersOp.invoke oe pf op ec).op.Request = op.Request ∧
          (ReadHttpResponseHeadersOp.invoke oe pf op ec).op.CoroutineState =
            CoroutineValue.suspended 1) ∧
      (ReadHttpResponseHeadersOp.received pf op = true →
        pf.PeekHandleStatus ≠ WinHTTPCallbackStatus.Waiting →
        pf.FetchAndClearHandleStatus ≠ WinHTTPCallbackStatus.RequestError →
        pf.WinHttpQueryHeaders = true →
        (ReadHttpResponseHeadersOp.invoke oe pf op ec).effects.filter HttpEffect.isComplete =
            [HttpEffect.complete { value := 0, category := 0 }] ∧
          (ReadHttpResponseHeadersOp.invoke oe pf op ec).op.Request.ResponseCode =
            pf.StatusCode) ∧
      (¬(ReadHttpResponseHeadersOp.received pf op = true ∧
            pf.PeekHandleStatus = WinHTTPCallbackStatus.Waiting) →
        ¬(ReadHttpResponseHeadersOp.received pf op = true ∧
            pf.FetchAndClearHandleStatus ≠ WinHTTPCallbackStatus.RequestError ∧
            pf.WinHttpQueryHeaders = true) →
        (ReadHttpResponseHeadersOp.invoke oe pf op ec).effects.filter HttpEffect.isComplete =
            [HttpEffect.complete (oe.HttpErrorCode HttpError.RequestError)] ∧
          (ReadHttpResponseHeadersOp.invoke oe pf op ec).op.Request = op.Request) ∧
      (∀ c, HttpEffect.complete c ∈ (ReadHttpResponseHeadersOp.invoke oe pf op ec).effects →
        (c.operatorBool = false ↔
          ReadHttpResponseHeadersOp.received pf op = true ∧
            pf.FetchAndClearHandleStatus ≠ WinHTTPCallbackStatus.RequestError ∧
            pf.WinHttpQueryHeaders = true)) := by
  have hguard : (pf.SharedStateExpired || pf.IsClosing) = false := by simp [hlive, hopen]
  -- the call, by coroutine position
  have hinit : op.CoroutineState = CoroutineValue.initial →
      ReadHttpResponseHeadersOp.invoke oe pf op ec =
        if !pf.WinHttpReceiveResponse then
          { op := { op with CoroutineState := CoroutineValue.complete }
            effects :=
              [HttpEffect.WinHttpReceiveResponse,
                HttpEffect.complete (oe.HttpErrorCode HttpError.RequestError)] }
        else ReadHttpResponseHeadersOp.poll oe pf op [HttpEffect.WinHttpReceiveResponse] := by
    intro h
    unfold ReadHttpResponseHeadersOp.invoke
    rw [hguard, h]
    simp
  have hres : op.CoroutineState = CoroutineValue.suspended 1 →
      ReadHttpResponseHeadersOp.invoke oe pf op ec =
        ReadHttpResponseHeadersOp.poll oe pf op [] := by
    intro h
    unfold ReadHttpResponseHeadersOp.invoke
    rw [hguard, h]
    simp
  -- the call, by outcome
  have hwait : ReadHttpResponseHeadersOp.received pf op = true →
      pf.PeekHandleStatus = WinHTTPCallbackStatus.Waiting →
      ∃ pre, pre.filter HttpEffect.isComplete = [] ∧
        ReadHttpResponseHeadersOp.invoke oe pf op ec =
          { op := { op with CoroutineState := CoroutineValue.suspended 1 }
            effects := pre ++ [HttpEffect.PeekHandleStatus, HttpEffect.WaitAsync] } := by
    intro hr hw
    rcases hpos with h | h
    · have hrecv : pf.WinHttpReceiveResponse = true := by
        simpa [ReadHttpResponseHeadersOp.received, h] using hr
      refine ⟨[HttpEffect.WinHttpReceiveResponse], rfl, ?_⟩
      rw [hinit h]
      simp [hrecv, ReadHttp_poll_waiting oe pf op _ hw]
    · refine ⟨[], rfl, ?_⟩
      rw [hres h, ReadHttp_poll_waiting oe pf op _ hw]
  have hsucc : ReadHttpResponseHeadersOp.received pf op = true →
      pf.PeekHandleStatus ≠ WinHTTPCallbackStatus.Waiting →
      pf.FetchAndClearHandleStatus ≠ WinHTTPCallbackStatus.RequestError →
      pf.WinHttpQueryHeaders = true →
      (ReadHttpResponseHeadersOp.invoke oe pf op ec).effects.filter HttpEffect.isComplete =
          [HttpEffect.complete { value := 0, category := 0 }] ∧
        (ReadHttpResponseHeadersOp.invoke oe pf op ec).op.Request.ResponseCode =
          pf.StatusCode := by
    intro hr hw hf hq
    rcases hpos with h | h
    · have hrecv : pf.WinHttpReceiveResponse = true := by
        simpa [ReadHttpResponseHeadersOp.received, h] using hr
      rw [hinit h]
      simp [hrecv, ReadHttp_poll_success oe pf op _ hw hf hq, HttpEffect.isComplete,
        List.filter]
    · rw [hres h, ReadHttp_poll_success oe pf op _ hw hf hq]
      simp [HttpEffect.isComplete, List.filter]
  have hfail : ¬(ReadHttpResponseHeadersOp.received pf op = true ∧
        pf.PeekHandleStatus = WinHTTPCallbackStatus.Waiting) →
      ¬(ReadHttpResponseHeadersOp.received pf op = true ∧
        pf.FetchAndClearHandleStatus ≠ WinHTTPCallbackStatus.RequestError ∧
        pf.WinHttpQueryHeaders = true) →
      (ReadHttpResponseHeadersOp.invoke oe pf op ec).effects.filter HttpEffect.isComplete =
          [HttpEffect.complete (oe.HttpErrorCode HttpError.RequestError)] ∧
        (ReadHttpResponseHeadersOp.invoke oe pf op ec).op.Request = op.Request := by
    intro hnw hns
    rcases hpos with h | h
    · rw [hinit h]
      by_cases hrecv : pf.WinHttpReceiveResponse = true
      · have hr : ReadHttpResponseHeadersOp.received pf op = true := by
          simp [ReadHttpResponseHeadersOp.received, hrecv]
        have hw : pf.PeekHandleStatus ≠ WinHTTPCallbackStatus.Waiting :=
          fun hw => hnw ⟨hr, hw⟩
        have hf := ReadHttp_poll_failure oe pf op [HttpEffect.WinHttpReceiveResponse] hw
          (fun hc => hns ⟨hr, hc⟩)
        simp only [hrecv, Bool.not_true, Bool.false_eq_true, if_false]
        refine ⟨?_, ?_⟩
        · rw [hf.2]
          simp [HttpEffect.isComplete, List.filter]
        · rw [hf.1]
      · simp only [Bool.not_eq_true] at hrecv
        simp [hrecv, HttpEffect.isComplete, List.filter]
    · have hr : ReadHttpResponseHeadersOp.received pf op = true := by
        simp [ReadHttpResponseHeadersOp.received, h]
      have hw : pf.PeekHandleStatus ≠ WinHTTPCallbackStatus.Waiting :=
        fun hw => hnw ⟨hr, hw⟩
      have hf := ReadHttp_poll_failure oe pf op [] hw (fun hc => hns ⟨hr, hc⟩)
      rw [hres h]
      refine ⟨?_, ?_⟩
      · rw [hf.2]
        simp
      · rw [hf.1]
  refine ⟨fun hr hw => ?_, hsucc, hfail, fun c hc => ?_⟩
  · obtain ⟨pre, hpre, hcall⟩ := hwait hr hw
    rw [hcall]
    refine ⟨?_, ?_, rfl, rfl⟩
    · simp [List.filter_append, hpre, HttpEffect.isComplete, List.filter]
    · simp [List.getLast?_append]
  · have hcf : HttpEffect.complete c ∈
        (ReadHttpResponseHeadersOp.invoke oe pf op ec).effects.filter HttpEffect.isComplete :=
      List.mem_filter.mpr ⟨hc, rfl⟩
    by_cases hs : ReadHttpResponseHeadersOp.received pf op = true ∧
        pf.FetchAndClearHandleStatus ≠ WinHTTPCallbackStatus.RequestError ∧
        pf.WinHttpQueryHeaders = true
    · by_cases hw : pf.PeekHandleStatus = WinHTTPCallbackStatus.Waiting
      · obtain ⟨pre, hpre, hcall⟩ := hwait hs.1 hw
        rw [hcall] at hcf
        simp [List.filter_append, hpre, HttpEffect.isComplete, List.filter] at hcf
      · rw [(hsucc hs.1 hw hs.2.1 hs.2.2).1] at hcf
        have hceq : c = { value := 0, category := 0 } := by simpa using hcf
        rw [hceq]
        exact ⟨fun _ => hs, fun _ => rfl⟩
    · by_cases hw : ReadHttpResponseHeadersOp.received pf op = true ∧
          pf.PeekHandleStatus = WinHTTPCallbackStatus.Waiting
      · obtain ⟨pre, hpre, hcall⟩ := hwait hw.1 hw.2
        rw [hcall] at hcf
        simp [List.filter_append, hpre, HttpEffect.isComplete, List.filter] at hcf
      · rw [(hfail hw hs).1] at hcf
        have hceq : c = oe.HttpErrorCode HttpError.RequestError := by simpa using hcf
        rw [hceq]
        constructor
        · intro h0
          rw [herr] at h0
          exact Bool.noConfusion h0
        · intro h1
          exact absurd h1 hs

/-- Witness for C33: resumed by the timer with headers available and status code 404. -/
theorem C33_header_read_outcomes_witness :
    (ReadHttpResponseHeadersOp.invoke demoOpEnv
        { SharedStateExpired := false, IsClosing := false, WinHttpReceiveResponse := true,
          PeekHandleStatus := WinHTTPCallbackStatus.Other 2,
          FetchAndClearHandleStatus := WinHTTPCallbackStatus.Other 2,
          WinHttpQueryHeaders := true, StatusCode := 404 }
        { Request := { RequestHandle := 1, ResponseCode := 0 },
          CoroutineState := CoroutineValue.suspended 1 }
        { value := 0, category := 0 }).op.Request.ResponseCode = 404 :=
  ((C33_header_read_outcomes demoOpEnv
    { SharedStateExpired := false, IsClosing := false, WinHttpReceiveResponse := true,
      PeekHandleStatus := WinHTTPCallbackStatus.Other 2,
      FetchAndClearHandleStatus := WinHTTPCallbackStatus.Other 2,
      WinHttpQueryHeaders := true, StatusCode := 404 }
    { Request := { RequestHandle := 1, ResponseCode := 0 },
      CoroutineState := CoroutineValue.suspended 1 }
    { value := 0, category := 0 } rfl rfl (Or.inr rfl) (by decide)).2.1 (by decide) (by decide)
    (by decide) rfl).2

/-! ## The state setter and the retry disposition -/

theorem SetModState_flag (env : Env) (e : ModCollectionEntry) (s : ModState) :
    (e.SetModState env s).ShouldNotRetry = e.ShouldNotRetry := by
  unfold ModCollectionEntry.SetModState
  simp only
  split <;> rfl

theorem SetLastError_flag_stays (env : Env) (e : ModCollectionEntry) (r : ErrorCode)
    (hflag : e.ShouldNotRetry = true) : (e.SetLastError env r).ShouldNotRetry = true := by
  have hc : e.consumeRetry.ShouldNotRetry = true := by
    rw [consumeRetry_flag, hflag]
    rfl
  unfold ModCollectionEntry.SetLastError ModCollectionEntry.MarkModNoRetryThisSession
  repeat (first | split | rfl | exact hc | exact hflag)

theorem SetLastErrorAll_reason_retryable (env : Env) (rs : List ErrorCode)
    (e : ModCollectionEntry) (hstate : e.CurrentState ≠ ModState.UninstallPending)
    (hrs : ∀ x ∈ rs, env.ErrorCodeMatches x ErrorConditionTypes.ModInstallRetryableError = true) :
    (SetLastErrorAll env e rs).NeverRetryReason = e.NeverRetryReason := by
  induction rs generalizing e with
  | nil => rfl
  | cons r rs ih =>
    have hstep := SetLastError_retryable env e r hstate (hrs r (List.mem_cons_self r rs))
    have hst : (e.SetLastError env r).CurrentState ≠ ModState.UninstallPending := by
      rw [SetLastError_state]; exact hstate
    show (SetLastErrorAll env (e.SetLastError env r) rs).NeverRetryReason = e.NeverRetryReason
    rw [ih (e.SetLastError env r) hst (fun x hx => hrs x (List.mem_cons_of_mem r hx)), hstep,
      consumeRetry_reason]

theorem SetLastErrorAll_exhausted (env : Env) (rs : List ErrorCode) (e : ModCollectionEntry)
    (hstate : e.CurrentState ≠ ModState.UninstallPending)
    (hu8 : e.RetriesRemainingThisSession < 256)
    (hrs : ∀ x ∈ rs, env.ErrorCodeMatches x ErrorConditionTypes.ModInstallRetryableError = true)
    (hne : rs ≠ []) (hlen : e.RetriesRemainingThisSession ≤ rs.length) :
    (SetLastErrorAll env e rs).ShouldNotRetry = true := by
  rcases List.eq_nil_or_concat rs with h | ⟨L, b, h⟩
  · exact absurd h hne
  · rw [List.concat_eq_append] at h
    subst h
    have hL : ∀ x ∈ L, env.ErrorCodeMatches x ErrorConditionTypes.ModInstallRetryableError =
        true := fun x hx => hrs x (List.mem_append_left _ hx)
    have hb : env.ErrorCodeMatches b ErrorConditionTypes.ModInstallRetryableError = true :=
      hrs b (List.mem_append_right _ (List.mem_singleton_self b))
    have hpre := SetLastErrorAll_retryable env L e hstate hu8 hL
    have hst : (SetLastErrorAll env e L).CurrentState ≠ ModState.UninstallPending := by
      rw [SetLastErrorAll_state]; exact hstate
    have hlt : (SetLastErrorAll env e L).RetriesRemainingThisSession < 256 := by
      rw [hpre.1]; omega
    have hstep := SetLastError_retryable env (SetLastErrorAll env e L) b hst hb
    have hret := consumeRetry_retries (SetLastErrorAll env e L) hlt
    have hzero : (SetLastErrorAll env e L).consumeRetry.RetriesRemainingThisSession = 0 := by
      rw [hret, hpre.1]
      simp only [List.length_append, List.length_singleton] at hlen
      omega
    rw [SetLastErrorAll_snoc, hstep, consumeRetry_flag, hzero]
    simp

theorem UpdateModProfile_flag (env : Env) (e : ModCollectionEntry) (p : ModInfo) :
    (e.UpdateModProfile env p).ShouldNotRetry = e.ShouldNotRetry := by
  unfold ModCollectionEntry.UpdateModProfile ModCollectionEntry.SetModState
  simp only
  split
  · split <;> rfl
  · rfl

theorem applyOp_flag_stays (env : Env) (e : ModCollectionEntry) (op : EntryOp)
    (hop : op ≠ EntryOp.ClearModNoRetry) (hflag : e.ShouldNotRetry = true) :
    (applyOp env e op).ShouldNotRetry = true := by
  cases op with
  | SetModState s =>
    show (e.SetModState env s).ShouldNotRetry = true
    rw [SetModState_flag]; exact hflag
  | SetLastError r => exact SetLastError_flag_stays env e r hflag
  | MarkModNoRetryThisSession => rfl
  | ClearModNoRetry => exact absurd rfl hop
  | AddLocalUserSubscription u =>
    show (e.AddLocalUserSubscription u).1.ShouldNotRetry = true
    unfold ModCollectionEntry.AddLocalUserSubscription
    cases u <;> exact hflag
  | RemoveLocalUserSubscription u =>
    show (e.RemoveLocalUserSubscription u).1.ShouldNotRetry = true
    unfold ModCollectionEntry.RemoveLocalUserSubscription
    cases u with
    | none => exact hflag
    | some u =>
      simp only
      split <;> exact hflag
  | UpdateModProfile p =>
    show (e.UpdateModProfile env p).ShouldNotRetry = true
    rw [UpdateModProfile_flag env e p]
    exact hflag
  | UpdateSizeOnDisk n => exact hflag
  | BeginTransaction =>
    show (BeginTransactionImpl e).ShouldNotRetry = true
    unfold BeginTransactionImpl
    split <;> exact hflag
  | RollbackTransaction =>
    show (RollbackTransactionImpl e).ShouldNotRetry = true
    unfold RollbackTransactionImpl
    split <;> exact hflag

/-- C34: SetModState leaves the sticky flag and the terminal failure reason, hence
ShouldRetry, as they were. After retryable failures have used up the countdown the sticky flag
is set; SetModState(Installed) then puts the countdown back to DefaultNumberOfRetries (as
stored in 8 bits) while ShouldRetry is still false, and after ClearModNoRetry it is true
exactly when no terminal failure reason is set. No operation other than ClearModNoRetry
clears a set sticky flag, so ShouldRetry stays false through all of them. -/
theorem C34_SetModState_keeps_disposition (env : Env) (e : ModCollectionEntry) :
    (∀ s, (e.SetModState env s).ShouldNotRetry = e.ShouldNotRetry ∧
        (e.SetModState env s).NeverRetryReason = e.NeverRetryReason ∧
        (e.SetModState env s).ShouldRetry = e.ShouldRetry) ∧
      (∀ rs : List ErrorCode, e.CurrentState ≠ ModState.UninstallPending →
        e.RetriesRemainingThisSession < 256 →
        (∀ x ∈ rs, env.ErrorCodeMatches x ErrorConditionTypes.ModInstallRetryableError = true) →
        rs ≠ [] → e.RetriesRemainingThisSession ≤ rs.length →
        (SetLastErrorAll env e rs).ShouldNotRetry = true ∧
          ((SetLastErrorAll env e rs).SetModState env
            ModState.Installed).RetriesRemainingThisSession = env.DefaultNumberOfRetries % 256 ∧
          ((SetLastErrorAll env e rs).SetModState env ModState.Installed).ShouldRetry = false ∧
          ((((SetLastErrorAll env e rs).SetModState env
              ModState.Installed).ClearModNoRetry).ShouldRetry = true ↔
            e.NeverRetryReason.value = 0)) ∧
      (∀ op, op ≠ EntryOp.ClearModNoRetry → e.ShouldNotRetry = true →
        (applyOp env e op).ShouldNotRetry = true ∧ (applyOp env e op).ShouldRetry = false) := by
  have hframe : ∀ (x : ModCollectionEntry) (s : ModState),
      (x.SetModState env s).ShouldNotRetry = x.ShouldNotRetry ∧
        (x.SetModState env s).NeverRetryReason = x.NeverRetryReason ∧
        (x.SetModState env s).ShouldRetry = x.ShouldRetry := by
    intro x s
    have h1 := SetModState_flag env x s
    have h2 := SetModState_reason env x s
    refine ⟨h1, h2, ?_⟩
    unfold ModCollectionEntry.ShouldRetry
    rw [h1, h2]
  refine ⟨hframe e, fun rs hstate hu8 hrs hne hlen => ?_, fun op hop hflag => ?_⟩
  · have hflag := SetLastErrorAll_exhausted env rs e hstate hu8 hrs hne hlen
    have hreason := SetLastErrorAll_reason_retryable env rs e hstate hrs
    obtain ⟨f1, f2, f3⟩ := hframe (SetLastErrorAll env e rs) ModState.Installed
    refine ⟨hflag, rfl, ?_, ?_⟩
    · rw [f3]
      simp [ModCollectionEntry.ShouldRetry, hflag]
    · have hr : (((SetLastErrorAll env e rs).SetModState env
          ModState.Installed).ClearModNoRetry).NeverRetryReason = e.NeverRetryReason := by
        show ((SetLastErrorAll env e rs).SetModState env ModState.Installed).NeverRetryReason =
          e.NeverRetryReason
        rw [f2, hreason]
      have hf : (((SetLastErrorAll env e rs).SetModState env
          ModState.Installed).ClearModNoRetry).ShouldNotRetry = false := rfl
      unfold ModCollectionEntry.ShouldRetry
      rw [hr, hf]
      simp [ErrorCode.operatorBool]
  · have h := applyOp_flag_stays env e op hop hflag
    exact ⟨h, by simp [ModCollectionEntry.ShouldRetry, h]⟩

/-- Witness for C34: three retryable failures use up three retries while Downloading; the
entry is then set to Installed and the flag cleared. -/
theorem C34_SetModState_keeps_disposition_witness :
    ((SetLastErrorAll demoEnv (demoEntry ModState.Downloading 3)
        [⟨1, 0⟩, ⟨1, 0⟩, ⟨1, 0⟩]).SetModState demoEnv ModState.Installed).ShouldRetry = false ∧
      ((SetLastErrorAll demoEnv (demoEntry ModState.Downloading 3)
        [⟨1, 0⟩, ⟨1, 0⟩, ⟨1, 0⟩]).SetModState demoEnv
          ModState.Installed).RetriesRemainingThisSession = 3 ∧
      (((SetLastErrorAll demoEnv (demoEntry ModState.Downloading 3)
        [⟨1, 0⟩, ⟨1, 0⟩, ⟨1, 0⟩]).SetModState demoEnv
          ModState.Installed).ClearModNoRetry).ShouldRetry = true := by
  have h := (C34_SetModState_keeps_disposition demoEnv (demoEntry ModState.Downloading 3)).2.1
    [⟨1, 0⟩, ⟨1, 0⟩, ⟨1, 0⟩] (by decide) (by decide) (by decide) (by decide) (by decide)
  exact ⟨h.2.2.1, h.2.1, h.2.2.2.mpr rfl⟩

/-! ## Copies of an entry -/

theorem mem_mapEmplace {β : Type} (k : Int) (v : β) (m : List (Int × β)) (a : Int × β)
    (ha : a ∈ mapEmplace k v m) : a = (k, v) ∨ a ∈ m := by
  induction m with
  | nil =>
    simp only [mapEmplace, List.mem_singleton] at ha
    exact Or.inl ha
  | cons kv rest ih =>
    obtain ⟨k1, v1⟩ := kv
    unfold mapEmplace at ha
    by_cases h1 : k < k1
    · simp only [h1, if_true, List.mem_cons] at ha
      rcases ha with h | h | h
      · exact Or.inl h
      · exact Or.inr (List.mem_cons.mpr (Or.inl h))
      · exact Or.inr (List.mem_cons.mpr (Or.inr h))
    · by_cases h2 : k = k1
      · rw [if_neg h1, if_pos h2] at ha
        exact Or.inr ha
      · simp only [h1, h2, if_false, List.mem_cons] at ha
        rcases ha with h | h
        · exact Or.inr (List.mem_cons.mpr (Or.inl h))
        · rcases ih h with h3 | h3
          · exact Or.inl h3
          · exact Or.inr (List.mem_cons.mpr (Or.inr h3))

theorem mapEmplace_sorted {β : Type} (k : Int) (v : β) (m : List (Int × β))
    (hm : m.Pairwise (fun a b => a.1 < b.1)) :
    (mapEmplace k v m).Pairwise (fun a b => a.1 < b.1) := by
  induction m with
  | nil => simp [mapEmplace]
  | cons kv rest ih =>
    obtain ⟨k1, v1⟩ := kv
    have hhead := (List.pairwise_cons.mp hm).1
    have hrest := (List.pairwise_cons.mp hm).2
    unfold mapEmplace
    by_cases h1 : k < k1
    · simp only [h1, if_true]
      refine List.pairwise_cons.mpr ⟨fun a ha => ?_, hm⟩
      rcases List.mem_cons.mp ha with h | h
      · rw [h]; exact h1
      · have := hhead a h
        show k < a.1
        simp only at this
        omega
    · by_cases h2 : k = k1
      · rw [if_neg h1, if_pos h2]
        exact hm
      · simp only [h1, h2, if_false]
        refine List.pairwise_cons.mpr ⟨fun a ha => ?_, ih hrest⟩
        rcases mem_mapEmplace k v rest a ha with h | h
        · rw [h]
          show k1 < k
          omega
        · exact hhead a h

theorem mapFind_none_of_lt {β : Type} (k : Int) (m : List (Int × β))
    (hlt : ∀ a ∈ m, k < a.1) : mapFind k m = none := by
  induction m with
  | nil => rfl
  | cons kv rest ih =>
    obtain ⟨k1, v1⟩ := kv
    have h1 : k < k1 := hlt (k1, v1) (List.mem_cons_self _ _)
    have h2 : k ≠ k1 := by omega
    simp only [mapFind, h2, if_false]
    exact ih (fun a ha => hlt a (List.mem_cons_of_mem _ ha))

theorem mapFind_mapEmplace_self {β : Type} (k : Int) (v : β) (m : List (Int × β))
    (hm : m.Pairwise (fun a b => a.1 < b.1)) :
    mapFind k (mapEmplace k v m) = some ((mapFind k m).getD v) := by
  induction m with
  | nil => simp [mapEmplace, mapFind]
  | cons kv rest ih =>
    obtain ⟨k1, v1⟩ := kv
    have hhead := (List.pairwise_cons.mp hm).1
    have hrest := (List.pairwise_cons.mp hm).2
    unfold mapEmplace
    by_cases h1 : k < k1
    · have hnone : mapFind k ((k1, v1) :: rest) = none := by
        apply mapFind_none_of_lt
        intro a ha
        rcases List.mem_cons.mp ha with h | h
        · rw [h]; exact h1
        · have := hhead a h
          show k < a.1
          simp only at this
          omega
      rw [hnone]
      simp [h1, mapFind]
    · by_cases h2 : k = k1
      · simp [h2, mapFind]
      · simp [h1, h2, mapFind, ih hrest]

theorem mapFind_mapEmplace_ne {β : Type} (j k : Int) (v : β) (m : List (Int × β))
    (hjk : j ≠ k) : mapFind j (mapEmplace k v m) = mapFind j m := by
  induction m with
  | nil => simp [mapEmplace, mapFind, hjk]
  | cons kv rest ih =>
    obtain ⟨k1, v1⟩ := kv
    unfold mapEmplace
    by_cases h1 : k < k1
    · simp [h1, mapFind, hjk]
    · by_cases h2 : k = k1
      · simp [h1, h2]
      · simp [h1, h2, mapFind, ih]

theorem ofMap_fold (env : Env) (Entries : List (Int × ModCollectionEntry))
    (acc : ModCollection) (hacc : acc.ModEntries.Pairwise (fun a b => a.1 < b.1)) (k : Int) :
    mapFind k (Entries.foldl
        (fun (c : ModCollection) ModEntry =>
          ({ ModEntries :=
              mapEmplace ModEntry.1 (ModCollectionEntry.copy env ModEntry.2) c.ModEntries } :
            ModCollection))
        acc).ModEntries =
      match mapFind k acc.ModEntries with
      | some v => some v
      | none => (mapFind k Entries).map (ModCollectionEntry.copy env) := by
  induction Entries generalizing acc with
  | nil => cases h : mapFind k acc.ModEntries <;> simp [mapFind, h]
  | cons kv rest ih =>
    obtain ⟨k1, v1⟩ := kv
    rw [List.foldl_cons, ih _ (mapEmplace_sorted _ _ _ hacc)]
    by_cases hk : k = k1
    · subst hk
      simp only [mapFind_mapEmplace_self _ _ _ hacc, mapFind, if_true]
      cases h : mapFind k acc.ModEntries <;> simp
    · simp only [mapFind_mapEmplace_ne k k1 _ _ hk, mapFind, hk, if_false]

/-- C35: the copy of an entry has the ID, current state, profile, subscriber set, path on
disk and size on disk of the source; its countdown is DefaultNumberOfRetries (as stored in 8
bits; the constant itself when it fits); its sticky flag, terminal failure reason and
rollback state are the defaults of a fresh entry whatever the source holds, so it has no
open transaction and its ShouldRetry is true for every source. The collection constructor
from a map stores under each key the copy of the entry given for it. -/
theorem C35_copy_constructor (env : Env) (e : ModCollectionEntry) :
    (ModCollectionEntry.copy env e).ID = e.ID ∧
      (ModCollectionEntry.copy env e).CurrentState = e.CurrentState ∧
      (ModCollectionEntry.copy env e).ModProfile = e.ModProfile ∧
      (ModCollectionEntry.copy env e).LocalUserSubscriptions = e.LocalUserSubscriptions ∧
      (ModCollectionEntry.copy env e).PathOnDisk = e.PathOnDisk ∧
      (ModCollectionEntry.copy env e).SizeOnDisk = e.SizeOnDisk ∧
      (ModCollectionEntry.copy env e).RetriesRemainingThisSession =
        env.DefaultNumberOfRetries % 256 ∧
      (env.DefaultNumberOfRetries < 256 →
        (ModCollectionEntry.copy env e).GetRetriesRemaining = env.DefaultNumberOfRetries) ∧
      (ModCollectionEntry.copy env e).ShouldNotRetry = (memberDefaults env).ShouldNotRetry ∧
      (ModCollectionEntry.copy env e).NeverRetryReason = (memberDefaults env).NeverRetryReason ∧
      (ModCollectionEntry.copy env e).RollbackState = none ∧
      (ModCollectionEntry.copy env e).ShouldRetry = true ∧
      (∀ e2 : ModCollectionEntry,
        (ModCollectionEntry.copy env e2).ShouldRetry = (ModCollectionEntry.copy env e).ShouldRetry) ∧
      (∀ (Entries : List (Int × ModCollectionEntry)) (k : Int),
        mapFind k (ModCollection.ofMap env Entries).ModEntries =
          (mapFind k Entries).map (ModCollectionEntry.copy env)) := by
  refine ⟨rfl, rfl, rfl, rfl, rfl, rfl, rfl, fun h => ?_, rfl, rfl, rfl, rfl, fun _ => rfl,
    fun Entries k => ?_⟩
  · show env.DefaultNumberOfRetries % 256 = env.DefaultNumberOfRetries
    exact Nat.mod_eq_of_lt h
  · unfold ModCollection.ofMap
    rw [ofMap_fold env Entries _ List.Pairwise.nil]
    rfl

/-- Witness for C35: the copy of an entry with one retry left, the sticky flag set, a
terminal failure reason and an open transaction. -/
theorem C35_copy_constructor_witness :
    (ModCollectionEntry.copy demoEnv
        { demoEntry ModState.Downloading 1 with
          ShouldNotRetry := true, NeverRetryReason := ⟨2, 5⟩,
          RollbackState := some ModState.Installed }).GetRetriesRemaining = 3 ∧
      (ModCollectionEntry.copy demoEnv
        { demoEntry ModState.Downloading 1 with
          ShouldNotRetry := true, NeverRetryReason := ⟨2, 5⟩,
          RollbackState := some ModState.Installed }).ShouldRetry = true :=
  ⟨(C35_copy_constructor demoEnv
      { demoEntry ModState.Downloading 1 with
        ShouldNotRetry := true, NeverRetryReason := ⟨2, 5⟩,
        RollbackState := some ModState.Installed }).2.2.2.2.2.2.2.1 (by decide),
    by decide⟩

/-! ## Each operation completes once -/

theorem GetGameInfo_call_once {Cache GameInfo : Type} (oe : OpEnv)
    (svc : GameInfoServices Cache GameInfo) (cache : Cache) (op : GetGameInfoOp)
    (ec : ErrorCode)
    (hpos : op.CoroutineState = CoroutineValue.initial ∨
      op.CoroutineState = CoroutineValue.suspended 1) :
    CompletesOrSuspendsOnce GetGameInfoEffect.isComplete GetGameInfoEffect.isSuspend
        (GetGameInfoOp.invoke oe svc cache op ec).effects ∧
      ((GetGameInfoOp.invoke oe svc cache op ec).effects.countP GetGameInfoEffect.isComplete =
          0 →
        (GetGameInfoOp.invoke oe svc cache op ec).op.CoroutineState =
          CoroutineValue.suspended 1) := by
  unfold CompletesOrSuspendsOnce GetGameInfoOp.invoke
  rcases hpos with h | h
  · rw [h]
    cases svc.FetchGameInfoFromCache cache op.GameID <;>
      simp [List.countP_cons, GetGameInfoEffect.isComplete, GetGameInfoEffect.isSuspend]
  · rw [h]
    by_cases hec : ec.operatorBool = true
    · simp [hec, List.countP_cons, GetGameInfoEffect.isComplete, GetGameInfoEffect.isSuspend]
    · cases svc.TryMarshalResponse op.ResponseBodyBuffer <;>
        simp [hec, List.countP_cons, GetGameInfoEffect.isComplete,
          GetGameInfoEffect.isSuspend]

theorem Write_poll_once (pf : WritePlatform) (op : WriteSomeToFile) (pre : List WriteEffect)
    (hpre : pre.countP WriteEffect.isComplete = 0 ∧ pre.countP WriteEffect.isSuspend = 0) :
    CompletesOrSuspendsOnce WriteEffect.isComplete WriteEffect.isSuspend
        (WriteSomeToFile.poll pf op pre).effects ∧
      ((WriteSomeToFile.poll pf op pre).effects.countP WriteEffect.isComplete = 0 →
        (WriteSomeToFile.poll pf op pre).op.Coroutine = CoroutineValue.suspended 2) := by
  unfold CompletesOrSuspendsOnce WriteSomeToFile.poll
  cases pf.HasOverlappedIoCompleted <;>
    simp [List.countP_cons, List.countP_append, hpre.1, hpre.2, WriteEffect.isComplete,
      WriteEffect.isSuspend]

theorem Write_call_once (oe : OpEnv) (pf : WritePlatform) (op : WriteSomeToFile)
    (ec : ErrorCode)
    (hpos : op.Coroutine = CoroutineValue.initial ∨
      op.Coroutine = CoroutineValue.suspended 1 ∨ op.Coroutine = CoroutineValue.suspended 2) :
    CompletesOrSuspendsOnce WriteEffect.isComplete WriteEffect.isSuspend
        (WriteSomeToFile.invoke oe pf op ec).effects ∧
      ((WriteSomeToFile.invoke oe pf op ec).effects.countP WriteEffect.isComplete = 0 →
        (WriteSomeToFile.invoke oe pf op ec).op.Coroutine = CoroutineValue.suspended 1 ∨
          (WriteSomeToFile.invoke oe pf op ec).op.Coroutine = CoroutineValue.suspended 2) := by
  by_cases hc : pf.ShouldCancel = true
  · simp [CompletesOrSuspendsOnce, WriteSomeToFile.invoke, hc, List.countP_cons,
      WriteEffect.isComplete, WriteEffect.isSuspend]
  by_cases hm : pf.GetFileMode = FileMode.ReadOnly
  · simp [CompletesOrSuspendsOnce, WriteSomeToFile.invoke, hc, hm, List.countP_cons,
      WriteEffect.isComplete, WriteEffect.isSuspend]
  rcases hpos with h | h | h
  · by_cases hb : op.Buffer.length = 0
    · simp [CompletesOrSuspendsOnce, WriteSomeToFile.invoke, hc, hm, h, hb, List.countP_cons,
        WriteEffect.isComplete, WriteEffect.isSuspend]
    · simp [CompletesOrSuspendsOnce, WriteSomeToFile.invoke, hc, hm, h, hb, List.countP_cons,
        WriteEffect.isComplete, WriteEffect.isSuspend]
  · by_cases he : pf.CreateEvent = 0
    · simp [CompletesOrSuspendsOnce, WriteSomeToFile.invoke, hc, hm, h, he, List.countP_cons,
        WriteEffect.isComplete, WriteEffect.isSuspend]
    · by_cases hw : pf.WriteFile = true
      · simp [CompletesOrSuspendsOnce, WriteSomeToFile.invoke, hc, hm, h, he, hw,
          List.countP_cons, WriteEffect.isComplete, WriteEffect.isSuspend]
      · by_cases hl : pf.GetLastError = ERROR_IO_PENDING
        · have hp := Write_poll_once pf
            { op with
              WriteOpParams :=
                some
                  { hEvent := pf.CreateEvent
                    Offset := op.FileOffset % 2 ^ 32
                    OffsetHigh := op.FileOffset / 2 ^ 32 % 2 ^ 32 } }
            [WriteEffect.CreateEvent,
              WriteEffect.WriteFile (op.FileOffset % 2 ^ 32) (op.FileOffset / 2 ^ 32 % 2 ^ 32)
                op.Buffer.length]
            (by simp [List.countP_cons, WriteEffect.isComplete, WriteEffect.isSuspend])
          have hcall : WriteSomeToFile.invoke oe pf op ec =
              WriteSomeToFile.poll pf
                { op with
                  WriteOpParams :=
                    some
                      { hEvent := pf.CreateEvent
                        Offset := op.FileOffset % 2 ^ 32
                        OffsetHigh := op.FileOffset / 2 ^ 32 % 2 ^ 32 } }
                [WriteEffect.CreateEvent,
                  WriteEffect.WriteFile (op.FileOffset % 2 ^ 32)
                    (op.FileOffset / 2 ^ 32 % 2 ^ 32) op.Buffer.length] := by
            simp [WriteSomeToFile.invoke, hc, hm, h, he, hw, hl]
          rw [hcall]
          exact ⟨hp.1, fun h0 => Or.inr (hp.2 h0)⟩
        · simp [CompletesOrSuspendsOnce, WriteSomeToFile.invoke, hc, hm, h, he, hw, hl,
            List.countP_cons, WriteEffect.isComplete, WriteEffect.isSuspend]
  · have hp := Write_poll_once pf op [] (by simp)
    have hcall : WriteSomeToFile.invoke oe pf op ec = WriteSomeToFile.poll pf op [] := by
      simp [WriteSomeToFile.invoke, hc, hm, h]
    rw [hcall]
    exact ⟨hp.1, fun h0 => Or.inr (hp.2 h0)⟩

theorem ReadHttp_poll_once (oe : OpEnv) (pf : HttpPlatform) (op : ReadHttpResponseHeadersOp)
    (pre : List HttpEffect)
    (hpre : pre.countP HttpEffect.isComplete = 0 ∧ pre.countP HttpEffect.isSuspend = 0) :
    CompletesOrSuspendsOnce HttpEffect.isComplete HttpEffect.isSuspend
        (ReadHttpResponseHeadersOp.poll oe pf op pre).effects ∧
      ((ReadHttpResponseHeadersOp.poll oe pf op pre).effects.countP HttpEffect.isComplete =
          0 →
        (ReadHttpResponseHeadersOp.poll oe pf op pre).op.CoroutineState =
          CoroutineValue.suspended 1) := by
  unfold CompletesOrSuspendsOnce ReadHttpResponseHeadersOp.poll
  by_cases hw : pf.PeekHandleStatus = WinHTTPCallbackStatus.Waiting
  · simp [hw, List.countP_cons, List.countP_append, hpre.1, hpre.2, HttpEffect.isComplete,
      HttpEffect.isSuspend]
  · rw [if_neg hw]
    split
    · simp [List.countP_cons, List.countP_append, hpre.1, hpre.2, HttpEffect.isComplete,
        HttpEffect.isSuspend]
    · cases pf.WinHttpQueryHeaders <;>
        simp [List.countP_cons, List.countP_append, hpre.1, hpre.2, HttpEffect.isComplete,
          HttpEffect.isSuspend]

theorem ReadHttp_call_once (oe : OpEnv) (pf : HttpPlatform) (op : ReadHttpResponseHeadersOp)
    (ec : ErrorCode)
    (hpos : op.CoroutineState = CoroutineValue.initial ∨
      op.CoroutineState = CoroutineValue.suspended 1) :
    CompletesOrSuspendsOnce HttpEffect.isComplete HttpEffect.isSuspend
        (ReadHttpResponseHeadersOp.invoke oe pf op ec).effects ∧
      ((ReadHttpResponseHeadersOp.invoke oe pf op ec).effects.countP HttpEffect.isComplete =
          0 →
        (ReadHttpResponseHeadersOp.invoke oe pf op ec).op.CoroutineState =
          CoroutineValue.suspended 1) := by
  by_cases hc : (pf.SharedStateExpired || pf.IsClosing) = true
  · unfold ReadHttpResponseHeadersOp.invoke
    rw [if_pos hc]
    simp [CompletesOrSuspendsOnce, List.countP_cons, HttpEffect.isComplete,
      HttpEffect.isSuspend]
  rcases hpos with h | h
  · by_cases hr : pf.WinHttpReceiveResponse = true
    · have hcall : ReadHttpResponseHeadersOp.invoke oe pf op ec =
          ReadHttpResponseHeadersOp.poll oe pf op [HttpEffect.WinHttpReceiveResponse] := by
        unfold ReadHttpResponseHeadersOp.invoke
        rw [if_neg hc, h]
        simp [hr]
      rw [hcall]
      exact ReadHttp_poll_once oe pf op _
        (by simp [List.countP_cons, HttpEffect.isComplete, HttpEffect.isSuspend])
    · unfold ReadHttpResponseHeadersOp.invoke
      rw [if_neg hc, h]
      simp [hr, CompletesOrSuspendsOnce, List.countP_cons, HttpEffect.isComplete,
        HttpEffect.isSuspend]
  · have hcall : ReadHttpResponseHeadersOp.invoke oe pf op ec =
        ReadHttpResponseHeadersOp.poll oe pf op [] := by
      unfold ReadHttpResponseHeadersOp.invoke
      rw [if_neg hc, h]
    rw [hcall]
    exact ReadHttp_poll_once oe pf op _ (by simp)

theorem drive_completes_at_most_once {S I E : Type} (step : S → I → S × List E)
    (isComplete : E → Bool) (inv : S → Prop)
    (hstep : ∀ s i, inv s →
      (step s i).2.countP isComplete = 1 ∨
        ((step s i).2.countP isComplete = 0 ∧ inv (step s i).1))
    (inputs : List I) (s : S) (hs : inv s) :
    (drive step isComplete s inputs).countP isComplete ≤ 1 := by
  induction inputs generalizing s with
  | nil => simp [drive]
  | cons i rest ih =>
    unfold drive
    by_cases hany : (step s i).2.any isComplete = true
    · rw [if_pos hany]
      rcases hstep s i hs with h | h
      · omega
      · omega
    · rw [if_neg hany, List.countP_append]
      have hzero : (step s i).2.countP isComplete = 0 := by
        rw [List.countP_eq_zero]
        intro a ha hp
        exact hany (List.any_eq_true.mpr ⟨a, ha, hp⟩)
      rcases hstep s i hs with h | h
      · omega
      · have := ih (step s i).1 h.2
        omega

/-- C32: for GetGameInfoOp, WriteSomeToFile and ReadHttpResponseHeadersOp, every call of the
operator at a position the coroutine can be in before it has finished (the start, or
suspended at one of its yields) either suspends on exactly one sub-operation (the request,
the executor post or a timer wait) without completing, or completes exactly once and
suspends on nothing. Hence over the life of an operation, called first when constructed and
then once each time the sub-operation it suspended on finishes, complete is called at most
once, whatever the platform answers. -/
theorem C32_completes_exactly_once (oe : OpEnv) :
    (∀ (Cache GameInfo : Type) (svc : GameInfoServices Cache GameInfo) (cache : Cache)
        (op : GetGameInfoOp) (ec : ErrorCode),
        op.CoroutineState = CoroutineValue.initial ∨
          op.CoroutineState = CoroutineValue.suspended 1 →
        CompletesOrSuspendsOnce GetGameInfoEffect.isComplete GetGameInfoEffect.isSuspend
          (GetGameInfoOp.invoke oe svc cache op ec).effects) ∧
      (∀ (pf : WritePlatform) (op : WriteSomeToFile) (ec : ErrorCode),
        op.Coroutine = CoroutineValue.initial ∨ op.Coroutine = CoroutineValue.suspended 1 ∨
          op.Coroutine = CoroutineValue.suspended 2 →
        CompletesOrSuspendsOnce WriteEffect.isComplete WriteEffect.isSuspend
          (WriteSomeToFile.invoke oe pf op ec).effects) ∧
      (∀ (pf : HttpPlatform) (op : ReadHttpResponseHeadersOp) (ec : ErrorCode),
        op.CoroutineState = CoroutineValue.initial ∨
          op.CoroutineState = CoroutineValue.suspended 1 →
        CompletesOrSuspendsOnce HttpEffect.isComplete HttpEffect.isSuspend
          (ReadHttpResponseHeadersOp.invoke oe pf op ec).effects) ∧
      (∀ (Cache GameInfo : Type) (svc : GameInfoServices Cache GameInfo) (cache : Cache)
        (GameID : Int) (ApiKey : String) (inputs : List (ErrorCode × List Nat)),
        (drive (GetGameInfoOp.step oe svc) GetGameInfoEffect.isComplete
          (cache, GetGameInfoOp.create GameID ApiKey) inputs).countP
            GetGameInfoEffect.isComplete ≤ 1) ∧
      (∀ (Offset : Nat) (Buffer : List Nat) (inputs : List (WritePlatform × ErrorCode)),
        (drive (WriteSomeToFile.step oe) WriteEffect.isComplete
          (WriteSomeToFile.create Offset Buffer) inputs).countP WriteEffect.isComplete ≤ 1) ∧
      (∀ (Request : HttpRequestImplementation) (inputs : List (HttpPlatform × ErrorCode)),
        (drive (ReadHttpResponseHeadersOp.step oe) HttpEffect.isComplete
          (ReadHttpResponseHeadersOp.create Request) inputs).countP HttpEffect.isComplete ≤
            1) := by
  refine ⟨fun Cache GameInfo svc cache op ec hpos =>
      (GetGameInfo_call_once oe svc cache op ec hpos).1,
    fun pf op ec hpos => (Write_call_once oe pf op ec hpos).1,
    fun pf op ec hpos => (ReadHttp_call_once oe pf op ec hpos).1, ?_, ?_, ?_⟩
  · intro Cache GameInfo svc cache GameID ApiKey inputs
    refine drive_completes_at_most_once (GetGameInfoOp.step oe svc) _
      (fun s => s.2.CoroutineState = CoroutineValue.initial ∨
        s.2.CoroutineState = CoroutineValue.suspended 1) ?_ inputs _ (Or.inl rfl)
    intro s i hs
    have hlive : (if s.2.CoroutineState = CoroutineValue.initial then s.2
        else { s.2 with ResponseBodyBuffer := i.2 }).CoroutineState = CoroutineValue.initial ∨
        (if s.2.CoroutineState = CoroutineValue.initial then s.2
        else { s.2 with ResponseBodyBuffer := i.2 }).CoroutineState =
          CoroutineValue.suspended 1 := by
      split
      · exact hs
      · exact hs
    have h := GetGameInfo_call_once oe svc s.1 _ i.1 hlive
    rcases h.1 with hc | hc
    · exact Or.inl hc.1
    · exact Or.inr ⟨hc.1, Or.inr (h.2 hc.1)⟩
  · intro Offset Buffer inputs
    refine drive_completes_at_most_once (WriteSomeToFile.step oe) _
      (fun s => s.Coroutine = CoroutineValue.initial ∨
        s.Coroutine = CoroutineValue.suspended 1 ∨ s.Coroutine = CoroutineValue.suspended 2)
      ?_ inputs _ (Or.inl rfl)
    intro s i hs
    have h := Write_call_once oe i.1 s i.2 hs
    rcases h.1 with hc | hc
    · exact Or.inl hc.1
    · exact Or.inr ⟨hc.1, Or.inr (h.2 hc.1)⟩
  · intro Request inputs
    refine drive_completes_at_most_once (ReadHttpResponseHeadersOp.step oe) _
      (fun s => s.CoroutineState = CoroutineValue.initial ∨
        s.CoroutineState = CoroutineValue.suspended 1) ?_ inputs _ (Or.inl rfl)
    intro s i hs
    have h := ReadHttp_call_once oe i.1 s i.2 hs
    rcases h.1 with hc | hc
    · exact Or.inl hc.1
    · exact Or.inr ⟨hc.1, Or.inr (h.2 hc.1)⟩

/-- Witness for C32: a write of three bytes that is pending after WriteFile: the call after
the executor post suspends on the timer and does not complete; and the whole run, ended by
the timer wake-up that finds the write finished, holds one completion. -/
theorem C32_completes_exactly_once_witness :
    CompletesOrSuspendsOnce WriteEffect.isComplete WriteEffect.isSuspend
        (WriteSomeToFile.invoke demoOpEnv (demoWritePlatform false)
          { Buffer := [1, 2, 3], FileOffset := 0, WriteOpParams := none,
            Coroutine := CoroutineValue.suspended 1 }
          { value := 0, category := 0 }).effects ∧
      (drive (WriteSomeToFile.step demoOpEnv) WriteEffect.isComplete
        (WriteSomeToFile.create 0 [1, 2, 3])
        [(demoWritePlatform false, { value := 0, category := 0 }),
          (demoWritePlatform false, { value := 0, category := 0 }),
          (demoWritePlatform true, { value := 0, category := 0 })]).countP
          WriteEffect.isComplete = 1 :=
  ⟨(C32_completes_exactly_once demoOpEnv).2.1 _ _ _ (Or.inr (Or.inl rfl)), by decide⟩

end Modio
